import Mathlib

/-! # Orbiter SDK samples: ramjet thrust model and Atlantis staging

A shallow embedding of three pieces of the Orbiter SDK sample vessels:

* `samples/DeltaGlider/Ramjet.cpp` : the scramjet thermodynamic thrust model
  (`Ramjet::AddThrusterDefinition`, `Ramjet::Thrust`, `Ramjet::TSFC`);
* `samples/Atlantis/Atlantis/Atlantis.cpp` : the launch-stack configuration
  routines, booster and tank separation, `Jettison`, the gimbal law, the
  staging part of `clbkPostStep` and the scenario reader `clbkLoadStateEx`;
* `samples/Atlantis/Atlantis_SRB/Atlantis_SRB.cpp` : the reconstruction of the
  liftoff time of a jettisoned booster (`Atlantis_SRB::SetRefTime`).

C `double` values are embedded in an arbitrary linearly ordered field `α`
(exact arithmetic; rounding, infinities and NaN are outside the embedding).
The C math-library calls are passed in as a record of functions, so every
definition is executable over `ℚ` and every statement holds for any
implementation of them.
-/

namespace Orbiter

/-- The C math-library functions called by the sources: `sqrt`, `pow` and
`_hypot`.  They are not part of the repository and are taken as given. -/
structure Libm (α : Type) where
  /-- The function `sqrt (x)`. -/
  sqrt : α → α
  /-- The function `pow (x, y)`. -/
  pow : α → α → α
  /-- The function `_hypot (x, y)`. -/
  hypot : α → α → α

namespace Win

/-- The `max` macro of the Windows headers used by the sources:
`#define max(a,b) (((a) > (b)) ? (a) : (b))`. -/
def max {α : Type} [LinearOrder α] (a b : α) : α :=
  if a > b then a else b

/-- The `min` macro of the Windows headers:
`#define min(a,b) (((a) < (b)) ? (a) : (b))`. -/
def min {α : Type} [LinearOrder α] (a b : α) : α :=
  if a < b then a else b

end Win

/-! ## Ramjet (samples/DeltaGlider/Ramjet.cpp) -/

/-- The fields of the host's `ATMCONST` record read by `Ramjet::Thrust`. -/
structure ATMCONST (α : Type) where
  /-- Ratio of specific heats. -/
  gamma : α
  /-- Specific gas constant. -/
  R : α

/-- The host queries made by `Ramjet::Thrust` through its `vessel` pointer and
the `oapi` interface.  Handles are natural numbers; a null handle is `none`. -/
structure FlightState (α : Type) where
  /-- The answer of `vessel->GetAtmRef ()`. -/
  GetAtmRef : Option Nat
  /-- The answer of `oapiGetPlanetAtmConstants (hBody)`, null when the body
  has no atmospheric constants. -/
  oapiGetPlanetAtmConstants : Nat → Option (ATMCONST α)
  /-- The answer of `vessel->GetMachNumber ()`. -/
  GetMachNumber : α
  /-- The answer of `vessel->GetAtmTemperature ()`. -/
  GetAtmTemperature : α
  /-- The answer of `vessel->GetAtmPressure ()`. -/
  GetAtmPressure : α
  /-- The answer of `vessel->GetAtmDensity ()`. -/
  GetAtmDensity : α
  /-- The answer of `vessel->GetThrusterLevel (th)`. -/
  GetThrusterLevel : Nat → α

/-- The record `THDEF` of `Ramjet.h`, one per registered engine; the three
entries of the array `T` are `T0`, `T1`, `T2`. -/
structure THDEF (α : Type) where
  /-- Thruster handle. -/
  th : Nat
  /-- Fuel heating value. -/
  Qr : α
  /-- Air intake cross section. -/
  Ai : α
  /-- Maximum burner temperature. -/
  Tb_max : α
  /-- Maximum fuel flow rate. -/
  dmf_max : α
  /-- Current fuel mass rate. -/
  dmf : α
  /-- Current thrust. -/
  F : α
  /-- Diffuser temperature `T[0]`. -/
  T0 : α
  /-- Burner temperature `T[1]`. -/
  T1 : α
  /-- Exhaust temperature `T[2]`. -/
  T2 : α

/-- The class `Ramjet`: the list `thdef` of thruster definitions; `nthdef` is
its length. -/
structure Ramjet (α : Type) where
  /-- The array `thdef`. -/
  thdef : List (THDEF α)

namespace Ramjet

variable {α : Type}

/-- The constructor `Ramjet::Ramjet`: no thrusters associated yet. -/
def new : Ramjet α := ⟨[]⟩

/-- The method `Ramjet::AddThrusterDefinition`: a new definition with zeroed
outputs is appended to the list. -/
def AddThrusterDefinition [Zero α] (r : Ramjet α) (th : Nat)
    (Qr Ai Tb_max dmf_max : α) : Ramjet α :=
  let thd : THDEF α :=
    { th := th, Qr := Qr, Ai := Ai, Tb_max := Tb_max, dmf_max := dmf_max,
      dmf := 0, F := 0, T0 := 0, T1 := 0, T2 := 0 }
  ⟨r.thdef ++ [thd]⟩

/-- The loop `for (i = 0; i < nthdef; i++)` of `Ramjet::Thrust`, started at
index `i`: `body` rewrites the definition `thdef[i]`, and the thrust it stores
is also written to `F[i]`. -/
def thrustLoop (body : THDEF α → THDEF α) :
    Nat → List (THDEF α) → (Nat → α) → List (THDEF α) × (Nat → α)
  | _, [], F => ([], F)
  | i, t :: ts, F =>
    let t1 := body t
    let rest := thrustLoop body (i + 1) ts (fun j => if j = i then t1.F else F j)
    (t1 :: rest.1, rest.2)

/-- The method `Ramjet::Thrust`: the current thrust force of all engines.  The
array argument `F` is a map from indices to values; the result is the updated
engine list with the updated array.  The locals `eps` and `rho` of the source
are assigned and never used, and are left out; the conditional reassignment of
`dmf` and `D` is written as two conditionals on the same test. -/
def Thrust [LinearOrderedField α] (m : Libm α) (vessel : FlightState α)
    (r : Ramjet α) (F : Nat → α) : Ramjet α × (Nat → α) :=
  let atm : Option (ATMCONST α) :=
    match vessel.GetAtmRef with
    | some hBody => vessel.oapiGetPlanetAtmConstants hBody
    | none => none
  match atm with
  | some atm =>
    let dma_scale : α := 2.7e-4
    let M := vessel.GetMachNumber
    let T0 := vessel.GetAtmTemperature
    let p0 := vessel.GetAtmPressure
    let cp := atm.gamma * atm.R / (atm.gamma - 1.0)
    let v0 := M * m.sqrt (atm.gamma * atm.R * T0)
    let tr := 1.0 + 0.5 * (atm.gamma - 1.0) * M * M
    let Td := T0 * tr
    let pd := p0 * m.pow (Td / T0) (atm.gamma / (atm.gamma - 1.0))
    let precov := Win.max 0.0 (1.0 - 0.075 * m.pow (Win.max M 1.0 - 1.0) 1.35)
    let dmafac := dma_scale * precov * pd
    let body := fun (t : THDEF α) =>
      let Tb0 := t.Tb_max
      if Tb0 > Td then
        let lvl := vessel.GetThrusterLevel t.th
        let D0 := (Tb0 - Td) / (t.Qr / cp - Tb0)
        let D1 := D0 * lvl
        let dma := dmafac * t.Ai
        let dmf0 := D1 * dma
        let dmf := if dmf0 > t.dmf_max then t.dmf_max else dmf0
        let D := if dmf0 > t.dmf_max then t.dmf_max / dma else D1
        let Tb := (D * t.Qr / cp + Td) / (1.0 + D)
        let Te := Tb * m.pow (p0 / pd) ((atm.gamma - 1.0) / atm.gamma)
        let ve := m.sqrt (2.0 * cp * (Tb - Te))
        let Fs := (1.0 + D) * ve - v0
        { t with F := Win.max 0.0 (Fs * dma), dmf := dmf, T1 := Tb, T2 := Te, T0 := Td }
      else
        { t with F := 0.0, dmf := 0.0, T1 := Td, T2 := Td, T0 := Td }
    let res := thrustLoop body 0 r.thdef F
    (⟨res.1⟩, res.2)
  | none =>
    let body := fun (t : THDEF α) => { t with F := 0.0, dmf := 0.0 }
    let res := thrustLoop body 0 r.thdef F
    (⟨res.1⟩, res.2)

/-- The states of a `Ramjet` object reachable from its constructor by calls of
`AddThrusterDefinition` and of `Thrust` (under any flight conditions and with
any output array), in any order. -/
inductive Reachable [LinearOrderedField α] (m : Libm α) : Ramjet α → Prop
  | new : Reachable m Ramjet.new
  | add (r : Ramjet α) (th : Nat) (Qr Ai Tb_max dmf_max : α) :
      Reachable m r → Reachable m (AddThrusterDefinition r th Qr Ai Tb_max dmf_max)
  | thrust (r : Ramjet α) (vessel : FlightState α) (F : Nat → α) :
      Reachable m r → Reachable m (Thrust m vessel r F).1

/-! ### The thrust cycle in the words of the specification -/

namespace Spec

/-- Specific heat at constant pressure, `cp = γR/(γ−1)`. -/
def cp [LinearOrderedField α] (gamma R : α) : α := gamma * R / (gamma - 1)

/-- Freestream velocity, `v0 = M·√(γRT0)`. -/
def v0 [LinearOrderedField α] (m : Libm α) (gamma R M T0 : α) : α :=
  M * m.sqrt (gamma * R * T0)

/-- Diffuser temperature, `Td = T0·(1 + 0.5(γ−1)M²)`. -/
def Td [LinearOrderedField α] (gamma M T0 : α) : α :=
  T0 * (1 + 0.5 * (gamma - 1) * M ^ 2)

/-- Diffuser pressure, `pd = p0·(Td/T0)^(γ/(γ−1))`. -/
def pd [LinearOrderedField α] (m : Libm α) (gamma M T0 p0 : α) : α :=
  p0 * m.pow (Td gamma M T0 / T0) (gamma / (gamma - 1))

/-- Pressure recovery, `precov = max(0, 1 − 0.075·(max(M,1)−1)^1.35)`. -/
def precov [LinearOrderedField α] (m : Libm α) (M : α) : α :=
  Max.max 0 (1 - 0.075 * m.pow (Max.max M 1 - 1) 1.35)

/-- Air mass flow, `dma = 2.7e-4·precov·pd·intakeArea`. -/
def dma [LinearOrderedField α] (m : Libm α) (gamma M T0 p0 Ai : α) : α :=
  2.7e-4 * precov m M * pd m gamma M T0 p0 * Ai

/-- Commanded fuel-to-air ratio,
`throttle·(maxBurnerTemp − Td)/(heatingValue/cp − maxBurnerTemp)`. -/
def Dcmd [LinearOrderedField α] (gamma R M T0 throttle Qr Tb_max : α) : α :=
  throttle * (Tb_max - Td gamma M T0) / (Qr / cp gamma R - Tb_max)

/-- Fuel-to-air ratio: the commanded ratio, replaced by `maxFuelFlow/dma` when
`D·dma > maxFuelFlow`. -/
def D [LinearOrderedField α] (m : Libm α) (gamma R M T0 p0 throttle Qr Ai Tb_max dmf_max : α) : α :=
  if Dcmd gamma R M T0 throttle Qr Tb_max * dma m gamma M T0 p0 Ai > dmf_max then
    dmf_max / dma m gamma M T0 p0 Ai
  else Dcmd gamma R M T0 throttle Qr Tb_max

/-- Fuel flow `D·dma`, clamped to `maxFuelFlow`. -/
def dmf [LinearOrderedField α] (m : Libm α) (gamma R M T0 p0 throttle Qr Ai Tb_max dmf_max : α) : α :=
  Min.min (Dcmd gamma R M T0 throttle Qr Tb_max * dma m gamma M T0 p0 Ai) dmf_max

/-- Burner temperature, `Tb = (D·heatingValue/cp + Td)/(1+D)`. -/
def Tb [LinearOrderedField α] (m : Libm α) (gamma R M T0 p0 throttle Qr Ai Tb_max dmf_max : α) : α :=
  (D m gamma R M T0 p0 throttle Qr Ai Tb_max dmf_max * Qr / cp gamma R + Td gamma M T0) /
    (1 + D m gamma R M T0 p0 throttle Qr Ai Tb_max dmf_max)

/-- Exhaust temperature, `Te = Tb·(p0/pd)^((γ−1)/γ)`. -/
def Te [LinearOrderedField α] (m : Libm α) (gamma R M T0 p0 throttle Qr Ai Tb_max dmf_max : α) : α :=
  Tb m gamma R M T0 p0 throttle Qr Ai Tb_max dmf_max *
    m.pow (p0 / pd m gamma M T0 p0) ((gamma - 1) / gamma)

/-- Exhaust velocity, `ve = √(2·cp·(Tb−Te))`. -/
def ve [LinearOrderedField α] (m : Libm α) (gamma R M T0 p0 throttle Qr Ai Tb_max dmf_max : α) : α :=
  m.sqrt (2 * cp gamma R * (Tb m gamma R M T0 p0 throttle Qr Ai Tb_max dmf_max -
    Te m gamma R M T0 p0 throttle Qr Ai Tb_max dmf_max))

/-- Thrust, `F = max(0, ((1+D)·ve − v0)·dma)`. -/
def F [LinearOrderedField α] (m : Libm α) (gamma R M T0 p0 throttle Qr Ai Tb_max dmf_max : α) : α :=
  Max.max 0 (((1 + D m gamma R M T0 p0 throttle Qr Ai Tb_max dmf_max) *
    ve m gamma R M T0 p0 throttle Qr Ai Tb_max dmf_max - v0 m gamma R M T0) *
      dma m gamma M T0 p0 Ai)

end Spec

end Ramjet

/-! ### Sample inputs -/

namespace Sample

/-- The two scramjet engines as `DeltaGlider.cpp` registers them (flight model
0: `SCRAM_FHV[0]`, `SCRAM_INTAKE_AREA`, `SCRAM_TEMAX[0]`, `SCRAM_MAX_DMF[0]`),
with thruster handles 0 and 1. -/
def scramjet (α : Type) [LinearOrderedField α] : Ramjet α :=
  (Ramjet.new.AddThrusterDefinition 0 3.5e8 1.0 3500.0 2.0).AddThrusterDefinition
    1 3.5e8 1.0 3500.0 2.0

/-- A single engine registered with a negative fuel-flow limit. -/
def negativeLimit (α : Type) [LinearOrderedField α] : Ramjet α :=
  Ramjet.new.AddThrusterDefinition 0 3.5e8 1.0 3500.0 (-1.0)

/-- Supersonic flight at Mach 2 in air (γ = 1.4, R = 287), full throttle. -/
def air (α : Type) [LinearOrderedField α] : FlightState α where
  GetAtmRef := some 0
  oapiGetPlanetAtmConstants := fun _ => some ⟨1.4, 287⟩
  GetMachNumber := 2
  GetAtmTemperature := 250
  GetAtmPressure := 10000
  GetAtmDensity := 0.14
  GetThrusterLevel := fun _ => 1

/-- Flight at Mach 10 in the same air: the diffuser temperature, 5250 K, is
above the burner limit of the sample engines. -/
def hypersonic (α : Type) [LinearOrderedField α] : FlightState α :=
  { air α with GetMachNumber := 10 }

/-- Flight with no atmosphere reference, full throttle. -/
def vacuum (α : Type) [LinearOrderedField α] : FlightState α :=
  { air α with GetAtmRef := none }

end Sample

/-! ## Host vessel interface

The base class `VESSEL3` and the `oapi` functions belong to the simulator host
and are not among the sources.  The part of the host state the staging code
reads and writes (propellant resources, thrusters, thruster groups, spawned
vessels, and the telemetry it queries) is modelled below.  Handles are natural
numbers drawn from a counter, so a handle is never issued twice; a null handle
is `none`.  Thruster positions, specific impulses, exhaust and mesh
definitions, mass and aerodynamic parameters and the centre-of-gravity shift
are not part of the model: the staging logic never reads them. -/

/-- The host type `VECTOR3`. -/
structure VECTOR3 (α : Type) where
  /-- Component `x`. -/
  x : α
  /-- Component `y`. -/
  y : α
  /-- Component `z`. -/
  z : α

/-- The host function `_V (x, y, z)`. -/
def _V {α : Type} (x y z : α) : VECTOR3 α := ⟨x, y, z⟩

/-- The host enumeration `THGROUP_TYPE`. -/
inductive THGROUP_TYPE
  | THGROUP_MAIN
  | THGROUP_RETRO
  | THGROUP_HOVER
  | THGROUP_ATT_PITCHUP
  | THGROUP_ATT_PITCHDOWN
  | THGROUP_ATT_YAWLEFT
  | THGROUP_ATT_YAWRIGHT
  | THGROUP_ATT_BANKLEFT
  | THGROUP_ATT_BANKRIGHT
  | THGROUP_ATT_RIGHT
  | THGROUP_ATT_LEFT
  | THGROUP_ATT_UP
  | THGROUP_ATT_DOWN
  | THGROUP_ATT_FORWARD
  | THGROUP_ATT_BACK
  | THGROUP_USER
  deriving DecidableEq, Repr

open THGROUP_TYPE

/-- A propellant resource of the host. -/
structure PropellantResource (α : Type) where
  /-- The handle `PROPELLANT_HANDLE`. -/
  handle : Nat
  /-- Capacity. -/
  maxmass : α
  /-- Current propellant mass. -/
  mass : α

/-- A thruster of the host. -/
structure Thruster (α : Type) where
  /-- The handle `THRUSTER_HANDLE`. -/
  handle : Nat
  /-- Thrust direction. -/
  dir : VECTOR3 α
  /-- Vacuum thrust rating. -/
  maxth0 : α
  /-- Propellant resource feeding the thruster. -/
  hp : Option Nat
  /-- Current thrust level. -/
  level : α

/-- A thruster group of the host. -/
structure ThrusterGroup where
  /-- The handle `THGROUP_HANDLE`. -/
  handle : Nat
  /-- Group type. -/
  thgt : THGROUP_TYPE
  /-- Handles of the member thrusters. -/
  th : List Nat
  deriving DecidableEq, Repr

/-- A vessel created with `oapiCreateVesselEx`: its name, its class, and the
thruster and fuel levels passed in its status record. -/
structure Spawned (α : Type) where
  /-- Vessel name. -/
  name : String
  /-- Vessel class name. -/
  classname : String
  /-- Level of thruster 0 in the status record. -/
  thrust_level : α
  /-- Level of fuel resource 0 in the status record. -/
  fuel_level : α

/-- Modelled from the spec: the host-side state of a vessel (the base class
`VESSEL3` with the `oapi` queries), which is missing from the sources.  The
spec lists its query functions (throttle level of an engine, propellant mass of
a propellant handle, playback mode, simulation time) and its mutator functions
(create and destroy thruster and propellant handles, set a thruster direction,
create and destroy a thruster group, spawn an independent object). -/
structure VESSEL (α : Type) where
  /-- The answer of `GetName ()`. -/
  name : String
  /-- The next handle to be issued. -/
  nextHandle : Nat
  /-- The propellant resources. -/
  propellants : List (PropellantResource α)
  /-- The thrusters. -/
  thrusters : List (Thruster α)
  /-- The thruster groups. -/
  groups : List ThrusterGroup
  /-- The vessels created so far with `oapiCreateVesselEx`. -/
  created : List (Spawned α)
  /-- The answer of `Playback ()`. -/
  Playback : Bool
  /-- The answer of `GetEngineLevel (ENGINE_MAIN)`. -/
  GetEngineLevel_MAIN : α
  /-- The answer of `oapiGetSimTime ()`. -/
  oapiGetSimTime : α
  /-- Whether `GetAttachmentStatus (sat_attach)` is non-null. -/
  satAttached : Bool

namespace VESSEL

variable {α : Type}

/-- Modelled from the spec: `CreatePropellantResource (maxmass)`, a new full
propellant resource with a fresh handle. -/
def CreatePropellantResource (v : VESSEL α) (maxmass : α) : VESSEL α × Nat :=
  ({ v with
      nextHandle := v.nextHandle + 1
      propellants := v.propellants ++ [⟨v.nextHandle, maxmass, maxmass⟩] },
   v.nextHandle)

/-- Modelled from the spec: `DelPropellantResource (ph)`, which removes the
resource, disconnects the thrusters it fed, and nulls the handle variable
passed by reference (the new value of the variable is the second component).
A null handle is left alone. -/
def DelPropellantResource (v : VESSEL α) (ph : Option Nat) : VESSEL α × Option Nat :=
  match ph with
  | none => (v, none)
  | some h =>
    ({ v with
        propellants := v.propellants.filter (fun p => p.handle != h)
        thrusters := v.thrusters.map
          (fun t => if t.hp = some h then { t with hp := none } else t) },
     none)

/-- Modelled from the spec: `GetPropellantMass (ph)`; a handle with no resource
reads as 0. -/
def GetPropellantMass [Zero α] (v : VESSEL α) (ph : Option Nat) : α :=
  match v.propellants.find? (fun p => some p.handle == ph) with
  | some p => p.mass
  | none => 0

/-- Modelled from the spec: `ClearThrusterDefinitions ()`, which deletes all
thrusters and all thruster groups. -/
def ClearThrusterDefinitions (v : VESSEL α) : VESSEL α :=
  { v with thrusters := [], groups := [] }

/-- Modelled from the spec: `CreateThruster (pos, dir, maxth0, hp, isp0, isp1)`,
a new thruster at level 0 with a fresh handle. -/
def CreateThruster [Zero α] (v : VESSEL α) (dir : VECTOR3 α) (maxth0 : α)
    (hp : Option Nat) : VESSEL α × Nat :=
  ({ v with
      nextHandle := v.nextHandle + 1
      thrusters := v.thrusters ++ [⟨v.nextHandle, dir, maxth0, hp, 0⟩] },
   v.nextHandle)

/-- Modelled from the spec: `CreateThrusterGroup (th, nth, thgt)`.  A group of a
standard type replaces the group of that type; user groups accumulate. -/
def CreateThrusterGroup (v : VESSEL α) (th : List Nat) (thgt : THGROUP_TYPE) :
    VESSEL α × Nat :=
  let kept := if thgt = THGROUP_USER then v.groups
    else v.groups.filter (fun g => g.thgt != thgt)
  ({ v with
      nextHandle := v.nextHandle + 1
      groups := kept ++ [⟨v.nextHandle, thgt, th⟩] },
   v.nextHandle)

/-- Removal of the thrusters with the given handles, from the thruster list and
from every group that lists them. -/
def delThrusters (v : VESSEL α) (hs : List Nat) : VESSEL α :=
  { v with
    thrusters := v.thrusters.filter (fun t => !hs.contains t.handle)
    groups := v.groups.map
      (fun g => { g with th := g.th.filter (fun h => !hs.contains h) }) }

/-- Modelled from the spec: `DelThrusterGroup (thg, thgt, delth)`, which
destroys the group with handle `thg` (and, with `delth`, its thrusters) and
nulls the handle variable passed by reference (second component). -/
def DelThrusterGroup (v : VESSEL α) (thg : Option Nat) (delth : Bool) :
    VESSEL α × Option Nat :=
  match thg with
  | none => (v, none)
  | some h =>
    let members := (v.groups.filter (fun g => g.handle == h)).flatMap (fun g => g.th)
    let v1 := { v with groups := v.groups.filter (fun g => g.handle != h) }
    (if delth then v1.delThrusters members else v1, none)

/-- Modelled from the spec: `DelThrusterGroup (thgt, delth)`, which destroys
the group of type `thgt` (and, with `delth`, its thrusters). -/
def DelThrusterGroupType (v : VESSEL α) (thgt : THGROUP_TYPE) (delth : Bool) : VESSEL α :=
  let members := (v.groups.filter (fun g => g.thgt == thgt)).flatMap (fun g => g.th)
  let v1 := { v with groups := v.groups.filter (fun g => g.thgt != thgt) }
  if delth then v1.delThrusters members else v1

/-- Modelled from the spec: `ThrusterGroupDefined (thgt)`. -/
def ThrusterGroupDefined (v : VESSEL α) (thgt : THGROUP_TYPE) : Bool :=
  v.groups.any (fun g => g.thgt == thgt)

/-- Modelled from the spec: `GetThrusterLevel (th)`; a handle with no thruster
reads as 0. -/
def GetThrusterLevel [Zero α] (v : VESSEL α) (th : Nat) : α :=
  match v.thrusters.find? (fun t => t.handle == th) with
  | some t => t.level
  | none => 0

/-- Modelled from the spec: `SetThrusterLevel (th, level)`. -/
def SetThrusterLevel (v : VESSEL α) (th : Nat) (level : α) : VESSEL α :=
  { v with
    thrusters := v.thrusters.map
      (fun t => if t.handle = th then { t with level := level } else t) }

/-- Modelled from the spec: `SetThrusterDir (th, dir)`. -/
def SetThrusterDir (v : VESSEL α) (th : Nat) (dir : VECTOR3 α) : VESSEL α :=
  { v with
    thrusters := v.thrusters.map
      (fun t => if t.handle = th then { t with dir := dir } else t) }

/-- Modelled from the spec: `oapiCreateVesselEx (name, classname, status)`. -/
def oapiCreateVesselEx (v : VESSEL α) (name classname : String)
    (thrust_level fuel_level : α) : VESSEL α :=
  { v with created := v.created ++ [⟨name, classname, thrust_level, fuel_level⟩] }

/-- Modelled from the spec: `DetachChild (sat_attach, vel)`. -/
def DetachChild_sat (v : VESSEL α) : VESSEL α :=
  { v with satAttached := false }

end VESSEL

/-! ## Atlantis (samples/Atlantis/Atlantis) -/

/-- Amount of fuel the orbiter can hold in internal OMS tanks (`Atlantis.h`). -/
def ORBITER_MAX_PROPELLANT_MASS {α : Type} [LinearOrderedField α] : α := 21600.0

/-- Vacuum thrust rating per main engine (`Atlantis.h`). -/
def ORBITER_MAIN_THRUST {α : Type} [LinearOrderedField α] : α := 1668652.0 * 1.25

/-- Vacuum thrust per unit for the Orbital Maneuvering System (`Atlantis.h`). -/
def ORBITER_OMS_THRUST {α : Type} [LinearOrderedField α] : α := 26700.0

/-- Vacuum thrust rating for attitude thrusters (`Atlantis.h`). -/
def ORBITER_RCS_THRUST {α : Type} [LinearOrderedField α] : α := 7740.0

/-- Main tank propellant mass (`Atlantis.h`). -/
def TANK_MAX_PROPELLANT_MASS {α : Type} [LinearOrderedField α] : α := 719115.0

/-- SRB propellant mass (`Atlantis.h`). -/
def SRB_MAX_PROPELLANT_MASS {α : Type} [LinearOrderedField α] : α := 502126.0

/-- Vacuum SRB thrust per unit (`Atlantis.h`). -/
def SRB_THRUST {α : Type} [LinearOrderedField α] : α := 1202020.0 * 9.81 * 1.25

/-- Max attitude thrust during launch phase (`Atlantis.h`). -/
def MAX_ATT_LAUNCH {α : Type} [LinearOrderedField α] : α := 1e5

/-- Max roll thrust during launch phase (`Atlantis.h`). -/
def MAX_ROLL_SRB {α : Type} [LinearOrderedField α] : α := 2.5e5

/-- MET: -SRB ignition (`Atlantis.h`). -/
def SRB_STABILISATION_TIME {α : Type} [LinearOrderedField α] : α := 4.0

/-- MET: SRB separation (`Atlantis.h`). -/
def SRB_SEPARATION_TIME {α : Type} [LinearOrderedField α] : α := 126.0

/-- MET: engine shutdown (`Atlantis.h`). -/
def SRB_CUTOUT_TIME {α : Type} [LinearOrderedField α] : α := 135.0

/-- The class `Atlantis` (`Atlantis.h`), restricted to the members the staging
logic uses, on top of the host state of its base class. -/
structure Atlantis (α : Type) extends VESSEL α where
  /-- Member `status`: 0 = launch configuration, 1 = SRB's engaged,
  2 = SRB's separated, 3 = tank separated (orbiter only). -/
  status : Int
  /-- Member `bManualSeparate`: flag for user-induced booster or tank
  separation. -/
  bManualSeparate : Bool
  /-- Member `t0`: reference time, designated liftoff time. -/
  t0 : α
  /-- Member `ph_oms`. -/
  ph_oms : Option Nat
  /-- Member `ph_tank`. -/
  ph_tank : Option Nat
  /-- Member `ph_srb`. -/
  ph_srb : Option Nat
  /-- Member `th_main[0]`. -/
  th_main0 : Nat
  /-- Member `th_main[1]`. -/
  th_main1 : Nat
  /-- Member `th_main[2]`. -/
  th_main2 : Nat
  /-- Member `th_srb[0]`. -/
  th_srb0 : Nat
  /-- Member `th_srb[1]`. -/
  th_srb1 : Nat
  /-- Member `thg_main`. -/
  thg_main : Option Nat
  /-- Member `thg_srb`. -/
  thg_srb : Option Nat

namespace Atlantis

variable {α : Type} [LinearOrderedField α]

/-- The constructor `Atlantis::Atlantis` on the host state `v`.  The members it
leaves unset are `t0`, given as an argument, and the thruster handle arrays,
taken as 0. -/
def new (v : VESSEL α) (t0 : α) : Atlantis α :=
  { v with
    status := 3
    bManualSeparate := false
    t0 := t0
    ph_oms := none
    ph_tank := none
    ph_srb := none
    th_main0 := 0
    th_main1 := 0
    th_main2 := 0
    th_srb0 := 0
    th_srb1 := 0
    thg_main := none
    thg_srb := none }

/-- The method `Atlantis::CreateAttControls`: twelve thrusters fed from
`ph_tank`, in six attitude groups. -/
def CreateAttControls (a : Atlantis α) (th_pitch th_roll th_yaw : α) : Atlantis α :=
  let v := a.toVESSEL
  let h0 := v.CreateThruster (_V 0 1 0) th_pitch a.ph_tank
  let h1 := h0.1.CreateThruster (_V 0 (-1) 0) th_pitch a.ph_tank
  let v := (h1.1.CreateThrusterGroup [h0.2, h1.2] THGROUP_ATT_PITCHUP).1
  let h0 := v.CreateThruster (_V 0 (-1) 0) th_pitch a.ph_tank
  let h1 := h0.1.CreateThruster (_V 0 1 0) th_pitch a.ph_tank
  let v := (h1.1.CreateThrusterGroup [h0.2, h1.2] THGROUP_ATT_PITCHDOWN).1
  let h0 := v.CreateThruster (_V 0 1 0) th_roll a.ph_tank
  let h1 := h0.1.CreateThruster (_V 0 (-1) 0) th_roll a.ph_tank
  let v := (h1.1.CreateThrusterGroup [h0.2, h1.2] THGROUP_ATT_BANKLEFT).1
  let h0 := v.CreateThruster (_V 0 (-1) 0) th_roll a.ph_tank
  let h1 := h0.1.CreateThruster (_V 0 1 0) th_roll a.ph_tank
  let v := (h1.1.CreateThrusterGroup [h0.2, h1.2] THGROUP_ATT_BANKRIGHT).1
  let h0 := v.CreateThruster (_V 1 0 0) th_yaw a.ph_tank
  let h1 := h0.1.CreateThruster (_V (-1) 0 0) th_yaw a.ph_tank
  let v := (h1.1.CreateThrusterGroup [h0.2, h1.2] THGROUP_ATT_YAWRIGHT).1
  let h0 := v.CreateThruster (_V (-1) 0 0) th_yaw a.ph_tank
  let h1 := h0.1.CreateThruster (_V 1 0 0) th_yaw a.ph_tank
  let v := (h1.1.CreateThrusterGroup [h0.2, h1.2] THGROUP_ATT_YAWLEFT).1
  { a with toVESSEL := v }

/-- The method `Atlantis::CreateAttControls_Launch`. -/
def CreateAttControls_Launch (a : Atlantis α) : Atlantis α :=
  a.CreateAttControls MAX_ATT_LAUNCH MAX_ROLL_SRB MAX_ATT_LAUNCH

/-- The method `Atlantis::CreateAttControls_RCS`: fourteen thrusters fed from
`ph_oms`, in twelve attitude groups. -/
def CreateAttControls_RCS (a : Atlantis α) : Atlantis α :=
  let v := a.toVESSEL
  let r0 := v.CreateThruster (_V 0 1 0) ORBITER_RCS_THRUST a.ph_oms
  let r1 := r0.1.CreateThruster (_V 0 (-1) 0) ORBITER_RCS_THRUST a.ph_oms
  let r2 := r1.1.CreateThruster (_V 0 (-1) 0) ORBITER_RCS_THRUST a.ph_oms
  let r3 := r2.1.CreateThruster (_V 0 1 0) ORBITER_RCS_THRUST a.ph_oms
  let v := (r3.1.CreateThrusterGroup [r0.2, r1.2] THGROUP_ATT_PITCHUP).1
  let v := (v.CreateThrusterGroup [r2.2, r3.2] THGROUP_ATT_PITCHDOWN).1
  let v := (v.CreateThrusterGroup [r0.2, r3.2] THGROUP_ATT_UP).1
  let v := (v.CreateThrusterGroup [r2.2, r1.2] THGROUP_ATT_DOWN).1
  let r0 := v.CreateThruster (_V (-1) 0 0) ORBITER_RCS_THRUST a.ph_oms
  let r1 := r0.1.CreateThruster (_V 1 0 0) ORBITER_RCS_THRUST a.ph_oms
  let r2 := r1.1.CreateThruster (_V 1 0 0) ORBITER_RCS_THRUST a.ph_oms
  let r3 := r2.1.CreateThruster (_V (-1) 0 0) ORBITER_RCS_THRUST a.ph_oms
  let v := (r3.1.CreateThrusterGroup [r0.2, r1.2] THGROUP_ATT_YAWLEFT).1
  let v := (v.CreateThrusterGroup [r2.2, r3.2] THGROUP_ATT_YAWRIGHT).1
  let v := (v.CreateThrusterGroup [r0.2, r3.2] THGROUP_ATT_LEFT).1
  let v := (v.CreateThrusterGroup [r2.2, r1.2] THGROUP_ATT_RIGHT).1
  let r0 := v.CreateThruster (_V 0 1 0) ORBITER_RCS_THRUST a.ph_oms
  let r1 := r0.1.CreateThruster (_V 0 (-1) 0) ORBITER_RCS_THRUST a.ph_oms
  let r2 := r1.1.CreateThruster (_V 0 1 0) ORBITER_RCS_THRUST a.ph_oms
  let r3 := r2.1.CreateThruster (_V 0 (-1) 0) ORBITER_RCS_THRUST a.ph_oms
  let v := (r3.1.CreateThrusterGroup [r0.2, r1.2] THGROUP_ATT_BANKLEFT).1
  let v := (v.CreateThrusterGroup [r2.2, r3.2] THGROUP_ATT_BANKRIGHT).1
  let l0 := v.CreateThruster (_V 0 0 1) ORBITER_RCS_THRUST a.ph_oms
  let l1 := l0.1.CreateThruster (_V 0 0 (-1)) ORBITER_RCS_THRUST a.ph_oms
  let v := (l1.1.CreateThrusterGroup [l0.2] THGROUP_ATT_FORWARD).1
  let v := (v.CreateThrusterGroup [l1.2] THGROUP_ATT_BACK).1
  { a with toVESSEL := v }

/-- The method `Atlantis::SetLaunchConfiguration`: launch configuration setup
(orbiter + tank + SRB). -/
def SetLaunchConfiguration (a : Atlantis α) : Atlantis α :=
  -- propellant specs
  let a := if a.ph_oms.isNone then
      let r := a.toVESSEL.CreatePropellantResource ORBITER_MAX_PROPELLANT_MASS
      { a with toVESSEL := r.1, ph_oms := some r.2 }
    else a
  let a := if a.ph_tank.isNone then
      let r := a.toVESSEL.CreatePropellantResource TANK_MAX_PROPELLANT_MASS
      { a with toVESSEL := r.1, ph_tank := some r.2 }
    else a
  let a := if a.ph_srb.isNone then
      let r := a.toVESSEL.CreatePropellantResource (SRB_MAX_PROPELLANT_MASS * 2.0)
      { a with toVESSEL := r.1, ph_srb := some r.2 }
    else a
  -- thruster definitions
  let v := a.toVESSEL.ClearThrusterDefinitions
  -- orbiter main thrusters
  let m0 := v.CreateThruster (_V 0.04994 0.0 0.99875) ORBITER_MAIN_THRUST a.ph_tank
  let m1 := m0.1.CreateThruster (_V (-0.04994) 0.0 0.99875) ORBITER_MAIN_THRUST a.ph_tank
  let m2 := m1.1.CreateThruster (_V 0.0 (-0.13) 1) ORBITER_MAIN_THRUST a.ph_tank
  let g := m2.1.CreateThrusterGroup [m0.2, m1.2, m2.2] THGROUP_MAIN
  -- SRBs
  let s0 := g.1.CreateThruster (_V 0 0.023643 0.999720) SRB_THRUST a.ph_srb
  let s1 := s0.1.CreateThruster (_V 0 0.023643 0.999720) SRB_THRUST a.ph_srb
  let gs := s1.1.CreateThrusterGroup [s0.2, s1.2] THGROUP_USER
  let a := { a with
    toVESSEL := gs.1
    th_main0 := m0.2, th_main1 := m1.2, th_main2 := m2.2, thg_main := some g.2
    th_srb0 := s0.2, th_srb1 := s1.2, thg_srb := some gs.2 }
  -- attitude
  let a := a.CreateAttControls_Launch
  { a with status := 0 }

/-- The method `Atlantis::SetPostLaunchConfiguration`: configuration after
launch, before SRB separation. -/
def SetPostLaunchConfiguration (a : Atlantis α) (met : α) : Atlantis α :=
  let a := a.SetLaunchConfiguration
  { a with t0 := -met, status := 1 }

/-- The method `Atlantis::SetOrbiterTankConfiguration`: configuration after
booster separation (orbiter + tank). -/
def SetOrbiterTankConfiguration (a : Atlantis α) : Atlantis α :=
  -- propellant specs
  let a := if a.ph_oms.isNone then
      let r := a.toVESSEL.CreatePropellantResource ORBITER_MAX_PROPELLANT_MASS
      { a with toVESSEL := r.1, ph_oms := some r.2 }
    else a
  let a := if a.ph_tank.isNone then
      let r := a.toVESSEL.CreatePropellantResource TANK_MAX_PROPELLANT_MASS
      { a with toVESSEL := r.1, ph_tank := some r.2 }
    else a
  -- thruster definitions
  let a := if a.thg_main.isSome then
      -- main engines already defined - just modify parameters
      let v := a.toVESSEL.SetThrusterDir a.th_main0 (_V 0.0624 (-0.1789) 0.9819)
      let v := v.SetThrusterDir a.th_main1 (_V (-0.0624) (-0.1789) 0.9819)
      let v := v.SetThrusterDir a.th_main2 (_V 0.0 (-0.308046) 0.951372)
      { a with toVESSEL := v }
    else
      -- create main engines
      let m0 := a.toVESSEL.CreateThruster (_V 0.0624 (-0.1789) 0.9819) ORBITER_MAIN_THRUST a.ph_tank
      let m1 := m0.1.CreateThruster (_V (-0.0624) (-0.1789) 0.9819) ORBITER_MAIN_THRUST a.ph_tank
      let m2 := m1.1.CreateThruster (_V 0.0 (-0.308046) 0.951372) ORBITER_MAIN_THRUST a.ph_tank
      let g := m2.1.CreateThrusterGroup [m0.2, m1.2, m2.2] THGROUP_MAIN
      { a with
        toVESSEL := g.1
        th_main0 := m0.2, th_main1 := m1.2, th_main2 := m2.2, thg_main := some g.2 }
  let a := if !a.toVESSEL.ThrusterGroupDefined THGROUP_ATT_PITCHUP then
      a.CreateAttControls_Launch
    else a
  { a with status := 2 }

/-- The method `Atlantis::SetOrbiterConfiguration`: configuration after tank
separation (orbiter only). -/
def SetOrbiterConfiguration (a : Atlantis α) : Atlantis α :=
  -- propellant specs
  let a := if a.ph_oms.isNone then
      let r := a.toVESSEL.CreatePropellantResource ORBITER_MAX_PROPELLANT_MASS
      { a with toVESSEL := r.1, ph_oms := some r.2 }
    else a
  -- OMS (Orbital Manouevering System)
  let m0 := a.toVESSEL.CreateThruster (_V 0.03 (-0.25885) 0.96545) ORBITER_OMS_THRUST a.ph_oms
  let m1 := m0.1.CreateThruster (_V (-0.03) (-0.25885) 0.96545) ORBITER_OMS_THRUST a.ph_oms
  let g := m1.1.CreateThrusterGroup [m0.2, m1.2] THGROUP_MAIN
  let a := { a with
    toVESSEL := g.1
    th_main0 := m0.2, th_main1 := m1.2, thg_main := some g.2 }
  -- RCS (Reaction Control System)
  let a := a.CreateAttControls_RCS
  { a with status := 3 }

/-- The method `Atlantis::SeparateBoosters`.  The function `GetSRB_State`
(thrust level and propellant level of the boosters as a function of mission
time) is defined outside the sources and is passed in. -/
def SeparateBoosters (GetSRB_State : α → α × α) (a : Atlantis α) (met : α) : Atlantis α :=
  -- Create SRB's as individual objects
  let lv := GetSRB_State met
  let v := a.toVESSEL.oapiCreateVesselEx (a.name ++ "-SRB1") "Atlantis_SRB" lv.1 lv.2
  let v := v.oapiCreateVesselEx (a.name ++ "-SRB2") "Atlantis_SRB" lv.1 lv.2
  -- Remove SRB's from Shuttle instance
  let p := v.DelPropellantResource a.ph_srb
  let g := p.1.DelThrusterGroup a.thg_srb true
  let a := { a with toVESSEL := g.1, ph_srb := p.2, thg_srb := g.2 }
  -- reconfigure
  a.SetOrbiterTankConfiguration

/-- The method `Atlantis::SeparateTank`. -/
def SeparateTank (a : Atlantis α) : Atlantis α :=
  -- Create Tank as individual object
  let v := a.toVESSEL.oapiCreateVesselEx (a.name ++ "-Tank") "Atlantis_Tank" 0 0
  -- Remove Tank from shuttle instance
  let p := v.DelPropellantResource a.ph_tank
  -- main engines are done
  let g := p.1.DelThrusterGroup a.thg_main true
  -- clear launch attitude control system
  let v := g.1.DelThrusterGroupType THGROUP_ATT_PITCHUP true
  let v := v.DelThrusterGroupType THGROUP_ATT_PITCHDOWN true
  let v := v.DelThrusterGroupType THGROUP_ATT_BANKLEFT true
  let v := v.DelThrusterGroupType THGROUP_ATT_BANKRIGHT true
  let v := v.DelThrusterGroupType THGROUP_ATT_YAWLEFT true
  let v := v.DelThrusterGroupType THGROUP_ATT_YAWRIGHT true
  let a := { a with toVESSEL := v, ph_tank := p.2, thg_main := g.2 }
  -- reconfigure
  a.SetOrbiterConfiguration

/-- The method `Atlantis::AutoMainGimbal`: automatic gimbal adjustment of the
upper main engine to correct for SRB thrust variations. -/
def AutoMainGimbal (m : Libm α) (a : Atlantis α) : Atlantis α :=
  let F_srb : α := SRB_THRUST * a.toVESSEL.GetThrusterLevel a.th_srb0
  let F_main : α := ORBITER_MAIN_THRUST * a.toVESSEL.GetThrusterLevel a.th_main0
  if F_main ≠ 0 then
    let M_srb := 2.51951112 * F_srb
    let M_m2 := -12.02495 * F_main
    let M_0 := M_srb + M_m2
    let ry : α := 9.42
    let rz : α := -23.295
    let ry2 := ry * ry
    let rz2 := rz * rz
    let F2 := F_main * F_main
    let M2 := M_0 * M_0
    let term := -M2 + F2 * (ry2 + rz2)
    let arg1 := Win.max 0.0 (rz2 * term)
    let scale := 1.0 / (F_main * (ry2 + rz2))
    let dz := (M_0 * ry + m.sqrt arg1) * scale
    let arg2 := Win.max 0.0 (ry2 * term)
    let dy := -(M_0 * rz + m.sqrt arg2) * scale
    let len := m.hypot dy dz
    let dy1 := if arg1 = 0 ∨ arg2 = 0 then dy / len else dy
    let dz1 := if arg1 = 0 ∨ arg2 = 0 then dz / len else dz
    { a with toVESSEL := a.toVESSEL.SetThrusterDir a.th_main2 (_V 0 dy1 dz1) }
  else a

/-- The method `Atlantis::Jettison`. -/
def Jettison (GetSRB_State : α → α × α) (a : Atlantis α) : Atlantis α :=
  if a.status = 0 ∨ a.status = 3 then a  -- nothing to do
  else if a.status = 1 then  -- abandon boosters
    a.SeparateBoosters GetSRB_State (a.oapiGetSimTime - a.t0)
  else if a.status = 2 then  -- abandon tank
    a.SeparateTank
  else a

/-- The method `Atlantis::clbkPostStep`, its `switch (status)` statement.  The
rest of the method (engine light level, launch clamp force, EVA, payload bay,
landing gear, speedbrake and arm animation) writes none of the members and
host tables of the model and is left out. -/
def clbkPostStep (m : Libm α) (GetSRB_State : α → α × α) (a : Atlantis α)
    (simt : α) : Atlantis α :=
  if a.status = 0 then  -- launch configuration
    if a.GetEngineLevel_MAIN > 0.95 then
      { a with status := 1, t0 := simt + SRB_STABILISATION_TIME }
    else a.AutoMainGimbal m
  else if a.status = 1 then  -- SRB's ignited
    let met := simt - a.t0
    if (met > SRB_SEPARATION_TIME ∧ ¬ a.Playback) ∨ a.bManualSeparate then
      let a := a.SeparateBoosters GetSRB_State met
      { a with bManualSeparate := false }
    else
      let lv := GetSRB_State met
      let v := a.toVESSEL.SetThrusterLevel a.th_srb0 lv.1
      let v := v.SetThrusterLevel a.th_srb1 lv.1
      let a := { a with toVESSEL := v }
      a.AutoMainGimbal m
  else if a.status = 2 then  -- post SRB separation
    if (a.toVESSEL.GetPropellantMass a.ph_tank < 1.0 ∧ ¬ a.Playback) ∨ a.bManualSeparate then
      let a := a.SeparateTank
      { a with bManualSeparate := false }
    else a
  else if a.status = 3 then  -- post tank separation
    if a.bManualSeparate ∧ a.satAttached then
      { a with toVESSEL := a.toVESSEL.DetachChild_sat, bManualSeparate := false }
    else a
  else a

end Atlantis

namespace VESSEL

variable {α : Type}

/-- Well-formedness of the host tables: every handle in use (of a propellant
resource, a thruster, a thruster group or a group member) was issued by the
handle counter. -/
def wf (v : VESSEL α) : Prop :=
  (∀ p ∈ v.propellants, p.handle < v.nextHandle) ∧
  (∀ t ∈ v.thrusters, t.handle < v.nextHandle) ∧
  (∀ g ∈ v.groups, g.handle < v.nextHandle ∧ ∀ h ∈ g.th, h < v.nextHandle)

/-- The host state `w` comes after `v`: the handle counter has not gone back,
and every propellant resource, thruster and thruster group of `w` either was
already in `v` (same handle, same group type) or carries a handle issued since. -/
def Grows (v w : VESSEL α) : Prop :=
  v.nextHandle ≤ w.nextHandle ∧
  (∀ p ∈ w.propellants, (∃ q ∈ v.propellants, q.handle = p.handle) ∨ v.nextHandle ≤ p.handle) ∧
  (∀ t ∈ w.thrusters, (∃ q ∈ v.thrusters, q.handle = t.handle) ∨ v.nextHandle ≤ t.handle) ∧
  (∀ g ∈ w.groups, (∃ q ∈ v.groups, q.handle = g.handle ∧ q.thgt = g.thgt) ∨
    v.nextHandle ≤ g.handle)

instance (v : VESSEL α) : Decidable v.wf := by
  unfold wf
  infer_instance

end VESSEL

/-- The six attitude group types of the launch-phase attitude control system
(`Atlantis::CreateAttControls`). -/
def launchAttGroups : List THGROUP_TYPE :=
  [THGROUP_ATT_PITCHUP, THGROUP_ATT_PITCHDOWN, THGROUP_ATT_BANKLEFT, THGROUP_ATT_BANKRIGHT,
   THGROUP_ATT_YAWLEFT, THGROUP_ATT_YAWRIGHT]

/-! ### Sample vehicle states -/

namespace Sample

/-- The host state of a vessel named Atlantis before any resource is created
(handles start at 1), at simulation time `simt`. -/
def host (α : Type) [LinearOrderedField α] (simt : α) : VESSEL α where
  name := "Atlantis"
  nextHandle := 1
  propellants := []
  thrusters := []
  groups := []
  created := []
  Playback := false
  GetEngineLevel_MAIN := 0
  oapiGetSimTime := simt
  satAttached := false

/-- The launch stack on the pad: constructor, then `SetLaunchConfiguration`. -/
def onPad (α : Type) [LinearOrderedField α] : Atlantis α :=
  (Atlantis.new (host α 0) 0).SetLaunchConfiguration

/-- The launch stack on the pad with the main engines at full throttle. -/
def throttleUp (α : Type) [LinearOrderedField α] : Atlantis α :=
  { onPad α with GetEngineLevel_MAIN := 1 }

/-- The stack 50 s into the booster burn at simulation time 50: constructor,
then `SetPostLaunchConfiguration (50)`. -/
def ascent (α : Type) [LinearOrderedField α] : Atlantis α :=
  (Atlantis.new (host α 50) 0).SetPostLaunchConfiguration 50

/-- Orbiter and tank after the boosters of `ascent` were jettisoned (with the
booster levels reported as zero). -/
def coasting (α : Type) [LinearOrderedField α] : Atlantis α :=
  (ascent α).Jettison (fun _ => (0, 0))

/-- Orbiter and tank (`coasting`) with a manual separation request pending. -/
def tankJettisonRequested (α : Type) [LinearOrderedField α] : Atlantis α :=
  { coasting α with bManualSeparate := true }

end Sample

namespace Atlantis

variable {α : Type} [LinearOrderedField α]

/-- One call in a run of the vehicle: the host first changes its own state
(telemetry, thruster levels, propellant masses, attachments) and the key
handler may set or leave the manual-separation flag; then either a per-step
update `clbkPostStep` at some simulation time or a call of `Jettison` follows.
The members `status`, `t0` and the handles are only written by the call. -/
def Next (m : Libm α) (GetSRB_State : α → α × α) (a b : Atlantis α) : Prop :=
  ∃ (v : VESSEL α) (flag : Bool),
    (∃ simt : α,
      b = clbkPostStep m GetSRB_State { a with toVESSEL := v, bManualSeparate := flag } simt) ∨
    b = Jettison GetSRB_State { a with toVESSEL := v, bManualSeparate := flag }

/-- The number of transitions from `status = 0` (Assembled) to `status = 1`
(BoostersBurning) between consecutive states of a run. -/
def ignitions : List (Atlantis α) → Nat
  | a :: b :: rest =>
    (if a.status = 0 ∧ b.status = 1 then 1 else 0) + ignitions (b :: rest)
  | _ => 0

end Atlantis

namespace Sample

end Sample

/-- The laws of the real square root and of the Euclidean length that the
gimbal law relies on, for the functions `sqrt` and `_hypot` of a math library
over the ordered field. -/
structure Libm.Lawful {α : Type} [LinearOrderedField α] (m : Libm α) : Prop where
  /-- The square root of a non-negative number is non-negative. -/
  sqrt_nonneg : ∀ x : α, 0 ≤ x → 0 ≤ m.sqrt x
  /-- The square root of a non-negative number squares to it. -/
  sqrt_mul_self : ∀ x : α, 0 ≤ x → m.sqrt x * m.sqrt x = x
  /-- The length of a vector is non-negative. -/
  hypot_nonneg : ∀ x y : α, 0 ≤ m.hypot x y
  /-- The length of a vector squares to the sum of the squares. -/
  hypot_mul_self : ∀ x y : α, m.hypot x y * m.hypot x y = x * x + y * y

/-- Modelled from the spec: the host query `GetThrusterDir (th, dir)`, the
current thrust direction of a thruster; a handle with no thruster has none. -/
def VESSEL.GetThrusterDir {α : Type} (v : VESSEL α) (th : Nat) : Option (VECTOR3 α) :=
  match v.thrusters.find? (fun t => t.handle == th) with
  | some t => some t.dir
  | none => none

/-! ### The gimbal balancing law in the words of the specification -/

namespace Gimbal

variable {α : Type} [LinearOrderedField α]

/-- Moment-arm offset `ry` of the upper main engine. -/
def ry : α := 9.42

/-- Moment-arm offset `rz` of the upper main engine. -/
def rz : α := -23.295

/-- Residual moment `M_0 = M_srb + M_m2 = 2.51951112·F_srb − 12.02495·F_main`. -/
def M_0 (F_srb F_main : α) : α := 2.51951112 * F_srb - 12.02495 * F_main

/-- The discriminant `term = -M_0² + F_main²·(ry²+rz²)`. -/
def term (F_srb F_main : α) : α :=
  -(M_0 F_srb F_main) ^ 2 + F_main ^ 2 * (ry ^ 2 + rz ^ 2)

/-- The clamped radicand `arg1 = max(0, rz²·term)`. -/
def arg1 (F_srb F_main : α) : α := Max.max 0 (rz ^ 2 * term F_srb F_main)

/-- The clamped radicand `arg2 = max(0, ry²·term)`. -/
def arg2 (F_srb F_main : α) : α := Max.max 0 (ry ^ 2 * term F_srb F_main)

/-- The factor `scale = 1 / (F_main·(ry²+rz²))`. -/
def scale (F_main : α) : α := 1 / (F_main * (ry ^ 2 + rz ^ 2))

/-- The component `dz = (M_0·ry + √arg1) · scale`, before renormalisation. -/
def dz (m : Libm α) (F_srb F_main : α) : α :=
  (M_0 F_srb F_main * ry + m.sqrt (arg1 F_srb F_main)) * scale F_main

/-- The component `dy = -(M_0·rz + √arg2) · scale`, before renormalisation. -/
def dy (m : Libm α) (F_srb F_main : α) : α :=
  -(M_0 F_srb F_main * rz + m.sqrt (arg2 F_srb F_main)) * scale F_main

/-- The direction applied to the upper main engine: `(0, dy, dz)`, renormalised
to unit length if either radicand is 0. -/
def dir (m : Libm α) (F_srb F_main : α) : VECTOR3 α :=
  if arg1 F_srb F_main = 0 ∨ arg2 F_srb F_main = 0 then
    _V 0 (dy m F_srb F_main / m.hypot (dy m F_srb F_main) (dz m F_srb F_main))
      (dz m F_srb F_main / m.hypot (dy m F_srb F_main) (dz m F_srb F_main))
  else _V 0 (dy m F_srb F_main) (dz m F_srb F_main)

end Gimbal

namespace Atlantis

variable {α : Type} [LinearOrderedField α]

/-- The booster thrust read by `Atlantis::AutoMainGimbal`:
`SRB_THRUST*GetThrusterLevel (th_srb[0])`. -/
def F_srb (a : Atlantis α) : α := SRB_THRUST * a.toVESSEL.GetThrusterLevel a.th_srb0

/-- The main-engine thrust read by `Atlantis::AutoMainGimbal`:
`ORBITER_MAIN_THRUST*GetThrusterLevel (th_main[0])`. -/
def F_main (a : Atlantis α) : α :=
  ORBITER_MAIN_THRUST * a.toVESSEL.GetThrusterLevel a.th_main0

end Atlantis

namespace Sample

/-- The stack 50 s into the booster burn (`ascent`) with the thrust level of
`th_main[0]` at `l_main` and the thrust level of `th_srb[0]` at `l_srb`. -/
def burning (α : Type) [LinearOrderedField α] (l_main l_srb : α) : Atlantis α :=
  { ascent α with
    toVESSEL :=
      ((ascent α).toVESSEL.SetThrusterLevel (ascent α).th_main0 l_main).SetThrusterLevel
        (ascent α).th_srb0 l_srb }

/-- The booster thrust level at which the residual moment `M_0` vanishes with
the main engines at full thrust (about 0.675). -/
def balancedLevel (α : Type) [LinearOrderedField α] : α :=
  12.02495 * ORBITER_MAIN_THRUST / (2.51951112 * SRB_THRUST)

end Sample

/-- The evaluations and calls made by the `switch (status)` statement of
`Atlantis::clbkPostStep`, as labels of an execution trace. -/
inductive StepCall
  /-- Evaluation of `GetEngineLevel (ENGINE_MAIN) > 0.95` (case 0). -/
  | evalIgnition
  /-- The assignments `status = 1; t0 = simt + SRB_STABILISATION_TIME`. -/
  | ignite
  /-- Evaluation of the booster separation condition
  `met > SRB_SEPARATION_TIME && !Playback() || bManualSeparate` (case 1). -/
  | evalBoosterSeparation
  /-- The call `SeparateBoosters (met)`. -/
  | SeparateBoosters
  /-- The call `GetSRB_State (met, thrust_level, prop_level)`. -/
  | GetSRB_State
  /-- A call `SetThrusterLevel (th_srb[i], thrust_level)`. -/
  | SetThrusterLevel
  /-- The call `LaunchClamps ()`. -/
  | LaunchClamps
  /-- The call `AutoMainGimbal ()`. -/
  | AutoMainGimbal
  /-- Evaluation of the tank separation condition
  `GetPropellantMass (ph_tank) < 1.0 && !Playback() || bManualSeparate` (case 2). -/
  | evalTankSeparation
  /-- The call `SeparateTank ()`. -/
  | SeparateTank
  /-- Evaluation of `bManualSeparate && GetAttachmentStatus (sat_attach)` (case 3). -/
  | evalPayloadRelease
  /-- The call `DetachChild (sat_attach, 0.1)`. -/
  | DetachChild
  deriving DecidableEq, Repr

/-- A line of the scenario file as `Atlantis::clbkLoadStateEx` classifies it:
the key `CONFIGURATION` with the integer read by `sscanf`, the key `MET` with
the number read, or any other line (the other keys of the vessel and the lines
handed to the payload bay and to the host's generic parser set none of the
members of the model). -/
inductive ScenarioLine (α : Type)
  /-- A line `CONFIGURATION <status>`. -/
  | CONFIGURATION (status : Int)
  /-- A line `MET <met>`. -/
  | MET (met : α)
  /-- Any other line. -/
  | other

namespace Atlantis

variable {α : Type} [LinearOrderedField α]

/-- The `switch (status)` statement of `Atlantis::clbkPostStep` once more, this
time returning, next to the new state, the trace of the evaluations and calls
made, in execution order. -/
def clbkPostStepTraced (m : Libm α) (GetSRB_State : α → α × α) (a : Atlantis α)
    (simt : α) : Atlantis α × List StepCall :=
  if a.status = 0 then  -- launch configuration
    if a.GetEngineLevel_MAIN > 0.95 then
      ({ a with status := 1, t0 := simt + SRB_STABILISATION_TIME },
        [StepCall.evalIgnition, StepCall.ignite])
    else (a.AutoMainGimbal m, [StepCall.evalIgnition, StepCall.AutoMainGimbal])
  else if a.status = 1 then  -- SRB's ignited
    let met := simt - a.t0
    if (met > SRB_SEPARATION_TIME ∧ ¬ a.Playback) ∨ a.bManualSeparate then
      let a := a.SeparateBoosters GetSRB_State met
      ({ a with bManualSeparate := false },
        [StepCall.evalBoosterSeparation, StepCall.SeparateBoosters])
    else
      let lv := GetSRB_State met
      let v := a.toVESSEL.SetThrusterLevel a.th_srb0 lv.1
      let v := v.SetThrusterLevel a.th_srb1 lv.1
      let a := { a with toVESSEL := v }
      (a.AutoMainGimbal m,
        [StepCall.evalBoosterSeparation, StepCall.GetSRB_State, StepCall.SetThrusterLevel,
          StepCall.SetThrusterLevel] ++
        (if met < 0.0 then [StepCall.LaunchClamps] else []) ++ [StepCall.AutoMainGimbal])
  else if a.status = 2 then  -- post SRB separation
    if (a.toVESSEL.GetPropellantMass a.ph_tank < 1.0 ∧ ¬ a.Playback) ∨ a.bManualSeparate then
      let a := a.SeparateTank
      ({ a with bManualSeparate := false },
        [StepCall.evalTankSeparation, StepCall.SeparateTank])
    else (a, [StepCall.evalTankSeparation])
  else if a.status = 3 then  -- post tank separation
    if a.bManualSeparate ∧ a.satAttached then
      ({ a with toVESSEL := a.toVESSEL.DetachChild_sat, bManualSeparate := false },
        [StepCall.evalPayloadRelease, StepCall.DetachChild])
    else (a, [StepCall.evalPayloadRelease])
  else (a, [])

/-- The `while` loop of `Atlantis::clbkLoadStateEx` over the scenario lines,
on the pair of the member `status` and the local `met`. -/
def readScenario : List (ScenarioLine α) → Int × α → Int × α
  | [], r => r
  | ScenarioLine.CONFIGURATION status :: rest, r => readScenario rest (status, r.2)
  | ScenarioLine.MET met :: rest, r => readScenario rest (r.1, met)
  | ScenarioLine.other :: rest, r => readScenario rest r

/-- The method `Atlantis::clbkLoadStateEx`: read status from the scenario file,
then set up the configuration for it. -/
def clbkLoadStateEx (a : Atlantis α) (scn : List (ScenarioLine α)) : Atlantis α :=
  let r := readScenario scn (a.status, 0.0)
  let a := { a with status := r.1 }
  let met := r.2
  if a.status = 0 then a.SetLaunchConfiguration
  else if a.status = 1 then a.SetPostLaunchConfiguration met
  else if a.status = 2 then a.SetOrbiterTankConfiguration
  else if a.status = 3 then a.SetOrbiterConfiguration
  else a

/-- The states reachable from a stage configuration routine, run on a newly
constructed vehicle, by per-step updates and `Jettison` calls (with any change
of the host state and of the manual flag in between, see `Next`). -/
inductive Reachable (m : Libm α) (GetSRB_State : α → α × α) : Atlantis α → Prop
  | launch (v : VESSEL α) (t0 : α) :
      Reachable m GetSRB_State (Atlantis.new v t0).SetLaunchConfiguration
  | postLaunch (v : VESSEL α) (t0 met : α) :
      Reachable m GetSRB_State ((Atlantis.new v t0).SetPostLaunchConfiguration met)
  | orbiterTank (v : VESSEL α) (t0 : α) :
      Reachable m GetSRB_State (Atlantis.new v t0).SetOrbiterTankConfiguration
  | orbiter (v : VESSEL α) (t0 : α) :
      Reachable m GetSRB_State (Atlantis.new v t0).SetOrbiterConfiguration
  | next (a b : Atlantis α) :
      Reachable m GetSRB_State a → Next m GetSRB_State a b → Reachable m GetSRB_State b

end Atlantis

namespace Atlantis

variable {α : Type} [LinearOrderedField α]

/-- The propellant handles the vehicle holds, stage by stage: the OMS handle
always; tank and booster handles on the pad and during the booster burn; the
tank handle only once the boosters are gone; neither once the tank is gone. -/
def StageHandles (a : Atlantis α) : Prop :=
  a.ph_oms ≠ none ∧
  (((a.status = 0 ∨ a.status = 1) ∧ a.ph_tank ≠ none ∧ a.ph_srb ≠ none) ∨
   (a.status = 2 ∧ a.ph_tank ≠ none ∧ a.ph_srb = none) ∨
   (a.status = 3 ∧ a.ph_tank = none ∧ a.ph_srb = none))

end Atlantis

namespace Ramjet

variable {α : Type}

/-- The parameters of an engine fixed at registration by
`Ramjet::AddThrusterDefinition`: `th`, `Qr`, `Ai`, `Tb_max`, `dmf_max`. -/
def params (t : THDEF α) : Nat × α × α × α × α :=
  (t.th, t.Qr, t.Ai, t.Tb_max, t.dmf_max)

/-- The values taken by the locals of `Ramjet::Thrust` in the pass of its loop
for one engine, in the branch with atmospheric parameters.  The local `D` of
the source is assigned three times: `D0` is its value after
`D = (Tb0-Td) / (thdef[i]->Qr/cp - Tb0)`, `D1` after `D *= lvl`, and `D` after
the fuel-rate test; `dmf0` is `dmf` before that test. -/
structure Locals (α : Type) where
  /-- Mach number. -/
  M : α
  /-- Freestream temperature. -/
  T0 : α
  /-- Freestream pressure. -/
  p0 : α
  /-- Specific heat (pressure). -/
  cp : α
  /-- Freestream velocity. -/
  v0 : α
  /-- Temperature ratio. -/
  tr : α
  /-- Diffuser temperature. -/
  Td : α
  /-- Diffuser pressure. -/
  pd : α
  /-- Pressure recovery. -/
  precov : α
  /-- The factor `dma_scale*precov*pd`. -/
  dmafac : α
  /-- Max burner temperature. -/
  Tb0 : α
  /-- Throttle level. -/
  lvl : α
  /-- Max fuel-to-air ratio. -/
  D0 : α
  /-- Commanded fuel-to-air ratio. -/
  D1 : α
  /-- Air mass flow rate. -/
  dma : α
  /-- Fuel mass flow rate before the test against `dmf_max`. -/
  dmf0 : α
  /-- Fuel mass flow rate. -/
  dmf : α
  /-- Actual fuel-to-air ratio. -/
  D : α
  /-- Actual burner temperature. -/
  Tb : α
  /-- Exhaust temperature. -/
  Te : α
  /-- Exhaust velocity. -/
  ve : α
  /-- Specific thrust. -/
  Fs : α
  /-- Thrust force. -/
  F : α

/-- The locals of `Ramjet::Thrust` for the engine `t` under the atmospheric
constants `atm`: the assignments of the source before the loop and in the
operating branch of the loop body, in order. -/
def locals [LinearOrderedField α] (m : Libm α) (vessel : FlightState α) (atm : ATMCONST α)
    (t : THDEF α) : Locals α :=
  let dma_scale : α := 2.7e-4
  let M := vessel.GetMachNumber
  let T0 := vessel.GetAtmTemperature
  let p0 := vessel.GetAtmPressure
  let cp := atm.gamma * atm.R / (atm.gamma - 1.0)
  let v0 := M * m.sqrt (atm.gamma * atm.R * T0)
  let tr := 1.0 + 0.5 * (atm.gamma - 1.0) * M * M
  let Td := T0 * tr
  let pd := p0 * m.pow (Td / T0) (atm.gamma / (atm.gamma - 1.0))
  let precov := Win.max 0.0 (1.0 - 0.075 * m.pow (Win.max M 1.0 - 1.0) 1.35)
  let dmafac := dma_scale * precov * pd
  let Tb0 := t.Tb_max
  let lvl := vessel.GetThrusterLevel t.th
  let D0 := (Tb0 - Td) / (t.Qr / cp - Tb0)
  let D1 := D0 * lvl
  let dma := dmafac * t.Ai
  let dmf0 := D1 * dma
  let dmf := if dmf0 > t.dmf_max then t.dmf_max else dmf0
  let D := if dmf0 > t.dmf_max then t.dmf_max / dma else D1
  let Tb := (D * t.Qr / cp + Td) / (1.0 + D)
  let Te := Tb * m.pow (p0 / pd) ((atm.gamma - 1.0) / atm.gamma)
  let ve := m.sqrt (2.0 * cp * (Tb - Te))
  let Fs := (1.0 + D) * ve - v0
  { M := M, T0 := T0, p0 := p0, cp := cp, v0 := v0, tr := tr, Td := Td, pd := pd,
    precov := precov, dmafac := dmafac, Tb0 := Tb0, lvl := lvl, D0 := D0, D1 := D1,
    dma := dma, dmf0 := dmf0, dmf := dmf, D := D, Tb := Tb, Te := Te, ve := ve, Fs := Fs,
    F := Win.max 0.0 (Fs * dma) }

end Ramjet

namespace Sample

/-- The sample air at rest relative to the vessel (Mach 0), full throttle. -/
def static (α : Type) [LinearOrderedField α] : FlightState α :=
  { air α with GetMachNumber := 0 }

/-- The sample air at rest (Mach 0) with all throttles closed. -/
def idle (α : Type) [LinearOrderedField α] : FlightState α :=
  { air α with GetMachNumber := 0, GetThrusterLevel := fun _ => 0 }

/-- A single engine registered with a negative intake cross section. -/
def negativeIntake (α : Type) [LinearOrderedField α] : Ramjet α :=
  Ramjet.new.AddThrusterDefinition 0 3.5e8 (-1.0) 3500.0 2.0

/-- The DeltaGlider engines after a call of `Ramjet::Thrust` at Mach 10, where
the diffuser temperature 5250 K (above the burner limit) is recorded in all
three entries of the temperature trace. -/
def overheated (α : Type) [LinearOrderedField α] (m : Libm α) : Ramjet α :=
  (Ramjet.Thrust m (hypersonic α) (scramjet α) (fun _ => 0)).1

end Sample

/-! ## Atlantis_SRB (samples/Atlantis/Atlantis_SRB) -/

/-- The booster burn profile tables that `Atlantis_SRB::SetRefTime` declares
`extern` and that are defined outside the sources: the number of points
`SRB_nt` and the arrays `SRB_Seq` (times), `SRB_Prop` (propellant levels) and
`SRB_PrpSCL` (slopes).  An array is a map from indices to values; the count is
a natural number. -/
structure SRBTables (α : Type) where
  /-- The variable `SRB_nt`. -/
  SRB_nt : Nat
  /-- The array `SRB_Seq`. -/
  SRB_Seq : Nat → α
  /-- The array `SRB_Prop`. -/
  SRB_Prop : Nat → α
  /-- The array `SRB_PrpSCL`. -/
  SRB_PrpSCL : Nat → α

/-- The class `Atlantis_SRB`, restricted to what `SetRefTime` reads and writes:
the answers of the host queries `GetFuelMass ()`, `GetMaxFuelMass ()` and
`oapiGetSimTime ()`, and the member `t0`. -/
structure Atlantis_SRB (α : Type) where
  /-- The answer of `GetFuelMass ()`. -/
  GetFuelMass : α
  /-- The answer of `GetMaxFuelMass ()`. -/
  GetMaxFuelMass : α
  /-- The answer of `oapiGetSimTime ()`. -/
  oapiGetSimTime : α
  /-- Member `t0`: reference time (liftoff). -/
  t0 : α

namespace Atlantis_SRB

variable {α : Type} [LinearOrderedField α]

/-- The loop `for (i = 1; i < SRB_nt; i++) if (fuel >= SRB_Prop[i]) break;` of
`SetRefTime`, entered at index `i`, with a bound on the number of passes: the
value of `i` when the loop is left. -/
def search (T : SRBTables α) (fuel : α) : Nat → Nat → Nat
  | 0, i => i
  | n + 1, i =>
    if i < T.SRB_nt then
      if fuel ≥ T.SRB_Prop i then i else search T fuel n (i + 1)
    else i

/-- The value of the local `i` of `SetRefTime` after its loop (started at 1;
`SRB_nt` passes are enough for the loop to end by itself). -/
def searchIndex (T : SRBTables α) (s : Atlantis_SRB α) : Nat :=
  search T (s.GetFuelMass / s.GetMaxFuelMass) T.SRB_nt 1

/-- The value of the local `met` of `SetRefTime`. -/
def met (T : SRBTables α) (s : Atlantis_SRB α) : α :=
  let fuel := s.GetFuelMass / s.GetMaxFuelMass
  let i := searchIndex T s
  T.SRB_Seq i + (fuel - T.SRB_Prop i) / T.SRB_PrpSCL (i - 1)

/-- The method `Atlantis_SRB::SetRefTime`: reconstruct liftoff time from fuel
level. -/
def SetRefTime (T : SRBTables α) (s : Atlantis_SRB α) : Atlantis_SRB α :=
  { s with t0 := s.oapiGetSimTime - met T s }

/-- The method `Atlantis_SRB::clbkPostCreation`. -/
def clbkPostCreation (T : SRBTables α) (s : Atlantis_SRB α) : Atlantis_SRB α :=
  SetRefTime T s

/-- In the words of the specification: the point `(t, y)` lies on the
piecewise-linear propellant curve through the points
`(SRB_Seq[k], SRB_Prop[k])`, `k < SRB_nt`. -/
def OnBurnCurve (T : SRBTables α) (t y : α) : Prop :=
  ∃ k, k < T.SRB_nt - 1 ∧ (T.SRB_Seq k ≤ t ∧ t ≤ T.SRB_Seq (k + 1) ∧
    y = T.SRB_Prop k + (t - T.SRB_Seq k) *
      ((T.SRB_Prop (k + 1) - T.SRB_Prop k) / (T.SRB_Seq (k + 1) - T.SRB_Seq k)))

instance (T : SRBTables α) (t y : α) : Decidable (OnBurnCurve T t y) := by
  unfold OnBurnCurve
  infer_instance

end Atlantis_SRB

namespace Sample

/-- A burn profile of three points: full at 0 s, half at 60 s, empty at
120 s. -/
def profile (α : Type) [LinearOrderedField α] : SRBTables α where
  SRB_nt := 3
  SRB_Seq := fun k => [0, 60, 120].getD k 0
  SRB_Prop := fun k => [1, 1 / 2, 0].getD k 0
  SRB_PrpSCL := fun k => [-(1 / 120), -(1 / 120)].getD k 0

/-- A table of a single point: full at 0 s. -/
def singlePoint (α : Type) [LinearOrderedField α] : SRBTables α where
  SRB_nt := 1
  SRB_Seq := fun _ => 0
  SRB_Prop := fun _ => 1
  SRB_PrpSCL := fun _ => 0

/-- A booster created at simulation time 200 with three quarters of its
propellant left. -/
def booster (α : Type) [LinearOrderedField α] : Atlantis_SRB α where
  GetFuelMass := 3
  GetMaxFuelMass := 4
  oapiGetSimTime := 200
  t0 := 0

/-- A full booster created at simulation time 200. -/
def fullBooster (α : Type) [LinearOrderedField α] : Atlantis_SRB α where
  GetFuelMass := 4
  GetMaxFuelMass := 4
  oapiGetSimTime := 200
  t0 := 0

end Sample

/-- The types of the thruster groups of a vessel, in table order. -/
def groupTypes {α : Type} (v : VESSEL α) : List THGROUP_TYPE := v.groups.map (fun g => g.thgt)

/-- The twelve attitude group types of the orbiter's reaction control system
(`Atlantis::CreateAttControls_RCS`), in the order of their creation. -/
def rcsAttGroups : List THGROUP_TYPE :=
  [THGROUP_TYPE.THGROUP_ATT_PITCHUP, THGROUP_TYPE.THGROUP_ATT_PITCHDOWN,
   THGROUP_TYPE.THGROUP_ATT_UP, THGROUP_TYPE.THGROUP_ATT_DOWN,
   THGROUP_TYPE.THGROUP_ATT_YAWLEFT, THGROUP_TYPE.THGROUP_ATT_YAWRIGHT,
   THGROUP_TYPE.THGROUP_ATT_LEFT, THGROUP_TYPE.THGROUP_ATT_RIGHT,
   THGROUP_TYPE.THGROUP_ATT_BANKLEFT, THGROUP_TYPE.THGROUP_ATT_BANKRIGHT,
   THGROUP_TYPE.THGROUP_ATT_FORWARD, THGROUP_TYPE.THGROUP_ATT_BACK]

/-- The group types created by `Atlantis::SetOrbiterConfiguration`: the OMS
group and the twelve groups of the reaction control system. -/
def orbiterGroups : List THGROUP_TYPE := THGROUP_TYPE.THGROUP_MAIN :: rcsAttGroups

namespace Sample

/-- The orbiter alone as a scenario in stage 3 sets it up: constructor, then
`SetOrbiterConfiguration`. -/
def orbiterOnly (α : Type) [LinearOrderedField α] : Atlantis α :=
  (Atlantis.new (host α 0) 0).SetOrbiterConfiguration

end Sample

namespace Atlantis

variable {α : Type} [LinearOrderedField α]

/-- The method `Atlantis::clbkSetStateEx`: set status from a `VESSELSTATUS2`
structure.  The host's default parameter initialisation `DefSetStateEx`, which
is defined outside the sources, is passed in as a function on the host state;
it cannot reach the members of the class.  The assignment `status = 3` is
commented out in the source; what follows is the call of
`SetOrbiterConfiguration`. -/
def clbkSetStateEx (DefSetStateEx : VESSEL α → VESSEL α) (a : Atlantis α) : Atlantis α :=
  -- default parameter initialisation
  let a := { a with toVESSEL := DefSetStateEx a.toVESSEL }
  -- reset vessel-specific parameters to defaults
  a.SetOrbiterConfiguration

end Atlantis

/-! ## Theorems: Ramjet -/

namespace Ramjet

variable {α : Type}

theorem winMax_eq_max [LinearOrder α] (a b : α) : Win.max a b = Max.max a b := by
  unfold Win.max
  split_ifs with h
  · exact (max_eq_left (le_of_lt h)).symm
  · exact (max_eq_right (not_lt.mp h)).symm

theorem winMax_zero_nonneg [LinearOrderedField α] (b : α) : 0 ≤ Win.max 0.0 b := by
  rw [winMax_eq_max]
  norm_num

theorem thrustLoop_fst (body : THDEF α → THDEF α) (ts : List (THDEF α)) :
    ∀ (i : Nat) (F : Nat → α), (thrustLoop body i ts F).1 = ts.map body := by
  induction ts with
  | nil => intro i F; rfl
  | cons t ts ih => intro i F; simp [thrustLoop, ih]

theorem thrustLoop_snd_lt (body : THDEF α → THDEF α) (ts : List (THDEF α)) :
    ∀ (i : Nat) (F : Nat → α) (j : Nat), j < i → (thrustLoop body i ts F).2 j = F j := by
  induction ts with
  | nil => intro i F j _; rfl
  | cons t ts ih =>
    intro i F j hj
    simp only [thrustLoop]
    rw [ih (i + 1) _ j (by omega)]
    simp [Nat.ne_of_lt hj]

theorem thrustLoop_snd_get (body : THDEF α → THDEF α) (ts : List (THDEF α)) :
    ∀ (i : Nat) (F : Nat → α) (k : Nat) (t : THDEF α), ts.get? k = some t →
      (thrustLoop body i ts F).2 (i + k) = (body t).F := by
  induction ts with
  | nil => intro i F k t h; simp at h
  | cons a ts ih =>
    intro i F k t h
    cases k with
    | zero =>
      simp at h
      subst h
      simp only [thrustLoop, Nat.add_zero]
      rw [thrustLoop_snd_lt body ts (i + 1) _ i (by omega)]
      simp
    | succ k =>
      simp at h
      simp only [thrustLoop]
      have := ih (i + 1) (fun j => if j = i then (body a).F else F j) k t (by simpa using h)
      have e : i + (k + 1) = i + 1 + k := by omega
      rw [e]
      exact this

theorem thrustLoop_zero_get (body : THDEF α → THDEF α) (ts : List (THDEF α))
    (F : Nat → α) (k : Nat) (t : THDEF α) (h : ts.get? k = some t) :
    (thrustLoop body 0 ts F).2 k = (body t).F ∧
      (thrustLoop body 0 ts F).1.get? k = some (body t) := by
  constructor
  · have := thrustLoop_snd_get body ts 0 F k t h
    simpa using this
  · rw [thrustLoop_fst]
    simp at h
    simp [h]

theorem Thrust_get [LinearOrderedField α] (m : Libm α) (vessel : FlightState α)
    (r : Ramjet α) (F : Nat → α) (i : Nat) (t : THDEF α)
    (hi : r.thdef.get? i = some t) :
    ∃ t1, (Thrust m vessel r F).1.thdef.get? i = some t1 ∧
      (Thrust m vessel r F).2 i = t1.F ∧ 0 ≤ t1.F ∧ t1.dmf_max = t.dmf_max ∧
      (0 ≤ t.dmf_max → t1.dmf ≤ t1.dmf_max) := by
  have h0 : (0.0 : α) = 0 := by norm_num
  unfold Thrust
  cases href : vessel.GetAtmRef with
  | none =>
    simp only []
    refine ⟨_, (thrustLoop_zero_get _ r.thdef F i t hi).2,
      (thrustLoop_zero_get _ r.thdef F i t hi).1, ?_, rfl, ?_⟩
    · simp [h0]
    · intro h
      simpa [h0] using h
  | some hBody =>
    cases hatm : vessel.oapiGetPlanetAtmConstants hBody with
    | none =>
      simp only [hatm]
      refine ⟨_, (thrustLoop_zero_get _ r.thdef F i t hi).2,
        (thrustLoop_zero_get _ r.thdef F i t hi).1, ?_, rfl, ?_⟩
      · simp [h0]
      · intro h
        simpa [h0] using h
    | some atm =>
      simp only [hatm]
      refine ⟨_, (thrustLoop_zero_get _ r.thdef F i t hi).2,
        (thrustLoop_zero_get _ r.thdef F i t hi).1, ?_, ?_, ?_⟩
      · split
        · exact winMax_zero_nonneg _
        · simp [h0]
      · split <;> rfl
      · intro h
        split
        · show (if _ > t.dmf_max then t.dmf_max else _) ≤ t.dmf_max
          split
          · exact le_refl _
          · rename_i h2
            exact not_lt.mp h2
        · simpa [h0] using h

/-- C2, operating branch: for the `i`-th registered engine `t`, with an
atmosphere present and `maxBurnerTemp > Td`, `Ramjet::Thrust` writes to `F[i]`
and stores in the engine the thrust `max(0, ((1+D)·ve − v0)·dma)` of the
specification's cycle, and records the temperature trace `[Td, Tb, Te]` and the
clamped fuel flow; the engine's parameters are left as registered. -/
theorem Thrust_operating_branch [LinearOrderedField α] (m : Libm α)
    (vessel : FlightState α) (r : Ramjet α) (F : Nat → α) (hBody : Nat)
    (atm : ATMCONST α) (i : Nat) (t : THDEF α)
    (href : vessel.GetAtmRef = some hBody)
    (hatm : vessel.oapiGetPlanetAtmConstants hBody = some atm)
    (hi : r.thdef.get? i = some t)
    (hop : t.Tb_max > Spec.Td atm.gamma vessel.GetMachNumber vessel.GetAtmTemperature) :
    (Thrust m vessel r F).2 i =
      Spec.F m atm.gamma atm.R vessel.GetMachNumber vessel.GetAtmTemperature
        vessel.GetAtmPressure (vessel.GetThrusterLevel t.th) t.Qr t.Ai t.Tb_max t.dmf_max ∧
    (Thrust m vessel r F).1.thdef.get? i = some
      { t with
        F := Spec.F m atm.gamma atm.R vessel.GetMachNumber vessel.GetAtmTemperature
          vessel.GetAtmPressure (vessel.GetThrusterLevel t.th) t.Qr t.Ai t.Tb_max t.dmf_max
        dmf := Spec.dmf m atm.gamma atm.R vessel.GetMachNumber vessel.GetAtmTemperature
          vessel.GetAtmPressure (vessel.GetThrusterLevel t.th) t.Qr t.Ai t.Tb_max t.dmf_max
        T0 := Spec.Td atm.gamma vessel.GetMachNumber vessel.GetAtmTemperature
        T1 := Spec.Tb m atm.gamma atm.R vessel.GetMachNumber vessel.GetAtmTemperature
          vessel.GetAtmPressure (vessel.GetThrusterLevel t.th) t.Qr t.Ai t.Tb_max t.dmf_max
        T2 := Spec.Te m atm.gamma atm.R vessel.GetMachNumber vessel.GetAtmTemperature
          vessel.GetAtmPressure (vessel.GetThrusterLevel t.th) t.Qr t.Ai t.Tb_max t.dmf_max } := by
  have h0 : (0.0 : α) = 0 := by norm_num
  have h1 : (1.0 : α) = 1 := by norm_num
  have h2 : (2.0 : α) = 2 := by norm_num
  have hTd : vessel.GetAtmTemperature *
      (1 + 0.5 * (atm.gamma - 1) * vessel.GetMachNumber * vessel.GetMachNumber)
      = Spec.Td atm.gamma vessel.GetMachNumber vessel.GetAtmTemperature := by
    unfold Spec.Td
    ring
  have hcp : atm.gamma * atm.R / (atm.gamma - 1) = Spec.cp atm.gamma atm.R := rfl
  have hD1 : (t.Tb_max - Spec.Td atm.gamma vessel.GetMachNumber vessel.GetAtmTemperature) /
      (t.Qr / Spec.cp atm.gamma atm.R - t.Tb_max) * vessel.GetThrusterLevel t.th
      = Spec.Dcmd atm.gamma atm.R vessel.GetMachNumber vessel.GetAtmTemperature
          (vessel.GetThrusterLevel t.th) t.Qr t.Tb_max := by
    unfold Spec.Dcmd
    ring
  have hmin : ∀ x d : α, (if x > d then d else x) = Min.min x d := by
    intro x d
    split_ifs with h
    · exact (min_eq_right (le_of_lt h)).symm
    · exact (min_eq_left (not_lt.mp h)).symm
  simp only [Thrust, href, hatm]
  rw [(thrustLoop_zero_get _ r.thdef F i t hi).1, (thrustLoop_zero_get _ r.thdef F i t hi).2]
  simp only [h0, h1, h2, hTd, hcp, hD1, hmin, winMax_eq_max, if_pos hop]
  exact ⟨rfl, rfl⟩

/-- Witness of C2: the first DeltaGlider scramjet engine at Mach 2 (diffuser
temperature 450 K, burner limit 3500 K), over the reals. -/
theorem Thrust_operating_branch_witness :
    (Sample.air ℝ).GetAtmRef = some 0 ∧
    (3500.0 : ℝ) > Spec.Td 1.4 (Sample.air ℝ).GetMachNumber (Sample.air ℝ).GetAtmTemperature ∧
    (Thrust ⟨Real.sqrt, fun x y => x ^ y, fun x y => Real.sqrt (x * x + y * y)⟩
      (Sample.air ℝ) (Sample.scramjet ℝ) (fun _ => 0)).2 0 =
      Spec.F ⟨Real.sqrt, fun x y => x ^ y, fun x y => Real.sqrt (x * x + y * y)⟩
        1.4 287 2 250 10000 1 3.5e8 1.0 3500.0 2.0 :=
  ⟨rfl, by norm_num [Spec.Td, Sample.air],
   (Thrust_operating_branch _ (Sample.air ℝ) (Sample.scramjet ℝ) (fun _ => 0) 0 ⟨1.4, 287⟩ 0
      ⟨0, 3.5e8, 1.0, 3500.0, 2.0, 0, 0, 0, 0, 0⟩ rfl rfl
      (by simp [Sample.scramjet, Ramjet.new, AddThrusterDefinition])
      (by norm_num [Spec.Td, Sample.air])).1⟩

/-- C3, overheat guard: for the `i`-th registered engine `t`, with an atmosphere
present and `maxBurnerTemp ≤ Td`, `Ramjet::Thrust` sets the engine's thrust
(also `F[i]`) and fuel flow to exactly 0 and its temperature trace to
`[Td, Td, Td]`, whatever the throttle level. -/
theorem Thrust_overheat_branch [LinearOrderedField α] (m : Libm α)
    (vessel : FlightState α) (r : Ramjet α) (F : Nat → α) (hBody : Nat)
    (atm : ATMCONST α) (i : Nat) (t : THDEF α)
    (href : vessel.GetAtmRef = some hBody)
    (hatm : vessel.oapiGetPlanetAtmConstants hBody = some atm)
    (hi : r.thdef.get? i = some t)
    (hot : t.Tb_max ≤ Spec.Td atm.gamma vessel.GetMachNumber vessel.GetAtmTemperature) :
    (Thrust m vessel r F).2 i = 0 ∧
    (Thrust m vessel r F).1.thdef.get? i = some
      { t with
        F := 0, dmf := 0
        T0 := Spec.Td atm.gamma vessel.GetMachNumber vessel.GetAtmTemperature
        T1 := Spec.Td atm.gamma vessel.GetMachNumber vessel.GetAtmTemperature
        T2 := Spec.Td atm.gamma vessel.GetMachNumber vessel.GetAtmTemperature } := by
  have h0 : (0.0 : α) = 0 := by norm_num
  have h1 : (1.0 : α) = 1 := by norm_num
  have hTd : vessel.GetAtmTemperature *
      (1 + 0.5 * (atm.gamma - 1) * vessel.GetMachNumber * vessel.GetMachNumber)
      = Spec.Td atm.gamma vessel.GetMachNumber vessel.GetAtmTemperature := by
    unfold Spec.Td
    ring
  simp only [Thrust, href, hatm]
  rw [(thrustLoop_zero_get _ r.thdef F i t hi).1, (thrustLoop_zero_get _ r.thdef F i t hi).2]
  simp only [h0, h1, hTd, gt_iff_lt, if_neg (not_lt.mpr hot)]
  exact ⟨trivial, trivial⟩

/-- Witness of C3: the first DeltaGlider scramjet engine at Mach 10 (diffuser
temperature 5250 K, burner limit 3500 K), over the reals. -/
theorem Thrust_overheat_branch_witness :
    (Sample.hypersonic ℝ).GetAtmRef = some 0 ∧
    (3500.0 : ℝ) ≤ Spec.Td 1.4 (Sample.hypersonic ℝ).GetMachNumber
      (Sample.hypersonic ℝ).GetAtmTemperature ∧
    (Thrust ⟨Real.sqrt, fun x y => x ^ y, fun x y => Real.sqrt (x * x + y * y)⟩
      (Sample.hypersonic ℝ) (Sample.scramjet ℝ) (fun _ => 7)).2 0 = 0 :=
  ⟨rfl, by norm_num [Spec.Td, Sample.air, Sample.hypersonic],
   (Thrust_overheat_branch _ (Sample.hypersonic ℝ) (Sample.scramjet ℝ) (fun _ => 7) 0
      ⟨1.4, 287⟩ 0 ⟨0, 3.5e8, 1.0, 3500.0, 2.0, 0, 0, 0, 0, 0⟩ rfl rfl
      (by simp [Sample.scramjet, Ramjet.new, AddThrusterDefinition])
      (by norm_num [Spec.Td, Sample.air, Sample.hypersonic])).1⟩

/-- C4, no atmosphere: if the vessel has no atmosphere reference, or the
reference body has no atmospheric constants, `Ramjet::Thrust` sets the thrust
and the fuel flow of the `i`-th registered engine `t` to exactly 0 and writes 0
to `F[i]`, whatever the throttle levels and engine parameters; the engine's other
fields are untouched. -/
theorem Thrust_no_atmosphere [LinearOrderedField α] (m : Libm α)
    (vessel : FlightState α) (r : Ramjet α) (F : Nat → α) (i : Nat) (t : THDEF α)
    (hno : vessel.GetAtmRef = none ∨
      ∃ hBody, vessel.GetAtmRef = some hBody ∧ vessel.oapiGetPlanetAtmConstants hBody = none)
    (hi : r.thdef.get? i = some t) :
    (Thrust m vessel r F).2 i = 0 ∧
    (Thrust m vessel r F).1.thdef.get? i = some { t with F := 0, dmf := 0 } := by
  have h0 : (0.0 : α) = 0 := by norm_num
  rcases hno with href | ⟨hBody, href, hatm⟩
  · simp only [Thrust, href]
    rw [(thrustLoop_zero_get _ r.thdef F i t hi).1, (thrustLoop_zero_get _ r.thdef F i t hi).2]
    simp only [h0]
    exact ⟨trivial, trivial⟩
  · simp only [Thrust, href, hatm]
    rw [(thrustLoop_zero_get _ r.thdef F i t hi).1, (thrustLoop_zero_get _ r.thdef F i t hi).2]
    simp only [h0]
    exact ⟨trivial, trivial⟩

/-- Witness of C4: the second DeltaGlider scramjet engine at full throttle with
no atmosphere reference, over the reals. -/
theorem Thrust_no_atmosphere_witness :
    (Sample.vacuum ℝ).GetAtmRef = none ∧
    (Thrust ⟨Real.sqrt, fun x y => x ^ y, fun x y => Real.sqrt (x * x + y * y)⟩
      (Sample.vacuum ℝ) (Sample.scramjet ℝ) (fun _ => 7)).2 1 = 0 :=
  ⟨rfl,
   (Thrust_no_atmosphere _ (Sample.vacuum ℝ) (Sample.scramjet ℝ) (fun _ => 7) 1
      ⟨1, 3.5e8, 1.0, 3500.0, 2.0, 0, 0, 0, 0, 0⟩ (Or.inl rfl)
      (by simp [Sample.scramjet, Ramjet.new, AddThrusterDefinition])).1⟩

/-- The entry of engine `i` after `Ramjet::Thrust` with atmospheric parameters,
in terms of the locals of the loop pass for that engine. -/
theorem Thrust_get_locals [LinearOrderedField α] (m : Libm α) (vessel : FlightState α)
    (r : Ramjet α) (F : Nat → α) (hBody : Nat) (atm : ATMCONST α) (i : Nat) (t : THDEF α)
    (href : vessel.GetAtmRef = some hBody)
    (hatm : vessel.oapiGetPlanetAtmConstants hBody = some atm)
    (hi : r.thdef.get? i = some t) :
    (Thrust m vessel r F).1.thdef.get? i = some
      (if t.Tb_max > (locals m vessel atm t).Td then
        { t with
          F := (locals m vessel atm t).F, dmf := (locals m vessel atm t).dmf
          T1 := (locals m vessel atm t).Tb, T2 := (locals m vessel atm t).Te
          T0 := (locals m vessel atm t).Td }
      else
        { t with
          F := 0.0, dmf := 0.0
          T1 := (locals m vessel atm t).Td, T2 := (locals m vessel atm t).Td
          T0 := (locals m vessel atm t).Td }) := by
  simp only [Thrust, href, hatm]
  rw [(thrustLoop_zero_get _ r.thdef F i t hi).2]
  rfl

theorem Thrust_get_operating [LinearOrderedField α] (m : Libm α) (vessel : FlightState α)
    (r : Ramjet α) (F : Nat → α) (hBody : Nat) (atm : ATMCONST α) (i : Nat) (t : THDEF α)
    (href : vessel.GetAtmRef = some hBody)
    (hatm : vessel.oapiGetPlanetAtmConstants hBody = some atm)
    (hi : r.thdef.get? i = some t)
    (hop : t.Tb_max > (locals m vessel atm t).Td) :
    (Thrust m vessel r F).1.thdef.get? i = some
      { t with
        F := (locals m vessel atm t).F, dmf := (locals m vessel atm t).dmf
        T1 := (locals m vessel atm t).Tb, T2 := (locals m vessel atm t).Te
        T0 := (locals m vessel atm t).Td } := by
  rw [Thrust_get_locals m vessel r F hBody atm i t href hatm hi, if_pos hop]

theorem Thrust_get_vacuum [LinearOrderedField α] (m : Libm α) (vessel : FlightState α)
    (r : Ramjet α) (F : Nat → α) (i : Nat) (t : THDEF α)
    (hno : vessel.GetAtmRef = none ∨
      ∃ hBody, vessel.GetAtmRef = some hBody ∧ vessel.oapiGetPlanetAtmConstants hBody = none)
    (hi : r.thdef.get? i = some t) :
    (Thrust m vessel r F).1.thdef.get? i = some { t with F := 0.0, dmf := 0.0 } := by
  rcases hno with href | ⟨hBody, href, hatm⟩
  · simp only [Thrust, href]
    rw [(thrustLoop_zero_get _ r.thdef F i t hi).2]
  · simp only [Thrust, href, hatm]
    rw [(thrustLoop_zero_get _ r.thdef F i t hi).2]

/-- The loop of `Ramjet::Thrust` gives equal results on engine lists with equal
registered parameters when its body reads nothing but those parameters. -/
theorem thrustLoop_congr (body : THDEF α → THDEF α)
    (hbody : ∀ t t2 : THDEF α, params t = params t2 → body t = body t2) :
    ∀ (l1 l2 : List (THDEF α)) (i : Nat) (F : Nat → α),
      l1.map params = l2.map params → thrustLoop body i l1 F = thrustLoop body i l2 F := by
  intro l1
  induction l1 with
  | nil =>
    intro l2 i F h
    cases l2 with
    | nil => rfl
    | cons b l2 => simp at h
  | cons a l1 ih =>
    intro l2 i F h
    cases l2 with
    | nil => simp at h
    | cons b l2 =>
      simp only [List.map_cons, List.cons.injEq] at h
      simp only [thrustLoop, hbody a b h.1, ih l2 (i + 1) _ h.2]

theorem Thrust_congr_atm [LinearOrderedField α] (m : Libm α) (vessel : FlightState α)
    (r1 r2 : Ramjet α) (F : Nat → α) (hBody : Nat) (atm : ATMCONST α)
    (href : vessel.GetAtmRef = some hBody)
    (hatm : vessel.oapiGetPlanetAtmConstants hBody = some atm)
    (hp : r1.thdef.map params = r2.thdef.map params) :
    Thrust m vessel r1 F = Thrust m vessel r2 F := by
  simp only [Thrust, href, hatm]
  refine congrArg (fun p => (Ramjet.mk p.1, p.2)) (thrustLoop_congr _ ?_ _ _ 0 F hp)
  intro t t2 h
  cases t
  cases t2
  simp only [params, Prod.mk.injEq] at h
  obtain ⟨rfl, rfl, rfl, rfl, rfl⟩ := h
  rfl

/-- The registered parameters of every engine are left as they are by
`Ramjet::Thrust`. -/
theorem Thrust_params [LinearOrderedField α] (m : Libm α) (vessel : FlightState α)
    (r : Ramjet α) (F : Nat → α) :
    (Thrust m vessel r F).1.thdef.map params = r.thdef.map params := by
  unfold Thrust
  cases href : vessel.GetAtmRef with
  | none =>
    simp only [thrustLoop_fst, List.map_map]
    rfl
  | some hBody =>
    cases hatm : vessel.oapiGetPlanetAtmConstants hBody with
    | none =>
      simp only [hatm, thrustLoop_fst, List.map_map]
      rfl
    | some atm =>
      simp only [hatm, thrustLoop_fst, List.map_map]
      apply List.map_congr_left
      intro t _
      simp only [Function.comp_apply]
      split <;> rfl

theorem Thrust_vacuum_trace_example (α : Type) [LinearOrderedField α] (m : Libm α) :
    (Sample.scramjet α).thdef.map params = (Sample.overheated α m).thdef.map params ∧
    ∃ u1 u2,
      (Thrust m (Sample.vacuum α) (Sample.scramjet α) (fun _ => 0)).1.thdef.get? 0 = some u1 ∧
      (Thrust m (Sample.vacuum α) (Sample.overheated α m) (fun _ => 0)).1.thdef.get? 0 =
        some u2 ∧
      (u1.T0, u1.T1, u1.T2) = (0, 0, 0) ∧ (u2.T0, u2.T1, u2.T2) = (5250, 5250, 5250) := by
  have hi1 : (Sample.scramjet α).thdef.get? 0 =
      some ⟨0, 3.5e8, 1.0, 3500.0, 2.0, 0, 0, 0, 0, 0⟩ := by
    simp [Sample.scramjet, Ramjet.new, AddThrusterDefinition]
  have h2 := Thrust_get_locals m (Sample.hypersonic α) (Sample.scramjet α) (fun _ => 0) 0
    ⟨1.4, 287⟩ 0 _ rfl rfl hi1
  have hTd : (locals m (Sample.hypersonic α) ⟨1.4, 287⟩
      ⟨0, 3.5e8, 1.0, 3500.0, 2.0, 0, 0, 0, 0, 0⟩).Td = 5250 := by
    norm_num [locals, Sample.hypersonic, Sample.air]
  rw [hTd, if_neg (by norm_num)] at h2
  exact ⟨(Thrust_params m (Sample.hypersonic α) (Sample.scramjet α) (fun _ => 0)).symm,
    _, _,
    Thrust_get_vacuum m (Sample.vacuum α) (Sample.scramjet α) (fun _ => 0) 0 _ (Or.inl rfl) hi1,
    Thrust_get_vacuum m (Sample.vacuum α) (Sample.overheated α m) (fun _ => 0) 0 _
      (Or.inl rfl) h2,
    rfl, rfl⟩

/-- Counterexample to C22 as stated: the DeltaGlider engines as registered and
the same engines after a call of `Ramjet::Thrust` at Mach 10 agree on the
registered parameters and differ in the stored temperature trace; after a call
without an atmosphere the traces of engine 0 still differ, `[0, 0, 0]` against
`[5250, 5250, 5250]`. -/
theorem Thrust_vacuum_keeps_trace :
    (Sample.scramjet ℝ).thdef.map params =
      (Sample.overheated ℝ
        ⟨Real.sqrt, fun x y => x ^ y, fun x y => Real.sqrt (x * x + y * y)⟩).thdef.map params ∧
    ∃ u1 u2,
      (Thrust ⟨Real.sqrt, fun x y => x ^ y, fun x y => Real.sqrt (x * x + y * y)⟩
        (Sample.vacuum ℝ) (Sample.scramjet ℝ) (fun _ => 0)).1.thdef.get? 0 = some u1 ∧
      (Thrust ⟨Real.sqrt, fun x y => x ^ y, fun x y => Real.sqrt (x * x + y * y)⟩
        (Sample.vacuum ℝ)
        (Sample.overheated ℝ
          ⟨Real.sqrt, fun x y => x ^ y, fun x y => Real.sqrt (x * x + y * y)⟩)
        (fun _ => 0)).1.thdef.get? 0 = some u2 ∧
      (u1.T0, u1.T1, u1.T2) = (0, 0, 0) ∧ (u2.T0, u2.T1, u2.T2) = (5250, 5250, 5250) :=
  Thrust_vacuum_trace_example ℝ
    ⟨Real.sqrt, fun x y => x ^ y, fun x y => Real.sqrt (x * x + y * y)⟩

/-- Claim C22, amended: for two pre-states that agree on the registered engine
parameters and for the same flight conditions, throttle levels and output
array: with atmospheric parameters available, `Ramjet::Thrust` leaves equal
states and equal output arrays, whatever fuel flow, thrust and temperature
trace were stored before; without them, the fuel flow and the thrust of every
engine are 0 in both, and the temperature trace of every engine is the one
stored before the call. -/
theorem Thrust_recomputes [LinearOrderedField α] (m : Libm α) (vessel : FlightState α)
    (r1 r2 : Ramjet α) (F : Nat → α)
    (hp : r1.thdef.map params = r2.thdef.map params) :
    ((∃ hBody atm, vessel.GetAtmRef = some hBody ∧
        vessel.oapiGetPlanetAtmConstants hBody = some atm) →
      Thrust m vessel r1 F = Thrust m vessel r2 F) ∧
    ((vessel.GetAtmRef = none ∨
        ∃ hBody, vessel.GetAtmRef = some hBody ∧
          vessel.oapiGetPlanetAtmConstants hBody = none) →
      ∀ i t1, r1.thdef.get? i = some t1 →
        ∃ t2 u1 u2, r2.thdef.get? i = some t2 ∧
          (Thrust m vessel r1 F).1.thdef.get? i = some u1 ∧
          (Thrust m vessel r2 F).1.thdef.get? i = some u2 ∧
          u1.dmf = 0 ∧ u2.dmf = 0 ∧ u1.F = 0 ∧ u2.F = 0 ∧
          (u1.T0, u1.T1, u1.T2) = (t1.T0, t1.T1, t1.T2) ∧
          (u2.T0, u2.T1, u2.T2) = (t2.T0, t2.T1, t2.T2)) := by
  have h0 : (0.0 : α) = 0 := by norm_num
  constructor
  · rintro ⟨hBody, atm, href, hatm⟩
    exact Thrust_congr_atm m vessel r1 r2 F hBody atm href hatm hp
  · intro hno i t1 hi1
    have hlen : r1.thdef.length = r2.thdef.length := by
      have := congrArg List.length hp
      simpa using this
    have hlt : i < r2.thdef.length := by
      rw [← hlen]
      exact (List.get?_eq_some.mp hi1).1
    have hi2 : r2.thdef.get? i = some (r2.thdef.get ⟨i, hlt⟩) := List.get?_eq_get hlt
    exact ⟨_, _, _, hi2, Thrust_get_vacuum m vessel r1 F i t1 hno hi1,
      Thrust_get_vacuum m vessel r2 F i _ hno hi2, h0, h0, h0, h0, rfl, rfl⟩

/-- Witness for `Thrust_recomputes`: the DeltaGlider engines as registered and
after a call at Mach 10, both taken through a call at Mach 2. -/
theorem Thrust_recomputes_witness :
    (Sample.scramjet ℝ).thdef.map params =
      (Sample.overheated ℝ
        ⟨Real.sqrt, fun x y => x ^ y, fun x y => Real.sqrt (x * x + y * y)⟩).thdef.map params ∧
    Thrust ⟨Real.sqrt, fun x y => x ^ y, fun x y => Real.sqrt (x * x + y * y)⟩
        (Sample.air ℝ) (Sample.scramjet ℝ) (fun _ => 0) =
      Thrust ⟨Real.sqrt, fun x y => x ^ y, fun x y => Real.sqrt (x * x + y * y)⟩
        (Sample.air ℝ)
        (Sample.overheated ℝ
          ⟨Real.sqrt, fun x y => x ^ y, fun x y => Real.sqrt (x * x + y * y)⟩)
        (fun _ => 0) :=
  ⟨(Thrust_params _ (Sample.hypersonic ℝ) (Sample.scramjet ℝ) (fun _ => 0)).symm,
   (Thrust_recomputes _ (Sample.air ℝ) (Sample.scramjet ℝ) _ (fun _ => 0)
      (Thrust_params _ (Sample.hypersonic ℝ) (Sample.scramjet ℝ) (fun _ => 0)).symm).1
      ⟨0, ⟨1.4, 287⟩, rfl, rfl⟩⟩

/-- The assignments of `Ramjet::Thrust` as equations between its locals. -/
theorem locals_eqs [LinearOrderedField α] (m : Libm α) (vessel : FlightState α)
    (atm : ATMCONST α) (t : THDEF α) (L : Locals α) (hL : locals m vessel atm t = L) :
    L.M = vessel.GetMachNumber ∧ L.T0 = vessel.GetAtmTemperature ∧
    L.p0 = vessel.GetAtmPressure ∧
    L.cp = atm.gamma * atm.R / (atm.gamma - 1) ∧
    L.v0 = L.M * m.sqrt (atm.gamma * atm.R * L.T0) ∧
    L.tr = 1 + 0.5 * (atm.gamma - 1) * L.M * L.M ∧
    L.Td = L.T0 * L.tr ∧
    L.pd = L.p0 * m.pow (L.Td / L.T0) (atm.gamma / (atm.gamma - 1)) ∧
    L.precov = Max.max 0 (1 - 0.075 * m.pow (Max.max L.M 1 - 1) 1.35) ∧
    L.dmafac = 2.7e-4 * L.precov * L.pd ∧
    L.Tb0 = t.Tb_max ∧ L.lvl = vessel.GetThrusterLevel t.th ∧
    L.D0 = (L.Tb0 - L.Td) / (t.Qr / L.cp - L.Tb0) ∧
    L.D1 = L.D0 * L.lvl ∧
    L.dma = L.dmafac * t.Ai ∧
    L.dmf0 = L.D1 * L.dma ∧
    L.dmf = (if L.dmf0 > t.dmf_max then t.dmf_max else L.dmf0) ∧
    L.D = (if L.dmf0 > t.dmf_max then t.dmf_max / L.dma else L.D1) ∧
    L.Tb = (L.D * t.Qr / L.cp + L.Td) / (1 + L.D) ∧
    L.Te = L.Tb * m.pow (L.p0 / L.pd) ((atm.gamma - 1) / atm.gamma) ∧
    L.ve = m.sqrt (2 * L.cp * (L.Tb - L.Te)) ∧
    L.Fs = (1 + L.D) * L.ve - L.v0 ∧
    L.F = Max.max 0 (L.Fs * L.dma) := by
  have h0 : (0.0 : α) = 0 := by norm_num
  have h1 : (1.0 : α) = 1 := by norm_num
  have h2 : (2.0 : α) = 2 := by norm_num
  subst hL
  simp only [locals, h0, h1, h2, winMax_eq_max]
  exact ⟨trivial, trivial, trivial, trivial, trivial, trivial, trivial, trivial, trivial,
    trivial, trivial, trivial, trivial, trivial, trivial, trivial, trivial, trivial, trivial,
    trivial, trivial, trivial, trivial⟩

/-- When the commanded fuel flow `D1 * dma` exceeds a non-negative limit, the
air mass flow is positive and the re-derived ratio lies in `[0, D1)`. -/
theorem clamp_ratio [LinearOrderedField α] (D1 dma dmax : α) (hD1 : 0 ≤ D1)
    (hmax : 0 ≤ dmax) (hc : D1 * dma > dmax) :
    0 < dma ∧ 0 ≤ dmax / dma ∧ dmax / dma < D1 ∧ dmax / dma * dma = dmax := by
  have hpos : 0 < dma := by
    by_contra hn
    have : D1 * dma ≤ 0 := mul_nonpos_of_nonneg_of_nonpos hD1 (not_lt.mp hn)
    exact absurd (lt_of_le_of_lt hmax hc) (not_lt.mpr this)
  refine ⟨hpos, div_nonneg hmax (le_of_lt hpos), ?_, div_mul_cancel₀ _ (ne_of_gt hpos)⟩
  rw [div_lt_iff₀ hpos]
  exact hc

/-- The burner temperature `(D*Q + Td)/(1 + D)` lies between `Td` and `Tb0` for
a fuel-to-air ratio between 0 and `(Tb0 - Td)/(Q - Tb0)`. -/
theorem burner_bounds [LinearOrderedField α] (D Q Td Tb0 : α) (hQ : Q > Tb0) (hop : Tb0 > Td)
    (hD0 : 0 ≤ D) (hD : D ≤ (Tb0 - Td) / (Q - Tb0)) :
    Td ≤ (D * Q + Td) / (1 + D) ∧ (D * Q + Td) / (1 + D) ≤ Tb0 := by
  have h1 : 0 < 1 + D := by linarith
  have hq : 0 < Q - Tb0 := by linarith
  have hD2 : D * (Q - Tb0) ≤ Tb0 - Td := (le_div_iff₀ hq).mp hD
  constructor
  · rw [le_div_iff₀ h1]
    nlinarith
  · rw [div_le_iff₀ h1]
    nlinarith

/-- In the operating branch with `Qr/cp > Tb_max`, a non-negative throttle and
a non-negative fuel-flow limit, the fuel-to-air ratio after the fuel-rate test
lies in `[0, D1]`, `D1` in `[0, D0]` for a throttle `≤ 1`, and the test
succeeds only with a positive air mass flow. -/
theorem locals_D_bounds [LinearOrderedField α] (m : Libm α) (vessel : FlightState α)
    (atm : ATMCONST α) (t : THDEF α) (L : Locals α) (hL : locals m vessel atm t = L)
    (hop : t.Tb_max > L.Td) (hQ : t.Qr / L.cp > t.Tb_max)
    (hmax : 0 ≤ t.dmf_max) (hlvl : 0 ≤ L.lvl) :
    0 < t.Qr / L.cp - t.Tb_max ∧ 0 ≤ L.D0 ∧ 0 ≤ L.D1 ∧ (L.lvl ≤ 1 → L.D1 ≤ L.D0) ∧
    0 ≤ L.D ∧ L.D ≤ L.D1 ∧ L.D * L.dma = L.dmf ∧
    (L.dmf0 > t.dmf_max → 0 < L.dma ∧ L.D = t.dmf_max / L.dma ∧ L.dmf = t.dmf_max) ∧
    (¬ L.dmf0 > t.dmf_max → L.D = L.D1 ∧ L.dmf = L.dmf0) := by
  obtain ⟨_, _, _, _, _, _, _, _, _, _, eTb0, _, eD0, eD1, _, edmf0, edmf, eD, _⟩ :=
    locals_eqs m vessel atm t L hL
  have hq : 0 < t.Qr / L.cp - t.Tb_max := by linarith
  have hD0 : 0 ≤ L.D0 := by
    rw [eD0, eTb0]
    exact div_nonneg (by linarith) (le_of_lt hq)
  have hD1 : 0 ≤ L.D1 := by
    rw [eD1]
    exact mul_nonneg hD0 hlvl
  have hle : L.lvl ≤ 1 → L.D1 ≤ L.D0 := by
    intro h
    rw [eD1]
    exact mul_le_of_le_one_right hD0 h
  by_cases hc : L.dmf0 > t.dmf_max
  · have hc2 : L.D1 * L.dma > t.dmf_max := by
      rw [← edmf0]
      exact hc
    obtain ⟨c1, c2, c3, c4⟩ := clamp_ratio L.D1 L.dma t.dmf_max hD1 hmax hc2
    rw [if_pos hc] at edmf eD
    refine ⟨hq, hD0, hD1, hle, ?_, ?_, ?_, fun _ => ⟨c1, eD, edmf⟩, fun h => absurd hc h⟩
    · rw [eD]
      exact c2
    · rw [eD]
      exact le_of_lt c3
    · rw [eD, edmf]
      exact c4
  · rw [if_neg hc] at edmf eD
    refine ⟨hq, hD0, hD1, hle, ?_, ?_, ?_, fun h => absurd h hc, fun _ => ⟨eD, edmf⟩⟩
    · rw [eD]
      exact hD1
    · rw [eD]
    · rw [eD, edmf, edmf0]

/-- Claim C29: in the operating branch of `Ramjet::Thrust`, for an engine with
`heatingValue/cp > maxBurnerTemp`, `maxFuelFlow ≥ 0`, throttle `≥ 0` and
`γ > 1`, the divisors are non-zero: `γ − 1 > 0`, `heatingValue/cp −
maxBurnerTemp > 0`, and `1 + D > 0` for the ratio `D` used in the burner
temperature; the re-derivation `D = maxFuelFlow/dma` is reached only with
`dma > 0`, and with `dma = 0` the fuel-rate test fails and `D` stays as
commanded. -/
theorem Thrust_divisors_nonzero [LinearOrderedField α] (m : Libm α) (vessel : FlightState α)
    (r : Ramjet α) (F : Nat → α) (hBody : Nat) (atm : ATMCONST α) (i : Nat) (t : THDEF α)
    (L : Locals α) (hL : locals m vessel atm t = L)
    (href : vessel.GetAtmRef = some hBody)
    (hatm : vessel.oapiGetPlanetAtmConstants hBody = some atm)
    (hi : r.thdef.get? i = some t)
    (hop : t.Tb_max > L.Td) (hQ : t.Qr / L.cp > t.Tb_max)
    (hmax : 0 ≤ t.dmf_max) (hlvl : 0 ≤ vessel.GetThrusterLevel t.th) (hg : 1 < atm.gamma) :
    (Thrust m vessel r F).1.thdef.get? i =
      some { t with F := L.F, dmf := L.dmf, T1 := L.Tb, T2 := L.Te, T0 := L.Td } ∧
    L.cp = atm.gamma * atm.R / (atm.gamma - 1) ∧ 0 < atm.gamma - 1 ∧
    L.D0 = (t.Tb_max - L.Td) / (t.Qr / L.cp - t.Tb_max) ∧ 0 < t.Qr / L.cp - t.Tb_max ∧
    L.Tb = (L.D * t.Qr / L.cp + L.Td) / (1 + L.D) ∧ 0 < 1 + L.D ∧
    (L.dmf0 > t.dmf_max → L.D = t.dmf_max / L.dma ∧ 0 < L.dma) ∧
    (L.dma = 0 → ¬ L.dmf0 > t.dmf_max ∧ L.D = L.D1) := by
  obtain ⟨_, _, _, ecp, _, _, _, _, _, _, eTb0, elvl, eD0, _, _, _, _, _, eTb, _⟩ :=
    locals_eqs m vessel atm t L hL
  have hlvl2 : 0 ≤ L.lvl := by
    rw [elvl]
    exact hlvl
  obtain ⟨b1, _, _, _, b5, _, _, b8, b9⟩ :=
    locals_D_bounds m vessel atm t L hL hop hQ hmax hlvl2
  have hget := Thrust_get_operating m vessel r F hBody atm i t href hatm hi (hL ▸ hop)
  rw [hL] at hget
  rw [eTb0] at eD0
  refine ⟨hget, ecp, by linarith, eD0, b1, eTb, by linarith, fun hc => ⟨(b8 hc).2.1, (b8 hc).1⟩,
    fun hz => ?_⟩
  have hn : ¬ L.dmf0 > t.dmf_max := by
    intro hc
    exact absurd hz (ne_of_gt (b8 hc).1)
  exact ⟨hn, (b9 hn).1⟩

/-- Witness for `Thrust_divisors_nonzero`: the first DeltaGlider engine at
Mach 2 in air, full throttle (`Td = 450 K`, `Qr/cp ≈ 348432 K`). -/
theorem Thrust_divisors_nonzero_witness :
    (3500.0 : ℝ) >
      (locals ⟨Real.sqrt, fun x y => x ^ y, fun x y => Real.sqrt (x * x + y * y)⟩
        (Sample.air ℝ) ⟨1.4, 287⟩ ⟨0, 3.5e8, 1.0, 3500.0, 2.0, 0, 0, 0, 0, 0⟩).Td ∧
    0 < 1 + (locals ⟨Real.sqrt, fun x y => x ^ y, fun x y => Real.sqrt (x * x + y * y)⟩
        (Sample.air ℝ) ⟨1.4, 287⟩ ⟨0, 3.5e8, 1.0, 3500.0, 2.0, 0, 0, 0, 0, 0⟩).D :=
  ⟨by norm_num [locals, Sample.air],
   (Thrust_divisors_nonzero
      ⟨Real.sqrt, fun x y => x ^ y, fun x y => Real.sqrt (x * x + y * y)⟩
      (Sample.air ℝ) (Sample.scramjet ℝ) (fun _ => 0) 0 ⟨1.4, 287⟩ 0
      ⟨0, 3.5e8, 1.0, 3500.0, 2.0, 0, 0, 0, 0, 0⟩ _ rfl rfl rfl
      (by simp [Sample.scramjet, Ramjet.new, AddThrusterDefinition])
      (by norm_num [locals, Sample.air]) (by norm_num [locals, Sample.air])
      (by norm_num) (by norm_num [Sample.air]) (by norm_num)).2.2.2.2.2.2.1⟩

/-- Counterexample to C30 as stated: an engine registered with intake cross
section `-1` (and `heatingValue/cp > maxBurnerTemp`, `maxFuelFlow = 2 ≥ 0`), at
full throttle in air at rest with `p0 = 10000 ≥ 0`: the air mass flow is
`-2.7`, the fuel-rate test fails and the recorded fuel flow is negative. -/
theorem Thrust_fuel_flow_negative_intake :
    (Sample.static ℝ).GetAtmRef = some 0 ∧
    (Sample.static ℝ).oapiGetPlanetAtmConstants 0 = some ⟨1.4, 287⟩ ∧
    (3.5e8 : ℝ) / (1.4 * 287 / (1.4 - 1)) > 3500.0 ∧ (0 : ℝ) ≤ 2.0 ∧
    0 ≤ (Sample.static ℝ).GetThrusterLevel 0 ∧ 0 ≤ (Sample.static ℝ).GetAtmPressure ∧
    ∃ u, (Thrust ⟨Real.sqrt, fun x y => x ^ y, fun x y => Real.sqrt (x * x + y * y)⟩
        (Sample.static ℝ) (Sample.negativeIntake ℝ) (fun _ => 0)).1.thdef.get? 0 = some u ∧
      u.Qr = 3.5e8 ∧ u.Tb_max = 3500.0 ∧ u.dmf_max = 2.0 ∧ u.dmf < 0 := by
  have hi : (Sample.negativeIntake ℝ).thdef.get? 0 =
      some ⟨0, 3.5e8, -1.0, 3500.0, 2.0, 0, 0, 0, 0, 0⟩ := by
    simp [Sample.negativeIntake, Ramjet.new, AddThrusterDefinition]
  have hTd : (locals ⟨Real.sqrt, fun x y => x ^ y, fun x y => Real.sqrt (x * x + y * y)⟩
      (Sample.static ℝ) ⟨1.4, 287⟩ ⟨0, 3.5e8, -1.0, 3500.0, 2.0, 0, 0, 0, 0, 0⟩).Td = 250 := by
    norm_num [locals, Sample.static, Sample.air]
  have hdmf : (locals ⟨Real.sqrt, fun x y => x ^ y, fun x y => Real.sqrt (x * x + y * y)⟩
      (Sample.static ℝ) ⟨1.4, 287⟩ ⟨0, 3.5e8, -1.0, 3500.0, 2.0, 0, 0, 0, 0, 0⟩).dmf < 0 := by
    norm_num [locals, Sample.static, Sample.air, Win.max]
  have h := Thrust_get_operating
    ⟨Real.sqrt, fun x y => x ^ y, fun x y => Real.sqrt (x * x + y * y)⟩
    (Sample.static ℝ) (Sample.negativeIntake ℝ) (fun _ => 0) 0 ⟨1.4, 287⟩ 0 _ rfl rfl hi
    (by rw [hTd]; norm_num)
  exact ⟨rfl, rfl, by norm_num, by norm_num, by norm_num [Sample.static, Sample.air],
    by norm_num [Sample.static, Sample.air], _, h, rfl, rfl, rfl, hdmf⟩

/-- The air mass flow is non-negative for a non-negative freestream pressure, a
non-negative intake cross section and a non-negative value of the power
function in the diffuser pressure. -/
theorem locals_dma_nonneg [LinearOrderedField α] (m : Libm α) (vessel : FlightState α)
    (atm : ATMCONST α) (t : THDEF α) (L : Locals α) (hL : locals m vessel atm t = L)
    (hp0 : 0 ≤ vessel.GetAtmPressure) (hAi : 0 ≤ t.Ai)
    (hpow : 0 ≤ m.pow (L.Td / L.T0) (atm.gamma / (atm.gamma - 1))) :
    0 ≤ L.precov ∧ 0 ≤ L.pd ∧ 0 ≤ L.dma := by
  obtain ⟨_, _, ep0, _, _, _, _, epd, eprecov, edmafac, _, _, _, _, edma, _⟩ :=
    locals_eqs m vessel atm t L hL
  have h1 : 0 ≤ L.precov := by
    rw [eprecov]
    exact le_max_left _ _
  have h2 : 0 ≤ L.pd := by
    rw [epd, ep0]
    exact mul_nonneg hp0 hpow
  refine ⟨h1, h2, ?_⟩
  rw [edma, edmafac]
  exact mul_nonneg (mul_nonneg (mul_nonneg (by norm_num) h1) h2) hAi

/-- Claim C30, amended: for every engine with `maxFuelFlow ≥ 0`, throttle `≥ 0`,
`p0 ≥ 0` and intake cross section `≥ 0`, the fuel flow recorded by
`Ramjet::Thrust` is `≥ 0` in every branch: it is 0 without atmospheric
parameters and in the overheat branch, and in the operating branch, when
`heatingValue/cp > maxBurnerTemp` and the power function gives a non-negative
pressure ratio, the air mass flow is `≥ 0` and the fuel flow is
`min(throttle·D_max·dma, maxFuelFlow)`, with `D·dma = fuelFlow` for the ratio
`D` after the fuel-rate test. -/
theorem Thrust_fuel_flow_nonneg [LinearOrderedField α] (m : Libm α) (vessel : FlightState α)
    (r : Ramjet α) (F : Nat → α) (i : Nat) (t : THDEF α)
    (hi : r.thdef.get? i = some t)
    (hmax : 0 ≤ t.dmf_max) (hlvl : 0 ≤ vessel.GetThrusterLevel t.th)
    (hp0 : 0 ≤ vessel.GetAtmPressure) (hAi : 0 ≤ t.Ai) :
    ((vessel.GetAtmRef = none ∨
        ∃ hBody, vessel.GetAtmRef = some hBody ∧
          vessel.oapiGetPlanetAtmConstants hBody = none) →
      ∃ u, (Thrust m vessel r F).1.thdef.get? i = some u ∧ u.dmf = 0) ∧
    (∀ (hBody : Nat) (atm : ATMCONST α) (L : Locals α),
      vessel.GetAtmRef = some hBody → vessel.oapiGetPlanetAtmConstants hBody = some atm →
      locals m vessel atm t = L →
      (¬ t.Tb_max > L.Td →
        ∃ u, (Thrust m vessel r F).1.thdef.get? i = some u ∧ u.dmf = 0) ∧
      (t.Tb_max > L.Td → t.Qr / L.cp > t.Tb_max →
        0 ≤ m.pow (L.Td / L.T0) (atm.gamma / (atm.gamma - 1)) →
        ∃ u, (Thrust m vessel r F).1.thdef.get? i = some u ∧ u.dmf = L.dmf ∧
          0 ≤ u.dmf ∧ 0 ≤ L.dma ∧
          u.dmf = Min.min (L.lvl * L.D0 * L.dma) t.dmf_max ∧ L.D * L.dma = u.dmf)) := by
  have h0 : (0.0 : α) = 0 := by norm_num
  refine ⟨fun hno => ⟨_, Thrust_get_vacuum m vessel r F i t hno hi, h0⟩, ?_⟩
  intro hBody atm L href hatm hL
  have hget := Thrust_get_locals m vessel r F hBody atm i t href hatm hi
  rw [hL] at hget
  constructor
  · intro hot
    rw [if_neg hot] at hget
    exact ⟨_, hget, h0⟩
  · intro hop hQ hpow
    rw [if_pos hop] at hget
    obtain ⟨_, _, _, _, _, _, _, _, _, _, _, elvl, _, eD1, _, edmf0, _⟩ :=
      locals_eqs m vessel atm t L hL
    have hlvl2 : 0 ≤ L.lvl := by
      rw [elvl]
      exact hlvl
    obtain ⟨_, _, b3, _, _, _, b7, b8, b9⟩ :=
      locals_D_bounds m vessel atm t L hL hop hQ hmax hlvl2
    obtain ⟨_, _, d3⟩ := locals_dma_nonneg m vessel atm t L hL hp0 hAi hpow
    have e0 : L.lvl * L.D0 * L.dma = L.dmf0 := by
      rw [edmf0, eD1]
      ring
    have hnn : 0 ≤ L.dmf0 := by
      rw [edmf0]
      exact mul_nonneg b3 d3
    refine ⟨_, hget, rfl, ?_, d3, ?_, b7⟩
    · show 0 ≤ L.dmf
      by_cases hc : L.dmf0 > t.dmf_max
      · rw [(b8 hc).2.2]
        exact hmax
      · rw [(b9 hc).2]
        exact hnn
    · show L.dmf = Min.min (L.lvl * L.D0 * L.dma) t.dmf_max
      rw [e0]
      by_cases hc : L.dmf0 > t.dmf_max
      · rw [(b8 hc).2.2, min_eq_right (le_of_lt hc)]
      · rw [(b9 hc).2, min_eq_left (not_lt.mp hc)]

/-- Witness for `Thrust_fuel_flow_nonneg`: the first DeltaGlider engine at
Mach 2 in air, full throttle, over the reals. -/
theorem Thrust_fuel_flow_nonneg_witness :
    (0 : ℝ) ≤ 2.0 ∧ (0 : ℝ) ≤ 1.0 ∧ 0 ≤ (Sample.air ℝ).GetAtmPressure ∧
    ∃ u, (Thrust ⟨Real.sqrt, fun x y => x ^ y, fun x y => Real.sqrt (x * x + y * y)⟩
        (Sample.air ℝ) (Sample.scramjet ℝ) (fun _ => 0)).1.thdef.get? 0 = some u ∧
      0 ≤ u.dmf := by
  have h := ((Thrust_fuel_flow_nonneg
      ⟨Real.sqrt, fun x y => x ^ y, fun x y => Real.sqrt (x * x + y * y)⟩
      (Sample.air ℝ) (Sample.scramjet ℝ) (fun _ => 0) 0
      ⟨0, 3.5e8, 1.0, 3500.0, 2.0, 0, 0, 0, 0, 0⟩
      (by simp [Sample.scramjet, Ramjet.new, AddThrusterDefinition])
      (by norm_num) (by norm_num [Sample.air]) (by norm_num [Sample.air])
      (by norm_num)).2 0 ⟨1.4, 287⟩ _ rfl rfl rfl).2
      (by norm_num [locals, Sample.air]) (by norm_num [locals, Sample.air])
      (Real.rpow_nonneg (by norm_num [locals, Sample.air]) _)
  obtain ⟨u, h1, _, h3, _⟩ := h
  exact ⟨by norm_num, by norm_num, by norm_num [Sample.air], u, h1, h3⟩

/-- At the maximum fuel-to-air ratio `(Tb0 - Td)/(Q - Tb0)` the burner
temperature `(D*Q + Td)/(1 + D)` is `Tb0`. -/
theorem burner_at_max [LinearOrderedField α] (Q Td Tb0 : α) (hQ : Q > Tb0) (hop : Tb0 > Td) :
    ((Tb0 - Td) / (Q - Tb0) * Q + Td) / (1 + (Tb0 - Td) / (Q - Tb0)) = Tb0 := by
  have hq : Q - Tb0 ≠ 0 := ne_of_gt (by linarith)
  have h1 : 1 + (Tb0 - Td) / (Q - Tb0) ≠ 0 := by
    have : 0 ≤ (Tb0 - Td) / (Q - Tb0) := div_nonneg (by linarith) (by linarith)
    exact ne_of_gt (by linarith)
  rw [div_eq_iff h1]
  field_simp
  ring

/-- Counterexample to C25 as stated: an engine registered with `maxFuelFlow =
-1`, at full throttle in air at rest (`Td = 250 < maxBurnerTemp = 3500 <
heatingValue/cp`, air mass flow `2.7 ≥ 0`): the fuel-rate test succeeds, the
ratio becomes `-1/2.7`, and the burner temperature recorded in `T[1]` is below
the diffuser temperature recorded in `T[0]`. -/
theorem Thrust_burner_below_diffuser :
    (3.5e8 : ℝ) / (1.4 * 287 / (1.4 - 1)) > 3500.0 ∧
    (Sample.static ℝ).GetThrusterLevel 0 = 1 ∧
    (locals ⟨Real.sqrt, fun x y => x ^ y, fun x y => Real.sqrt (x * x + y * y)⟩
      (Sample.static ℝ) ⟨1.4, 287⟩ ⟨0, 3.5e8, 1.0, 3500.0, -1.0, 0, 0, 0, 0, 0⟩).dma = 2.7 ∧
    ∃ u, (Thrust ⟨Real.sqrt, fun x y => x ^ y, fun x y => Real.sqrt (x * x + y * y)⟩
        (Sample.static ℝ) (Sample.negativeLimit ℝ) (fun _ => 0)).1.thdef.get? 0 = some u ∧
      u.Tb_max = 3500.0 ∧ u.T0 = 250 ∧ u.T1 < u.T0 := by
  have hi : (Sample.negativeLimit ℝ).thdef.get? 0 =
      some ⟨0, 3.5e8, 1.0, 3500.0, -1.0, 0, 0, 0, 0, 0⟩ := by
    simp [Sample.negativeLimit, Ramjet.new, AddThrusterDefinition]
  have hTd : (locals ⟨Real.sqrt, fun x y => x ^ y, fun x y => Real.sqrt (x * x + y * y)⟩
      (Sample.static ℝ) ⟨1.4, 287⟩ ⟨0, 3.5e8, 1.0, 3500.0, -1.0, 0, 0, 0, 0, 0⟩).Td = 250 := by
    norm_num [locals, Sample.static, Sample.air]
  have hdma : (locals ⟨Real.sqrt, fun x y => x ^ y, fun x y => Real.sqrt (x * x + y * y)⟩
      (Sample.static ℝ) ⟨1.4, 287⟩ ⟨0, 3.5e8, 1.0, 3500.0, -1.0, 0, 0, 0, 0, 0⟩).dma = 2.7 := by
    norm_num [locals, Sample.static, Sample.air, Win.max]
  have hTb : (locals ⟨Real.sqrt, fun x y => x ^ y, fun x y => Real.sqrt (x * x + y * y)⟩
      (Sample.static ℝ) ⟨1.4, 287⟩ ⟨0, 3.5e8, 1.0, 3500.0, -1.0, 0, 0, 0, 0, 0⟩).Tb < 250 := by
    norm_num [locals, Sample.static, Sample.air, Win.max]
  have h := Thrust_get_operating
    ⟨Real.sqrt, fun x y => x ^ y, fun x y => Real.sqrt (x * x + y * y)⟩
    (Sample.static ℝ) (Sample.negativeLimit ℝ) (fun _ => 0) 0 ⟨1.4, 287⟩ 0 _ rfl rfl hi
    (by rw [hTd]; norm_num)
  exact ⟨by norm_num, rfl, hdma, _, h, rfl, hTd, lt_of_lt_of_eq hTb hTd.symm⟩

/-- Claim C25, amended: for every engine in the operating branch with
`heatingValue/cp > maxBurnerTemp > Td`, `maxFuelFlow ≥ 0` and throttle in
`[0, 1]`, the burner temperature recorded by `Ramjet::Thrust` in `T[1]`
satisfies `Td ≤ Tb ≤ maxBurnerTemp`, with `Tb = maxBurnerTemp` at throttle 1
when the fuel-rate test fails, and `Tb = Td` at throttle 0. -/
theorem Thrust_burner_temperature_bounds [LinearOrderedField α] (m : Libm α)
    (vessel : FlightState α) (r : Ramjet α) (F : Nat → α) (hBody : Nat) (atm : ATMCONST α)
    (i : Nat) (t : THDEF α) (L : Locals α) (hL : locals m vessel atm t = L)
    (href : vessel.GetAtmRef = some hBody)
    (hatm : vessel.oapiGetPlanetAtmConstants hBody = some atm)
    (hi : r.thdef.get? i = some t)
    (hop : t.Tb_max > L.Td) (hQ : t.Qr / L.cp > t.Tb_max) (hmax : 0 ≤ t.dmf_max)
    (hlvl0 : 0 ≤ vessel.GetThrusterLevel t.th) (hlvl1 : vessel.GetThrusterLevel t.th ≤ 1) :
    ∃ u, (Thrust m vessel r F).1.thdef.get? i = some u ∧ u.T0 = L.Td ∧ u.T1 = L.Tb ∧
      u.Tb_max = t.Tb_max ∧ u.T0 ≤ u.T1 ∧ u.T1 ≤ u.Tb_max ∧
      (vessel.GetThrusterLevel t.th = 1 → ¬ L.dmf0 > t.dmf_max → u.T1 = u.Tb_max) ∧
      (vessel.GetThrusterLevel t.th = 0 → u.T1 = u.T0) := by
  obtain ⟨_, _, _, _, _, _, _, _, _, _, eTb0, elvl, eD0, eD1, _, edmf0, _, _, eTb, _⟩ :=
    locals_eqs m vessel atm t L hL
  rw [eTb0] at eD0
  have hlvl2 : 0 ≤ L.lvl := by
    rw [elvl]
    exact hlvl0
  have hlvl3 : L.lvl ≤ 1 := by
    rw [elvl]
    exact hlvl1
  obtain ⟨_, _, _, b4, b5, b6, _, _, b9⟩ :=
    locals_D_bounds m vessel atm t L hL hop hQ hmax hlvl2
  have hget := Thrust_get_operating m vessel r F hBody atm i t href hatm hi (hL ▸ hop)
  rw [hL] at hget
  have eTb2 : L.Tb = (L.D * (t.Qr / L.cp) + L.Td) / (1 + L.D) := by
    rw [eTb, mul_div_assoc]
  have hb := burner_bounds L.D (t.Qr / L.cp) L.Td t.Tb_max hQ hop b5
    (by rw [← eD0]; exact le_trans b6 (b4 hlvl3))
  rw [← eTb2] at hb
  refine ⟨_, hget, rfl, rfl, rfl, hb.1, hb.2, ?_, ?_⟩
  · intro h1 hc
    show L.Tb = t.Tb_max
    have eD : L.D = (t.Tb_max - L.Td) / (t.Qr / L.cp - t.Tb_max) := by
      rw [(b9 hc).1, eD1, elvl, h1, mul_one, eD0]
    rw [eTb2, eD]
    exact burner_at_max (t.Qr / L.cp) L.Td t.Tb_max hQ hop
  · intro h0
    show L.Tb = L.Td
    have eD1z : L.D1 = 0 := by
      rw [eD1, elvl, h0, mul_zero]
    have hc : ¬ L.dmf0 > t.dmf_max := by
      rw [edmf0, eD1z, zero_mul]
      exact not_lt.mpr hmax
    rw [eTb2, (b9 hc).1, eD1z]
    simp

/-- Witness for `Thrust_burner_temperature_bounds`: the first DeltaGlider
engine at Mach 2 in air, full throttle, over the reals. -/
theorem Thrust_burner_temperature_bounds_witness :
    (3500.0 : ℝ) >
      (locals ⟨Real.sqrt, fun x y => x ^ y, fun x y => Real.sqrt (x * x + y * y)⟩
        (Sample.air ℝ) ⟨1.4, 287⟩ ⟨0, 3.5e8, 1.0, 3500.0, 2.0, 0, 0, 0, 0, 0⟩).Td ∧
    ∃ u, (Thrust ⟨Real.sqrt, fun x y => x ^ y, fun x y => Real.sqrt (x * x + y * y)⟩
        (Sample.air ℝ) (Sample.scramjet ℝ) (fun _ => 0)).1.thdef.get? 0 = some u ∧
      u.T0 ≤ u.T1 ∧ u.T1 ≤ u.Tb_max := by
  obtain ⟨u, h1, _, _, _, h5, h6, _⟩ := Thrust_burner_temperature_bounds
      ⟨Real.sqrt, fun x y => x ^ y, fun x y => Real.sqrt (x * x + y * y)⟩
      (Sample.air ℝ) (Sample.scramjet ℝ) (fun _ => 0) 0 ⟨1.4, 287⟩ 0
      ⟨0, 3.5e8, 1.0, 3500.0, 2.0, 0, 0, 0, 0, 0⟩ _ rfl rfl rfl
      (by simp [Sample.scramjet, Ramjet.new, AddThrusterDefinition])
      (by norm_num [locals, Sample.air]) (by norm_num [locals, Sample.air])
      (by norm_num) (by norm_num [Sample.air]) (by norm_num [Sample.air])
  exact ⟨by norm_num [locals, Sample.air], u, h1, h5, h6⟩

/-- Claim C24: over the reals, with the real power function, the pressure
recovery factor `precov` computed by `Ramjet::Thrust` (and entering the air
mass flow through `dmafac = 2.7e-4·precov·pd`) is
`max(0, 1 − 0.075·(max(M,1)−1)^1.35)`; it lies in `[0, 1]`, it is exactly 1 for
`M ≤ 1`, and it is non-increasing in `M`: a flight state with a larger Mach
number has a smaller or equal factor. -/
theorem Thrust_pressure_recovery (vessel vessel2 : FlightState ℝ) (atm atm2 : ATMCONST ℝ)
    (t t2 : THDEF ℝ) (L L2 : Locals ℝ)
    (hL : locals ⟨Real.sqrt, fun x y => x ^ y, fun x y => Real.sqrt (x * x + y * y)⟩
      vessel atm t = L)
    (hL2 : locals ⟨Real.sqrt, fun x y => x ^ y, fun x y => Real.sqrt (x * x + y * y)⟩
      vessel2 atm2 t2 = L2)
    (hM : vessel.GetMachNumber ≤ vessel2.GetMachNumber) :
    L.precov = Max.max 0 (1 - 0.075 * (Max.max vessel.GetMachNumber 1 - 1) ^ (1.35 : ℝ)) ∧
    L.dmafac = 2.7e-4 * L.precov * L.pd ∧
    0 ≤ L.precov ∧ L.precov ≤ 1 ∧
    (vessel.GetMachNumber ≤ 1 → L.precov = 1) ∧
    L2.precov ≤ L.precov := by
  obtain ⟨eM, _, _, _, _, _, _, _, eprecov, edmafac, _⟩ := locals_eqs _ vessel atm t L hL
  obtain ⟨eM2, _, _, _, _, _, _, _, eprecov2, _⟩ := locals_eqs _ vessel2 atm2 t2 L2 hL2
  have e1 : L.precov =
      Max.max 0 (1 - 0.075 * (Max.max vessel.GetMachNumber 1 - 1) ^ (1.35 : ℝ)) := by
    rw [← eM]
    exact eprecov
  have e2 : L2.precov =
      Max.max 0 (1 - 0.075 * (Max.max vessel2.GetMachNumber 1 - 1) ^ (1.35 : ℝ)) := by
    rw [← eM2]
    exact eprecov2
  have hx : 0 ≤ Max.max vessel.GetMachNumber 1 - 1 := by
    have := le_max_right vessel.GetMachNumber 1
    linarith
  have hxx : Max.max vessel.GetMachNumber 1 - 1 ≤ Max.max vessel2.GetMachNumber 1 - 1 := by
    have := max_le_max hM (le_refl (1 : ℝ))
    linarith
  have hp : 0 ≤ (Max.max vessel.GetMachNumber 1 - 1) ^ (1.35 : ℝ) := Real.rpow_nonneg hx _
  have hpp : (Max.max vessel.GetMachNumber 1 - 1) ^ (1.35 : ℝ) ≤
      (Max.max vessel2.GetMachNumber 1 - 1) ^ (1.35 : ℝ) :=
    Real.rpow_le_rpow hx hxx (by norm_num)
  refine ⟨e1, edmafac, ?_, ?_, ?_, ?_⟩
  · rw [e1]
    exact le_max_left _ _
  · rw [e1]
    exact max_le (by norm_num) (by linarith)
  · intro h1
    rw [e1, max_eq_right h1, sub_self, Real.zero_rpow (by norm_num)]
    norm_num
  · rw [e1, e2]
    exact max_le_max (le_refl _) (by linarith)

/-- Witness for `Thrust_pressure_recovery`: the sample air at Mach 2 against
the same air at Mach 10. -/
theorem Thrust_pressure_recovery_witness :
    (Sample.air ℝ).GetMachNumber ≤ (Sample.hypersonic ℝ).GetMachNumber ∧
    (locals ⟨Real.sqrt, fun x y => x ^ y, fun x y => Real.sqrt (x * x + y * y)⟩
      (Sample.hypersonic ℝ) ⟨1.4, 287⟩ ⟨0, 3.5e8, 1.0, 3500.0, 2.0, 0, 0, 0, 0, 0⟩).precov ≤
    (locals ⟨Real.sqrt, fun x y => x ^ y, fun x y => Real.sqrt (x * x + y * y)⟩
      (Sample.air ℝ) ⟨1.4, 287⟩ ⟨0, 3.5e8, 1.0, 3500.0, 2.0, 0, 0, 0, 0, 0⟩).precov :=
  ⟨by norm_num [Sample.air, Sample.hypersonic],
   (Thrust_pressure_recovery (Sample.air ℝ) (Sample.hypersonic ℝ) ⟨1.4, 287⟩ ⟨1.4, 287⟩
      ⟨0, 3.5e8, 1.0, 3500.0, 2.0, 0, 0, 0, 0, 0⟩ ⟨0, 3.5e8, 1.0, 3500.0, 2.0, 0, 0, 0, 0, 0⟩
      _ _ rfl rfl (by norm_num [Sample.air, Sample.hypersonic])).2.2.2.2.2⟩

/-- Counterexample to C26 as stated: an engine registered with `maxFuelFlow =
-1` at throttle 0 in air at rest (`M = 0`, `T0 = 250`, `p0 = 10000`,
`γ = 1.4`, `R = 287`, `Td = 250 < maxBurnerTemp = 3500 ≠ heatingValue/cp`):
the commanded fuel flow 0 exceeds the limit, the fuel-rate test succeeds and the
recorded fuel flow is `-1`, not 0. -/
theorem Thrust_zero_throttle_negative_limit :
    (Sample.idle ℝ).GetThrusterLevel 0 = 0 ∧ (0 : ℝ) ≤ (Sample.idle ℝ).GetMachNumber ∧
    0 < (Sample.idle ℝ).GetAtmTemperature ∧ 0 < (Sample.idle ℝ).GetAtmPressure ∧
    (3.5e8 : ℝ) / (1.4 * 287 / (1.4 - 1)) ≠ 3500.0 ∧
    ∃ u, (Thrust ⟨Real.sqrt, fun x y => x ^ y, fun x y => Real.sqrt (x * x + y * y)⟩
        (Sample.idle ℝ) (Sample.negativeLimit ℝ) (fun _ => 0)).1.thdef.get? 0 = some u ∧
      u.Tb_max = 3500.0 ∧ u.T0 = 250 ∧ u.dmf = -1 := by
  have hi : (Sample.negativeLimit ℝ).thdef.get? 0 =
      some ⟨0, 3.5e8, 1.0, 3500.0, -1.0, 0, 0, 0, 0, 0⟩ := by
    simp [Sample.negativeLimit, Ramjet.new, AddThrusterDefinition]
  have hTd : (locals ⟨Real.sqrt, fun x y => x ^ y, fun x y => Real.sqrt (x * x + y * y)⟩
      (Sample.idle ℝ) ⟨1.4, 287⟩ ⟨0, 3.5e8, 1.0, 3500.0, -1.0, 0, 0, 0, 0, 0⟩).Td = 250 := by
    norm_num [locals, Sample.idle, Sample.air]
  have hdmf : (locals ⟨Real.sqrt, fun x y => x ^ y, fun x y => Real.sqrt (x * x + y * y)⟩
      (Sample.idle ℝ) ⟨1.4, 287⟩ ⟨0, 3.5e8, 1.0, 3500.0, -1.0, 0, 0, 0, 0, 0⟩).dmf = -1 := by
    norm_num [locals, Sample.idle, Sample.air, Win.max]
  have h := Thrust_get_operating
    ⟨Real.sqrt, fun x y => x ^ y, fun x y => Real.sqrt (x * x + y * y)⟩
    (Sample.idle ℝ) (Sample.negativeLimit ℝ) (fun _ => 0) 0 ⟨1.4, 287⟩ 0 _ rfl rfl hi
    (by rw [hTd]; norm_num)
  exact ⟨rfl, by norm_num [Sample.idle, Sample.air], by norm_num [Sample.idle, Sample.air],
    by norm_num [Sample.idle, Sample.air], by norm_num, _, h, rfl, hTd, hdmf⟩

/-- The exhaust temperature of an unheated flow: expanding the diffuser
temperature `T0·tr` back through the pressure ratio of the diffuser gives
`T0`. -/
theorem exhaust_unheated (T0 p0 tr gamma : ℝ) (hT0 : 0 < T0) (hp0 : 0 < p0) (htr : 0 < tr)
    (hg : 1 < gamma) :
    T0 * tr * (p0 / (p0 * (T0 * tr / T0) ^ (gamma / (gamma - 1)))) ^ ((gamma - 1) / gamma)
      = T0 := by
  have hg1 : gamma - 1 ≠ 0 := ne_of_gt (by linarith)
  have hg0 : gamma ≠ 0 := ne_of_gt (by linarith)
  have e1 : T0 * tr / T0 = tr := by
    field_simp
  have hpos : 0 < tr ^ (gamma / (gamma - 1)) := Real.rpow_pos_of_pos htr _
  have e2 : p0 / (p0 * tr ^ (gamma / (gamma - 1))) = tr ^ (-(gamma / (gamma - 1))) := by
    rw [Real.rpow_neg (le_of_lt htr)]
    field_simp
  have e3 : -(gamma / (gamma - 1)) * ((gamma - 1) / gamma) = -1 := by
    field_simp
    ring
  rw [e1, e2, ← Real.rpow_mul (le_of_lt htr), e3, Real.rpow_neg_one]
  field_simp

/-- The exhaust velocity of an unheated flow is the freestream velocity. -/
theorem velocity_unheated (M T0 tr gamma R : ℝ) (hM : 0 ≤ M) (hg : 1 < gamma)
    (htr : tr = 1 + 0.5 * (gamma - 1) * M * M) :
    Real.sqrt (2 * (gamma * R / (gamma - 1)) * (T0 * tr - T0)) =
      M * Real.sqrt (gamma * R * T0) := by
  have hg1 : gamma - 1 ≠ 0 := ne_of_gt (by linarith)
  have e : 2 * (gamma * R / (gamma - 1)) * (T0 * tr - T0) = gamma * R * T0 * (M * M) := by
    rw [htr]
    field_simp
    ring
  rw [e, Real.sqrt_mul' _ (mul_self_nonneg M), Real.sqrt_mul_self hM, mul_comm]

/-- Claim C26, amended: over the reals, with the real square root and power
function, for `M ≥ 0`, `T0 > 0`, `p0 > 0`, `γ > 1`, `R > 0` and an engine in
the operating branch with `maxFuelFlow ≥ 0`, throttle level 0 and
`heatingValue/cp ≠ maxBurnerTemp`, `Ramjet::Thrust` computes `D = 0`, fuel flow
0, burner temperature `Td`, exhaust temperature `Te = T0`, exhaust velocity
`ve = v0`, specific thrust 0 and thrust `F = 0` (stored and written to
`F[i]`). -/
theorem Thrust_zero_throttle (vessel : FlightState ℝ) (r : Ramjet ℝ) (F : Nat → ℝ)
    (hBody : Nat) (atm : ATMCONST ℝ) (i : Nat) (t : THDEF ℝ) (L : Locals ℝ)
    (hL : locals ⟨Real.sqrt, fun x y => x ^ y, fun x y => Real.sqrt (x * x + y * y)⟩
      vessel atm t = L)
    (href : vessel.GetAtmRef = some hBody)
    (hatm : vessel.oapiGetPlanetAtmConstants hBody = some atm)
    (hi : r.thdef.get? i = some t)
    (hM : 0 ≤ vessel.GetMachNumber) (hT0 : 0 < vessel.GetAtmTemperature)
    (hp0 : 0 < vessel.GetAtmPressure) (hg : 1 < atm.gamma) (hR : 0 < atm.R)
    (hop : t.Tb_max > L.Td) (hlvl : vessel.GetThrusterLevel t.th = 0)
    (hQ : t.Qr / L.cp ≠ t.Tb_max) (hmax : 0 ≤ t.dmf_max) :
    ∃ u, (Thrust ⟨Real.sqrt, fun x y => x ^ y, fun x y => Real.sqrt (x * x + y * y)⟩
        vessel r F).1.thdef.get? i = some u ∧
      (Thrust ⟨Real.sqrt, fun x y => x ^ y, fun x y => Real.sqrt (x * x + y * y)⟩
        vessel r F).2 i = u.F ∧
      0 < L.cp ∧ t.Qr / L.cp - t.Tb_max ≠ 0 ∧
      L.D = 0 ∧ u.dmf = 0 ∧ u.T1 = L.Td ∧ u.T0 = L.Td ∧
      u.T2 = vessel.GetAtmTemperature ∧ L.ve = L.v0 ∧ L.Fs = 0 ∧ u.F = 0 := by
  obtain ⟨eM, eT0, ep0, ecp, ev0, etr, eTd, epd, _, _, _, elvl, _, eD1, _, edmf0,
    edmf, eD, eTb, eTe, eve, eFs, eF⟩ := locals_eqs _ vessel atm t L hL
  have hget := Thrust_get_operating _ vessel r F hBody atm i t href hatm hi (hL ▸ hop)
  rw [hL] at hget
  obtain ⟨t1, g1, g2, _⟩ := Thrust_get
    ⟨Real.sqrt, fun x y => x ^ y, fun x y => Real.sqrt (x * x + y * y)⟩ vessel r F i t hi
  have ht1 : t1 = { t with F := L.F, dmf := L.dmf, T1 := L.Tb, T2 := L.Te, T0 := L.Td } :=
    Option.some.inj (g1.symm.trans hget)
  have hg1 : 0 < atm.gamma - 1 := by linarith
  have hcp : 0 < L.cp := by
    rw [ecp]
    exact div_pos (mul_pos (by linarith) hR) hg1
  have hD1 : L.D1 = 0 := by
    rw [eD1, elvl, hlvl, mul_zero]
  have hdmf0 : L.dmf0 = 0 := by
    rw [edmf0, hD1, zero_mul]
  have hc : ¬ L.dmf0 > t.dmf_max := by
    rw [hdmf0]
    exact not_lt.mpr hmax
  rw [if_neg hc] at edmf eD
  have hD : L.D = 0 := eD.trans hD1
  have hdmf : L.dmf = 0 := edmf.trans hdmf0
  have hTb : L.Tb = L.Td := by
    rw [eTb, hD]
    simp
  have htr : 0 < L.tr := by
    rw [etr]
    have : 0 ≤ 0.5 * (atm.gamma - 1) * L.M * L.M := by
      have h2 : 0 ≤ L.M * L.M := mul_self_nonneg _
      have h3 : 0 ≤ 0.5 * (atm.gamma - 1) := mul_nonneg (by norm_num) (le_of_lt hg1)
      calc (0 : ℝ) ≤ 0.5 * (atm.gamma - 1) * (L.M * L.M) := mul_nonneg h3 h2
        _ = 0.5 * (atm.gamma - 1) * L.M * L.M := by ring
    linarith
  have hT0L : 0 < L.T0 := by
    rw [eT0]
    exact hT0
  have hp0L : 0 < L.p0 := by
    rw [ep0]
    exact hp0
  have hML : 0 ≤ L.M := by
    rw [eM]
    exact hM
  have epd2 : L.pd = L.p0 * (L.Td / L.T0) ^ (atm.gamma / (atm.gamma - 1)) := epd
  have eTe2 : L.Te = L.Tb * (L.p0 / L.pd) ^ ((atm.gamma - 1) / atm.gamma) := eTe
  have hTe : L.Te = L.T0 := by
    rw [eTe2, hTb, epd2, eTd]
    exact exhaust_unheated L.T0 L.p0 L.tr atm.gamma hT0L hp0L htr hg
  have eve2 : L.ve = Real.sqrt (2 * L.cp * (L.Tb - L.Te)) := eve
  have ev02 : L.v0 = L.M * Real.sqrt (atm.gamma * atm.R * L.T0) := ev0
  have hve : L.ve = L.v0 := by
    rw [eve2, ev02, hTb, hTe, eTd, ecp]
    exact velocity_unheated L.M L.T0 L.tr atm.gamma atm.R hML hg etr
  have hFs : L.Fs = 0 := by
    rw [eFs, hD, hve]
    ring
  have hF : L.F = 0 := by
    rw [eF, hFs, zero_mul]
    exact max_self 0
  refine ⟨t1, g1, g2, hcp, sub_ne_zero.mpr hQ, hD, ?_, ?_, ?_, ?_, hve, hFs, ?_⟩
  · rw [ht1]
    exact hdmf
  · rw [ht1]
    exact hTb
  · rw [ht1]
  · rw [ht1]
    exact hTe.trans eT0
  · rw [ht1]
    exact hF

/-- Witness for `Thrust_zero_throttle`: the first DeltaGlider engine with the
throttle closed in air at rest. -/
theorem Thrust_zero_throttle_witness :
    (Sample.idle ℝ).GetThrusterLevel 0 = 0 ∧
    ∃ u, (Thrust ⟨Real.sqrt, fun x y => x ^ y, fun x y => Real.sqrt (x * x + y * y)⟩
        (Sample.idle ℝ) (Sample.scramjet ℝ) (fun _ => 7)).1.thdef.get? 0 = some u ∧
      u.dmf = 0 ∧ u.F = 0 := by
  obtain ⟨u, h1, _, _, _, _, h6, _, _, _, _, _, h12⟩ := Thrust_zero_throttle
    (Sample.idle ℝ) (Sample.scramjet ℝ) (fun _ => 7) 0 ⟨1.4, 287⟩ 0
    ⟨0, 3.5e8, 1.0, 3500.0, 2.0, 0, 0, 0, 0, 0⟩ _ rfl rfl rfl
    (by simp [Sample.scramjet, Ramjet.new, AddThrusterDefinition])
    (by norm_num [Sample.idle, Sample.air]) (by norm_num [Sample.idle, Sample.air])
    (by norm_num [Sample.idle, Sample.air]) (by norm_num) (by norm_num)
    (by norm_num [locals, Sample.idle, Sample.air]) rfl
    (by norm_num [locals, Sample.idle, Sample.air]) (by norm_num)
  exact ⟨rfl, u, h1, h6, h12⟩

end Ramjet

/-! ## Theorems: host vessel interface -/

namespace VESSEL

variable {α : Type}

theorem Grows.refl (v : VESSEL α) : v.Grows v :=
  ⟨le_refl _, fun p hp => Or.inl ⟨p, hp, rfl⟩, fun t ht => Or.inl ⟨t, ht, rfl⟩,
    fun g hg => Or.inl ⟨g, hg, rfl, rfl⟩⟩

theorem Grows.trans {u v w : VESSEL α} (h1 : u.Grows v) (h2 : v.Grows w) : u.Grows w := by
  obtain ⟨n1, p1, t1, g1⟩ := h1
  obtain ⟨n2, p2, t2, g2⟩ := h2
  refine ⟨le_trans n1 n2, ?_, ?_, ?_⟩
  · intro p hp
    rcases p2 p hp with ⟨q, hq, e⟩ | h
    · rcases p1 q hq with ⟨q1, hq1, e1⟩ | h
      · exact Or.inl ⟨q1, hq1, e1.trans e⟩
      · exact Or.inr (e ▸ h)
    · exact Or.inr (le_trans n1 h)
  · intro p hp
    rcases t2 p hp with ⟨q, hq, e⟩ | h
    · rcases t1 q hq with ⟨q1, hq1, e1⟩ | h
      · exact Or.inl ⟨q1, hq1, e1.trans e⟩
      · exact Or.inr (e ▸ h)
    · exact Or.inr (le_trans n1 h)
  · intro p hp
    rcases g2 p hp with ⟨q, hq, e, e'⟩ | h
    · rcases g1 q hq with ⟨q1, hq1, e1, e1'⟩ | h
      · exact Or.inl ⟨q1, hq1, e1.trans e, e1'.trans e'⟩
      · exact Or.inr (e ▸ h)
    · exact Or.inr (le_trans n1 h)

theorem grows_CreatePropellantResource (v : VESSEL α) (maxmass : α) :
    v.Grows (v.CreatePropellantResource maxmass).1 := by
  refine ⟨Nat.le_succ _, ?_, fun t ht => Or.inl ⟨t, ht, rfl⟩,
    fun g hg => Or.inl ⟨g, hg, rfl, rfl⟩⟩
  intro p hp
  simp only [CreatePropellantResource, List.mem_append, List.mem_singleton] at hp
  rcases hp with hp | hp
  · exact Or.inl ⟨p, hp, rfl⟩
  · subst hp
    exact Or.inr (le_refl _)

theorem grows_CreateThruster [Zero α] (v : VESSEL α) (dir : VECTOR3 α) (maxth0 : α)
    (hp : Option Nat) : v.Grows (v.CreateThruster dir maxth0 hp).1 := by
  refine ⟨Nat.le_succ _, fun t ht => Or.inl ⟨t, ht, rfl⟩, ?_,
    fun g hg => Or.inl ⟨g, hg, rfl, rfl⟩⟩
  intro p hp
  simp only [CreateThruster, List.mem_append, List.mem_singleton] at hp
  rcases hp with hp | hp
  · exact Or.inl ⟨p, hp, rfl⟩
  · subst hp
    exact Or.inr (le_refl _)

theorem grows_CreateThrusterGroup (v : VESSEL α) (th : List Nat) (thgt : THGROUP_TYPE) :
    v.Grows (v.CreateThrusterGroup th thgt).1 := by
  refine ⟨Nat.le_succ _, fun t ht => Or.inl ⟨t, ht, rfl⟩, fun t ht => Or.inl ⟨t, ht, rfl⟩, ?_⟩
  intro g hg
  simp only [CreateThrusterGroup, List.mem_append, List.mem_singleton] at hg
  rcases hg with hg | hg
  · left
    refine ⟨g, ?_, rfl, rfl⟩
    split at hg
    · exact hg
    · exact (List.mem_filter.mp hg).1
  · subst hg
    exact Or.inr (le_refl _)

theorem grows_SetThrusterDir (v : VESSEL α) (th : Nat) (dir : VECTOR3 α) :
    v.Grows (v.SetThrusterDir th dir) := by
  refine ⟨le_refl _, fun t ht => Or.inl ⟨t, ht, rfl⟩, ?_, fun g hg => Or.inl ⟨g, hg, rfl, rfl⟩⟩
  intro t ht
  simp only [SetThrusterDir, List.mem_map] at ht
  obtain ⟨q, hq, e⟩ := ht
  left
  refine ⟨q, hq, ?_⟩
  subst e
  split <;> rfl

theorem grows_SetThrusterLevel (v : VESSEL α) (th : Nat) (level : α) :
    v.Grows (v.SetThrusterLevel th level) := by
  refine ⟨le_refl _, fun t ht => Or.inl ⟨t, ht, rfl⟩, ?_, fun g hg => Or.inl ⟨g, hg, rfl, rfl⟩⟩
  intro t ht
  simp only [SetThrusterLevel, List.mem_map] at ht
  obtain ⟨q, hq, e⟩ := ht
  left
  refine ⟨q, hq, ?_⟩
  subst e
  split <;> rfl

theorem grows_oapiCreateVesselEx (v : VESSEL α) (name classname : String) (x y : α) :
    v.Grows (v.oapiCreateVesselEx name classname x y) :=
  ⟨le_refl _, fun p hp => Or.inl ⟨p, hp, rfl⟩, fun t ht => Or.inl ⟨t, ht, rfl⟩,
    fun g hg => Or.inl ⟨g, hg, rfl, rfl⟩⟩

theorem grows_ClearThrusterDefinitions (v : VESSEL α) :
    v.Grows v.ClearThrusterDefinitions := by
  refine ⟨le_refl _, fun p hp => Or.inl ⟨p, hp, rfl⟩, ?_, ?_⟩
  · intro t ht
    simp [ClearThrusterDefinitions] at ht
  · intro t ht
    simp [ClearThrusterDefinitions] at ht

theorem grows_delThrusters (v : VESSEL α) (hs : List Nat) : v.Grows (v.delThrusters hs) := by
  refine ⟨le_refl _, fun p hp => Or.inl ⟨p, hp, rfl⟩, ?_, ?_⟩
  · intro t ht
    exact Or.inl ⟨t, (List.mem_filter.mp ht).1, rfl⟩
  · intro g hg
    simp only [delThrusters, List.mem_map] at hg
    obtain ⟨q, hq, e⟩ := hg
    subst e
    exact Or.inl ⟨q, hq, rfl, rfl⟩

theorem grows_DelPropellantResource (v : VESSEL α) (ph : Option Nat) :
    v.Grows (v.DelPropellantResource ph).1 := by
  cases ph with
  | none => exact Grows.refl v
  | some h =>
    refine ⟨le_refl _, ?_, ?_, fun g hg => Or.inl ⟨g, hg, rfl, rfl⟩⟩
    · intro p hp
      exact Or.inl ⟨p, (List.mem_filter.mp hp).1, rfl⟩
    · intro t ht
      simp only [DelPropellantResource, List.mem_map] at ht
      obtain ⟨q, hq, e⟩ := ht
      left
      refine ⟨q, hq, ?_⟩
      subst e
      split <;> rfl

theorem grows_DelThrusterGroup (v : VESSEL α) (thg : Option Nat) (delth : Bool) :
    v.Grows (v.DelThrusterGroup thg delth).1 := by
  cases thg with
  | none => exact Grows.refl v
  | some h =>
    have h1 : v.Grows { v with groups := v.groups.filter (fun g => g.handle != h) } :=
      ⟨le_refl _, fun p hp => Or.inl ⟨p, hp, rfl⟩, fun t ht => Or.inl ⟨t, ht, rfl⟩,
        fun g hg => Or.inl ⟨g, (List.mem_filter.mp hg).1, rfl, rfl⟩⟩
    simp only [DelThrusterGroup]
    split
    · exact Grows.trans h1 (grows_delThrusters _ _)
    · exact h1

theorem grows_DelThrusterGroupType (v : VESSEL α) (thgt : THGROUP_TYPE) (delth : Bool) :
    v.Grows (v.DelThrusterGroupType thgt delth) := by
  have h1 : v.Grows { v with groups := v.groups.filter (fun g => g.thgt != thgt) } :=
    ⟨le_refl _, fun p hp => Or.inl ⟨p, hp, rfl⟩, fun t ht => Or.inl ⟨t, ht, rfl⟩,
      fun g hg => Or.inl ⟨g, (List.mem_filter.mp hg).1, rfl, rfl⟩⟩
  simp only [DelThrusterGroupType]
  split
  · exact Grows.trans h1 (grows_delThrusters _ _)
  · exact h1

theorem Grows.propellant_ne {v w : VESSEL α} (hg : v.Grows w) (h : Nat)
    (hlt : h < v.nextHandle) (hne : ∀ q ∈ v.propellants, q.handle ≠ h) :
    ∀ q ∈ w.propellants, q.handle ≠ h := by
  intro q hq e
  rcases hg.2.1 q hq with ⟨q0, hq0, e0⟩ | hfresh
  · exact hne q0 hq0 (e0.trans e)
  · omega

theorem Grows.thruster_ne {v w : VESSEL α} (hg : v.Grows w) (h : Nat)
    (hlt : h < v.nextHandle) (hne : ∀ q ∈ v.thrusters, q.handle ≠ h) :
    ∀ q ∈ w.thrusters, q.handle ≠ h := by
  intro q hq e
  rcases hg.2.2.1 q hq with ⟨q0, hq0, e0⟩ | hfresh
  · exact hne q0 hq0 (e0.trans e)
  · omega

theorem Grows.group_ne {v w : VESSEL α} (hg : v.Grows w) (h : Nat)
    (hlt : h < v.nextHandle) (hne : ∀ q ∈ v.groups, q.handle ≠ h) :
    ∀ q ∈ w.groups, q.handle ≠ h := by
  intro q hq e
  rcases hg.2.2.2 q hq with ⟨q0, hq0, e0, _⟩ | hfresh
  · exact hne q0 hq0 (e0.trans e)
  · omega

theorem Grows.group_type_fresh {v w : VESSEL α} (hg : v.Grows w) (ts : List THGROUP_TYPE)
    (hne : ∀ q ∈ v.groups, q.thgt ∉ ts) :
    ∀ q ∈ w.groups, q.thgt ∈ ts → v.nextHandle ≤ q.handle := by
  intro q hq ht
  rcases hg.2.2.2 q hq with ⟨q0, hq0, _, e1⟩ | hfresh
  · exact absurd (e1 ▸ ht) (hne q0 hq0)
  · exact hfresh

theorem DelPropellantResource_ne (v : VESSEL α) (h : Nat) :
    ∀ q ∈ (v.DelPropellantResource (some h)).1.propellants, q.handle ≠ h := by
  intro q hq
  simp only [DelPropellantResource, List.mem_filter, bne_iff_ne] at hq
  exact hq.2

theorem DelPropellantResource_snd (v : VESSEL α) (ph : Option Nat) :
    (v.DelPropellantResource ph).2 = none := by
  cases ph <;> rfl

theorem DelPropellantResource_nextHandle (v : VESSEL α) (ph : Option Nat) :
    (v.DelPropellantResource ph).1.nextHandle = v.nextHandle := by
  cases ph <;> rfl

theorem DelThrusterGroup_snd (v : VESSEL α) (thg : Option Nat) (delth : Bool) :
    (v.DelThrusterGroup thg delth).2 = none := by
  cases thg <;> rfl

theorem DelThrusterGroup_nextHandle (v : VESSEL α) (thg : Option Nat) (delth : Bool) :
    (v.DelThrusterGroup thg delth).1.nextHandle = v.nextHandle := by
  cases thg with
  | none => rfl
  | some h =>
    simp only [DelThrusterGroup]
    split <;> rfl

theorem DelThrusterGroup_group_ne (v : VESSEL α) (h : Nat) (delth : Bool) :
    ∀ q ∈ (v.DelThrusterGroup (some h) delth).1.groups, q.handle ≠ h := by
  intro q hq
  simp only [DelThrusterGroup] at hq
  split at hq
  · simp only [delThrusters, List.mem_map, List.mem_filter, bne_iff_ne] at hq
    obtain ⟨q0, ⟨_, hne⟩, e⟩ := hq
    subst e
    exact hne
  · simp only [List.mem_filter, bne_iff_ne] at hq
    exact hq.2

theorem DelThrusterGroup_member_ne (v : VESSEL α) (h : Nat) (g : ThrusterGroup)
    (hg : g ∈ v.groups) (hh : g.handle = h) (x : Nat) (hx : x ∈ g.th) :
    ∀ t ∈ (v.DelThrusterGroup (some h) true).1.thrusters, t.handle ≠ x := by
  intro t ht e
  simp only [DelThrusterGroup, if_true, delThrusters, List.mem_filter, Bool.not_eq_true',
    List.contains_eq_any_beq, List.any_eq_false, beq_iff_eq, List.mem_flatMap,
    forall_exists_index, and_imp] at ht
  refine ht.2 x g hg ?_ hx e
  simp [hh]

theorem DelThrusterGroupType_nextHandle (v : VESSEL α) (thgt : THGROUP_TYPE) (delth : Bool) :
    (v.DelThrusterGroupType thgt delth).nextHandle = v.nextHandle := by
  simp only [DelThrusterGroupType]
  split <;> rfl

theorem DelThrusterGroupType_groups (v : VESSEL α) (thgt : THGROUP_TYPE) (delth : Bool) :
    ∀ q ∈ (v.DelThrusterGroupType thgt delth).groups,
      q.thgt ≠ thgt ∧ ∃ q0 ∈ v.groups, q0.thgt = q.thgt := by
  intro q hq
  simp only [DelThrusterGroupType] at hq
  split at hq
  · simp only [delThrusters, List.mem_map, List.mem_filter, bne_iff_ne] at hq
    obtain ⟨q0, ⟨hq0, hne⟩, e⟩ := hq
    subst e
    exact ⟨hne, q0, hq0, rfl⟩
  · simp only [List.mem_filter, bne_iff_ne] at hq
    exact ⟨hq.2, q, hq.1, rfl⟩

end VESSEL

/-! ## Theorems: Atlantis -/

namespace Atlantis

variable {α : Type} [LinearOrderedField α]

theorem grows_CreateAttControls (a : Atlantis α) (p r y : α) :
    a.toVESSEL.Grows (a.CreateAttControls p r y).toVESSEL := by
  simp only [CreateAttControls]
  iterate 6
    refine VESSEL.Grows.trans ?_ (VESSEL.grows_CreateThrusterGroup _ _ _)
    refine VESSEL.Grows.trans ?_ (VESSEL.grows_CreateThruster _ _ _ _)
    refine VESSEL.Grows.trans ?_ (VESSEL.grows_CreateThruster _ _ _ _)
  exact VESSEL.Grows.refl _

theorem grows_CreateAttControls_RCS (a : Atlantis α) :
    a.toVESSEL.Grows a.CreateAttControls_RCS.toVESSEL := by
  simp only [CreateAttControls_RCS]
  refine VESSEL.Grows.trans ?_ (VESSEL.grows_CreateThrusterGroup _ _ _)
  refine VESSEL.Grows.trans ?_ (VESSEL.grows_CreateThrusterGroup _ _ _)
  refine VESSEL.Grows.trans ?_ (VESSEL.grows_CreateThruster _ _ _ _)
  refine VESSEL.Grows.trans ?_ (VESSEL.grows_CreateThruster _ _ _ _)
  refine VESSEL.Grows.trans ?_ (VESSEL.grows_CreateThrusterGroup _ _ _)
  refine VESSEL.Grows.trans ?_ (VESSEL.grows_CreateThrusterGroup _ _ _)
  iterate 4 refine VESSEL.Grows.trans ?_ (VESSEL.grows_CreateThruster _ _ _ _)
  iterate 2
    iterate 4 refine VESSEL.Grows.trans ?_ (VESSEL.grows_CreateThrusterGroup _ _ _)
    iterate 4 refine VESSEL.Grows.trans ?_ (VESSEL.grows_CreateThruster _ _ _ _)
  exact VESSEL.Grows.refl _

theorem CreateAttControls_fields (a : Atlantis α) (p r y : α) :
    (a.CreateAttControls p r y).ph_srb = a.ph_srb ∧
    (a.CreateAttControls p r y).thg_srb = a.thg_srb ∧
    (a.CreateAttControls p r y).bManualSeparate = a.bManualSeparate ∧
    (a.CreateAttControls p r y).t0 = a.t0 := by
  refine ⟨?_, ?_, ?_, ?_⟩ <;> simp only [CreateAttControls]

theorem SetOrbiterTankConfiguration_facts (a b : Atlantis α)
    (hb : a.SetOrbiterTankConfiguration = b) :
    b.status = 2 ∧ b.ph_srb = a.ph_srb ∧ b.thg_srb = a.thg_srb ∧
    b.bManualSeparate = a.bManualSeparate ∧ b.t0 = a.t0 ∧
    a.toVESSEL.Grows b.toVESSEL := by
  unfold SetOrbiterTankConfiguration at hb
  lift_lets at hb
  extract_lets r1 a1 r2 a2 v1 v2 v3 m0 m1 m2 g a3 a4 at hb
  have h1 : a1.ph_srb = a.ph_srb ∧ a1.thg_srb = a.thg_srb ∧
      a1.bManualSeparate = a.bManualSeparate ∧ a1.t0 = a.t0 ∧
      a.toVESSEL.Grows a1.toVESSEL := by
    simp only [a1]
    split
    · exact ⟨rfl, rfl, rfl, rfl, VESSEL.grows_CreatePropellantResource _ _⟩
    · exact ⟨rfl, rfl, rfl, rfl, VESSEL.Grows.refl _⟩
  have h2 : a2.ph_srb = a1.ph_srb ∧ a2.thg_srb = a1.thg_srb ∧
      a2.bManualSeparate = a1.bManualSeparate ∧ a2.t0 = a1.t0 ∧
      a1.toVESSEL.Grows a2.toVESSEL := by
    simp only [a2]
    split
    · exact ⟨rfl, rfl, rfl, rfl, VESSEL.grows_CreatePropellantResource _ _⟩
    · exact ⟨rfl, rfl, rfl, rfl, VESSEL.Grows.refl _⟩
  have h3 : a3.ph_srb = a2.ph_srb ∧ a3.thg_srb = a2.thg_srb ∧
      a3.bManualSeparate = a2.bManualSeparate ∧ a3.t0 = a2.t0 ∧
      a2.toVESSEL.Grows a3.toVESSEL := by
    simp only [a3]
    split
    · refine ⟨rfl, rfl, rfl, rfl, ?_⟩
      exact ((VESSEL.grows_SetThrusterDir _ _ _).trans
        (VESSEL.grows_SetThrusterDir _ _ _)).trans (VESSEL.grows_SetThrusterDir _ _ _)
    · refine ⟨rfl, rfl, rfl, rfl, ?_⟩
      exact (((VESSEL.grows_CreateThruster _ _ _ _).trans
        (VESSEL.grows_CreateThruster _ _ _ _)).trans
        (VESSEL.grows_CreateThruster _ _ _ _)).trans (VESSEL.grows_CreateThrusterGroup _ _ _)
  have h4 : a4.ph_srb = a3.ph_srb ∧ a4.thg_srb = a3.thg_srb ∧
      a4.bManualSeparate = a3.bManualSeparate ∧ a4.t0 = a3.t0 ∧
      a3.toVESSEL.Grows a4.toVESSEL := by
    clear_value a3
    simp only [a4]
    split
    · have hf := CreateAttControls_fields a3 MAX_ATT_LAUNCH MAX_ROLL_SRB MAX_ATT_LAUNCH
      exact ⟨hf.1, hf.2.1, hf.2.2.1, hf.2.2.2,
        grows_CreateAttControls a3 MAX_ATT_LAUNCH MAX_ROLL_SRB MAX_ATT_LAUNCH⟩
    · exact ⟨rfl, rfl, rfl, rfl, VESSEL.Grows.refl _⟩
  clear_value a4
  obtain ⟨e1, f1, b1, t1, g1⟩ := h1
  obtain ⟨e2, f2, b2, t2, g2⟩ := h2
  obtain ⟨e3, f3, b3, t3, g3⟩ := h3
  obtain ⟨e4, f4, b4, t4, g4⟩ := h4
  subst hb
  exact ⟨rfl, by simp only [e4, e3, e2, e1], by simp only [f4, f3, f2, f1],
    by simp only [b4, b3, b2, b1], by simp only [t4, t3, t2, t1],
    (g1.trans g2).trans (g3.trans g4)⟩

theorem CreateAttControls_RCS_fields (a : Atlantis α) :
    a.CreateAttControls_RCS.ph_srb = a.ph_srb ∧
    a.CreateAttControls_RCS.thg_srb = a.thg_srb ∧
    a.CreateAttControls_RCS.bManualSeparate = a.bManualSeparate ∧
    a.CreateAttControls_RCS.t0 = a.t0 ∧
    a.CreateAttControls_RCS.ph_tank = a.ph_tank := by
  refine ⟨?_, ?_, ?_, ?_, ?_⟩ <;> simp only [CreateAttControls_RCS]

theorem SetOrbiterConfiguration_facts (a b : Atlantis α)
    (hb : a.SetOrbiterConfiguration = b) :
    b.status = 3 ∧ b.ph_srb = a.ph_srb ∧ b.thg_srb = a.thg_srb ∧
    b.bManualSeparate = a.bManualSeparate ∧ b.t0 = a.t0 ∧ b.ph_tank = a.ph_tank ∧
    a.toVESSEL.Grows b.toVESSEL := by
  unfold SetOrbiterConfiguration at hb
  lift_lets at hb
  extract_lets r1 a1 m0 m1 g a2 a3 at hb
  have h1 : a1.ph_srb = a.ph_srb ∧ a1.thg_srb = a.thg_srb ∧
      a1.bManualSeparate = a.bManualSeparate ∧ a1.t0 = a.t0 ∧ a1.ph_tank = a.ph_tank ∧
      a.toVESSEL.Grows a1.toVESSEL := by
    simp only [a1]
    split
    · exact ⟨rfl, rfl, rfl, rfl, rfl, VESSEL.grows_CreatePropellantResource _ _⟩
    · exact ⟨rfl, rfl, rfl, rfl, rfl, VESSEL.Grows.refl _⟩
  clear_value a1
  have h2 : a2.ph_srb = a1.ph_srb ∧ a2.thg_srb = a1.thg_srb ∧
      a2.bManualSeparate = a1.bManualSeparate ∧ a2.t0 = a1.t0 ∧ a2.ph_tank = a1.ph_tank ∧
      a1.toVESSEL.Grows a2.toVESSEL :=
    ⟨rfl, rfl, rfl, rfl, rfl, ((VESSEL.grows_CreateThruster _ _ _ _).trans
        (VESSEL.grows_CreateThruster _ _ _ _)).trans (VESSEL.grows_CreateThrusterGroup _ _ _)⟩
  clear_value a2
  have h3 : a3.ph_srb = a2.ph_srb ∧ a3.thg_srb = a2.thg_srb ∧
      a3.bManualSeparate = a2.bManualSeparate ∧ a3.t0 = a2.t0 ∧ a3.ph_tank = a2.ph_tank ∧
      a2.toVESSEL.Grows a3.toVESSEL := by
    have hf := CreateAttControls_RCS_fields a2
    exact ⟨hf.1, hf.2.1, hf.2.2.1, hf.2.2.2.1, hf.2.2.2.2, grows_CreateAttControls_RCS a2⟩
  clear_value a3
  obtain ⟨e1, f1, b1, t1, p1, g1⟩ := h1
  obtain ⟨e2, f2, b2, t2, p2, g2⟩ := h2
  obtain ⟨e3, f3, b3, t3, p3, g3⟩ := h3
  subst hb
  exact ⟨rfl, by simp only [e3, e2, e1], by simp only [f3, f2, f1],
    by simp only [b3, b2, b1], by simp only [t3, t2, t1], by simp only [p3, p2, p1],
    (g1.trans g2).trans g3⟩

theorem AutoMainGimbal_facts (m : Libm α) (a : Atlantis α) :
    (a.AutoMainGimbal m).status = a.status ∧ (a.AutoMainGimbal m).t0 = a.t0 ∧
    (a.AutoMainGimbal m).bManualSeparate = a.bManualSeparate := by
  unfold AutoMainGimbal
  lift_lets
  intros
  split <;> exact ⟨rfl, rfl, rfl⟩

theorem clbkPostStep_status1 (m : Libm α) (GetSRB_State : α → α × α) (a : Atlantis α)
    (simt : α) (h1 : a.status = 1) :
    (((simt - a.t0 > SRB_SEPARATION_TIME ∧ ¬ a.Playback) ∨ a.bManualSeparate) →
      a.clbkPostStep m GetSRB_State simt =
        { a.SeparateBoosters GetSRB_State (simt - a.t0) with bManualSeparate := false }) ∧
    (¬ ((simt - a.t0 > SRB_SEPARATION_TIME ∧ ¬ a.Playback) ∨ a.bManualSeparate) →
      (a.clbkPostStep m GetSRB_State simt).status = 1 ∧
      (a.clbkPostStep m GetSRB_State simt).t0 = a.t0 ∧
      (a.clbkPostStep m GetSRB_State simt).bManualSeparate = a.bManualSeparate) := by
  have h10 : ¬ a.status = 0 := by rw [h1]; decide
  constructor
  · intro hc
    simp only [clbkPostStep, if_neg h10, if_pos h1, if_pos hc]
  · intro hc
    simp only [clbkPostStep, if_neg h10, if_pos h1, if_neg hc]
    exact ⟨(AutoMainGimbal_facts m _).1.trans h1, (AutoMainGimbal_facts m _).2.1,
      (AutoMainGimbal_facts m _).2.2⟩

theorem SeparateBoosters_status (GetSRB_State : α → α × α) (a : Atlantis α) (met : α) :
    (a.SeparateBoosters GetSRB_State met).status = 2 :=
  (SetOrbiterTankConfiguration_facts _ _ rfl).1

/-- C7: in a state with `status = 0` (Assembled), a per-step update at
simulation time `simt` for which the host reports a main-engine level
`> 0.95` ends with `status = 1` (BoostersBurning) and
`t0 = simt + SRB_STABILISATION_TIME = simt + 4`; if the level is `≤ 0.95` the
status stays 0 and `t0` is unchanged. -/
theorem clbkPostStep_assembled (m : Libm α) (GetSRB_State : α → α × α) (a : Atlantis α)
    (simt : α) (h0 : a.status = 0) :
    (a.GetEngineLevel_MAIN > 0.95 →
      (a.clbkPostStep m GetSRB_State simt).status = 1 ∧
      (a.clbkPostStep m GetSRB_State simt).t0 = simt + 4) ∧
    (a.GetEngineLevel_MAIN ≤ 0.95 →
      (a.clbkPostStep m GetSRB_State simt).status = 0 ∧
      (a.clbkPostStep m GetSRB_State simt).t0 = a.t0) := by
  constructor
  · intro hl
    simp only [clbkPostStep, if_pos h0, if_pos hl, SRB_STABILISATION_TIME]
    norm_num
  · intro hl
    simp only [clbkPostStep, if_pos h0, gt_iff_lt, if_neg (not_lt.mpr hl)]
    exact ⟨(AutoMainGimbal_facts m a).1.trans h0, (AutoMainGimbal_facts m a).2.1⟩

/-- C8: in a state with `status = 1` (BoostersBurning), no manual separation
request and not in playback, a per-step update at time `simt` ends with
`status = 2` (BoostersSeparated) if and only if `simt - t0 > 126` (strict), and
otherwise leaves `status = 1`; in particular a step at `simt = t0 + 51` and a
step at exactly `simt = t0 + 126` leave the status at 1, and a step at
`simt = t0 + 127` moves it to 2. -/
theorem clbkPostStep_boosters_burning (m : Libm α) (GetSRB_State : α → α × α)
    (a : Atlantis α) (h1 : a.status = 1) (hman : a.bManualSeparate = false)
    (hplay : a.Playback = false) :
    (∀ simt : α, ((a.clbkPostStep m GetSRB_State simt).status = 2 ↔ simt - a.t0 > 126) ∧
      (¬ (simt - a.t0 > 126) → (a.clbkPostStep m GetSRB_State simt).status = 1)) ∧
    (a.clbkPostStep m GetSRB_State (a.t0 + 51)).status = 1 ∧
    (a.clbkPostStep m GetSRB_State (a.t0 + 126)).status = 1 ∧
    (a.clbkPostStep m GetSRB_State (a.t0 + 127)).status = 2 := by
  have key : ∀ simt : α,
      ((a.clbkPostStep m GetSRB_State simt).status = 2 ↔ simt - a.t0 > 126) ∧
      (¬ (simt - a.t0 > 126) → (a.clbkPostStep m GetSRB_State simt).status = 1) := by
    intro simt
    have hcond : ((simt - a.t0 > SRB_SEPARATION_TIME ∧ ¬ a.Playback) ∨ a.bManualSeparate) ↔
        simt - a.t0 > 126 := by
      simp only [hman, hplay, SRB_SEPARATION_TIME]
      norm_num
    obtain ⟨hs, hn⟩ := clbkPostStep_status1 m GetSRB_State a simt h1
    by_cases hc : simt - a.t0 > 126
    · have e := hs (hcond.mpr hc)
      have : (a.clbkPostStep m GetSRB_State simt).status = 2 := by
        rw [e]
        exact SeparateBoosters_status GetSRB_State a (simt - a.t0)
      exact ⟨⟨fun _ => hc, fun _ => this⟩, fun h => absurd hc h⟩
    · have e := (hn (fun h => hc (hcond.mp h))).1
      refine ⟨⟨fun h => ?_, fun h => absurd h hc⟩, fun _ => e⟩
      rw [e] at h
      exact absurd h (by decide)
  refine ⟨key, (key _).2 ?_, (key _).2 ?_, (key _).1.mpr ?_⟩
  · norm_num
  · norm_num
  · norm_num

theorem SeparateBoosters_facts (GetSRB_State : α → α × α) (a b : Atlantis α) (met : α)
    (hb : a.SeparateBoosters GetSRB_State met = b) :
    b.status = 2 ∧ b.ph_srb = none ∧ b.thg_srb = none ∧
    (a.toVESSEL.wf →
      (∀ p ∈ a.propellants, a.ph_srb = some p.handle →
        ∀ q ∈ b.propellants, q.handle ≠ p.handle) ∧
      (∀ g ∈ a.groups, a.thg_srb = some g.handle →
        (∀ q ∈ b.groups, q.handle ≠ g.handle) ∧
        (∀ x ∈ g.th, ∀ t ∈ b.thrusters, t.handle ≠ x))) := by
  unfold SeparateBoosters at hb
  lift_lets at hb
  extract_lets lv v1 v2 p g a1 at hb
  obtain ⟨hst, hph, hthg, _, _, hgrow⟩ := SetOrbiterTankConfiguration_facts a1 b hb
  have hp2 : a1.ph_srb = none := VESSEL.DelPropellantResource_snd v2 a.ph_srb
  have hg2 : a1.thg_srb = none := VESSEL.DelThrusterGroup_snd p.1 a.thg_srb true
  have hn1 : p.1.nextHandle = a.nextHandle := VESSEL.DelPropellantResource_nextHandle v2 a.ph_srb
  have hn2 : g.1.nextHandle = a.nextHandle :=
    (VESSEL.DelThrusterGroup_nextHandle p.1 a.thg_srb true).trans hn1
  have hgp : p.1.Grows g.1 := VESSEL.grows_DelThrusterGroup p.1 a.thg_srb true
  have ha1 : a1.toVESSEL = g.1 := rfl
  refine ⟨hst, hph.trans hp2, hthg.trans hg2, ?_⟩
  intro hwf
  obtain ⟨wfp, _, wfg⟩ := hwf
  rw [ha1] at hgrow
  constructor
  · intro q0 hq0 hsome
    have hdel : ∀ q ∈ p.1.propellants, q.handle ≠ q0.handle := by
      have := VESSEL.DelPropellantResource_ne v2 q0.handle
      simp only [p, hsome]
      exact this
    exact (hgp.trans hgrow).propellant_ne q0.handle (by rw [hn1]; exact wfp q0 hq0) hdel
  · intro g0 hg0 hsome
    have hg0p : g0 ∈ p.1.groups := by
      have : p.1.groups = a.groups := by
        simp only [p]
        cases a.ph_srb <;> rfl
      rw [this]
      exact hg0
    constructor
    · have hdel : ∀ q ∈ g.1.groups, q.handle ≠ g0.handle := by
        have := VESSEL.DelThrusterGroup_group_ne p.1 g0.handle true
        simp only [g, hsome]
        exact this
      exact hgrow.group_ne g0.handle (by rw [hn2]; exact (wfg g0 hg0).1) hdel
    · intro x hx
      have hdel : ∀ t ∈ g.1.thrusters, t.handle ≠ x := by
        have := VESSEL.DelThrusterGroup_member_ne p.1 g0.handle g0 hg0p rfl x hx
        simp only [g, hsome]
        exact this
      exact hgrow.thruster_ne x (by rw [hn2]; exact (wfg g0 hg0).2 x hx) hdel

/-- C9: in a state with `status = 1` (BoostersBurning), whatever the simulation
time and `t0`, one call of `Jettison ()` ends with `status = 2`
(BoostersSeparated) and with the handles `ph_srb` and `thg_srb` null; when the
host tables are well formed, the booster propellant resource, the booster
thruster group and the thrusters of that group are no longer in the host
tables afterwards. -/
theorem Jettison_boosters (GetSRB_State : α → α × α) (a : Atlantis α)
    (h1 : a.status = 1) :
    (a.Jettison GetSRB_State).status = 2 ∧
    (a.Jettison GetSRB_State).ph_srb = none ∧
    (a.Jettison GetSRB_State).thg_srb = none ∧
    (a.toVESSEL.wf →
      (∀ p ∈ a.propellants, a.ph_srb = some p.handle →
        ∀ q ∈ (a.Jettison GetSRB_State).propellants, q.handle ≠ p.handle) ∧
      (∀ g ∈ a.groups, a.thg_srb = some g.handle →
        (∀ q ∈ (a.Jettison GetSRB_State).groups, q.handle ≠ g.handle) ∧
        (∀ x ∈ g.th, ∀ t ∈ (a.Jettison GetSRB_State).thrusters, t.handle ≠ x))) := by
  have hJ : a.Jettison GetSRB_State =
      a.SeparateBoosters GetSRB_State (a.oapiGetSimTime - a.t0) := by
    have h03 : ¬ (a.status = 0 ∨ a.status = 3) := by rw [h1]; decide
    simp only [Jettison, if_neg h03, if_pos h1]
  rw [hJ]
  exact SeparateBoosters_facts GetSRB_State a _ _ rfl

theorem SeparateTank_facts (a b : Atlantis α) (hb : a.SeparateTank = b) :
    b.status = 3 ∧ b.ph_tank = none ∧
    (a.toVESSEL.wf →
      (∀ p ∈ a.propellants, a.ph_tank = some p.handle →
        ∀ q ∈ b.propellants, q.handle ≠ p.handle) ∧
      (∀ g ∈ a.groups, a.thg_main = some g.handle →
        ∀ q ∈ b.groups, q.handle ≠ g.handle) ∧
      (∀ g ∈ a.groups, g.thgt ∈ launchAttGroups →
        ∀ q ∈ b.groups, ¬ (q.handle = g.handle ∧ q.thgt = g.thgt))) := by
  unfold SeparateTank at hb
  lift_lets at hb
  extract_lets v0 p g v1 v2 v3 v4 v5 v6 a1 at hb
  obtain ⟨hst, _, _, _, _, hph, hgrow⟩ := SetOrbiterConfiguration_facts a1 b hb
  have hp2 : a1.ph_tank = none := VESSEL.DelPropellantResource_snd v0 a.ph_tank
  have hn1 : p.1.nextHandle = a.nextHandle := VESSEL.DelPropellantResource_nextHandle v0 a.ph_tank
  have hn2 : g.1.nextHandle = a.nextHandle :=
    (VESSEL.DelThrusterGroup_nextHandle p.1 a.thg_main true).trans hn1
  have hn6 : v6.nextHandle = a.nextHandle := by
    simp only [v6, v5, v4, v3, v2, v1, VESSEL.DelThrusterGroupType_nextHandle]
    exact hn2
  have hgp : p.1.Grows g.1 := VESSEL.grows_DelThrusterGroup p.1 a.thg_main true
  have hg6 : g.1.Grows v6 :=
    (((((VESSEL.grows_DelThrusterGroupType g.1 _ true).trans
      (VESSEL.grows_DelThrusterGroupType v1 _ true)).trans
      (VESSEL.grows_DelThrusterGroupType v2 _ true)).trans
      (VESSEL.grows_DelThrusterGroupType v3 _ true)).trans
      (VESSEL.grows_DelThrusterGroupType v4 _ true)).trans
      (VESSEL.grows_DelThrusterGroupType v5 _ true)
  have ha1 : a1.toVESSEL = v6 := rfl
  have htypes : ∀ q ∈ v6.groups, q.thgt ∉ launchAttGroups := by
    intro q hq
    obtain ⟨n6, q5, hq5, e5⟩ := VESSEL.DelThrusterGroupType_groups v5 _ true q hq
    obtain ⟨n5, q4, hq4, e4⟩ := VESSEL.DelThrusterGroupType_groups v4 _ true q5 hq5
    obtain ⟨n4, q3, hq3, e3⟩ := VESSEL.DelThrusterGroupType_groups v3 _ true q4 hq4
    obtain ⟨n3, q2, hq2, e2⟩ := VESSEL.DelThrusterGroupType_groups v2 _ true q3 hq3
    obtain ⟨n2, q1, hq1, e1⟩ := VESSEL.DelThrusterGroupType_groups v1 _ true q2 hq2
    obtain ⟨n1, _, _, _⟩ := VESSEL.DelThrusterGroupType_groups g.1 _ true q1 hq1
    rw [e5] at n5
    rw [e4, e5] at n4
    rw [e3, e4, e5] at n3
    rw [e2, e3, e4, e5] at n2
    rw [e1, e2, e3, e4, e5] at n1
    simp only [launchAttGroups, List.mem_cons, List.mem_singleton, List.not_mem_nil, or_false,
      not_or]
    exact ⟨n1, n2, n3, n4, n5, n6⟩
  clear_value v1 v2 v3 v4 v5 v6
  refine ⟨hst, hph.trans hp2, ?_⟩
  intro hwf
  obtain ⟨wfp, _, wfg⟩ := hwf
  rw [ha1] at hgrow
  refine ⟨?_, ?_, ?_⟩
  · intro q0 hq0 hsome
    have hdel : ∀ q ∈ p.1.propellants, q.handle ≠ q0.handle := by
      have := VESSEL.DelPropellantResource_ne v0 q0.handle
      simp only [p, hsome]
      exact this
    exact ((hgp.trans hg6).trans hgrow).propellant_ne q0.handle
      (by rw [hn1]; exact wfp q0 hq0) hdel
  · intro g0 hg0 hsome
    have hdel : ∀ q ∈ g.1.groups, q.handle ≠ g0.handle := by
      have := VESSEL.DelThrusterGroup_group_ne p.1 g0.handle true
      simp only [g, hsome]
      exact this
    exact (hg6.trans hgrow).group_ne g0.handle (by rw [hn2]; exact (wfg g0 hg0).1) hdel
  · intro g0 hg0 ht q hq hqe
    have hfresh := hgrow.group_type_fresh launchAttGroups htypes q hq (hqe.2 ▸ ht)
    have := (wfg g0 hg0).1
    rw [hn6, hqe.1] at hfresh
    omega

/-- C10: in a state with `status = 2` (BoostersSeparated), a per-step update
ends with `status = 3` (TankSeparated) if and only if (the main-tank propellant
mass is `< 1` and the vessel is not in playback) or a manual separation was
requested; otherwise the state is unchanged.  When it fires, `ph_tank` is null
afterwards and, the host tables being well formed, the tank propellant
resource, the main-engine thruster group and every group of the six
launch-phase attitude-control types are no longer in the host tables. -/
theorem clbkPostStep_boosters_separated (m : Libm α) (GetSRB_State : α → α × α)
    (a : Atlantis α) (simt : α) (h2 : a.status = 2) :
    ((a.clbkPostStep m GetSRB_State simt).status = 3 ↔
      ((a.toVESSEL.GetPropellantMass a.ph_tank < 1 ∧ a.Playback = false) ∨
        a.bManualSeparate = true)) ∧
    (¬ ((a.toVESSEL.GetPropellantMass a.ph_tank < 1 ∧ a.Playback = false) ∨
        a.bManualSeparate = true) → a.clbkPostStep m GetSRB_State simt = a) ∧
    (((a.toVESSEL.GetPropellantMass a.ph_tank < 1 ∧ a.Playback = false) ∨
        a.bManualSeparate = true) →
      (a.clbkPostStep m GetSRB_State simt).ph_tank = none ∧
      (a.toVESSEL.wf →
        (∀ p ∈ a.propellants, a.ph_tank = some p.handle →
          ∀ q ∈ (a.clbkPostStep m GetSRB_State simt).propellants, q.handle ≠ p.handle) ∧
        (∀ g ∈ a.groups, a.thg_main = some g.handle →
          ∀ q ∈ (a.clbkPostStep m GetSRB_State simt).groups, q.handle ≠ g.handle) ∧
        (∀ g ∈ a.groups, g.thgt ∈ launchAttGroups →
          ∀ q ∈ (a.clbkPostStep m GetSRB_State simt).groups,
            ¬ (q.handle = g.handle ∧ q.thgt = g.thgt)))) := by
  have h20 : ¬ a.status = 0 := by rw [h2]; decide
  have h21 : ¬ a.status = 1 := by rw [h2]; decide
  have hcond : ((a.toVESSEL.GetPropellantMass a.ph_tank < 1.0 ∧ ¬ a.Playback) ∨
      a.bManualSeparate) ↔
      ((a.toVESSEL.GetPropellantMass a.ph_tank < 1 ∧ a.Playback = false) ∨
        a.bManualSeparate = true) := by
    have e1 : (1.0 : α) = 1 := by norm_num
    simp only [e1, Bool.not_eq_true]
  obtain ⟨f1, f2, f3⟩ := SeparateTank_facts a _ rfl
  have hfire : ((a.toVESSEL.GetPropellantMass a.ph_tank < 1 ∧ a.Playback = false) ∨
        a.bManualSeparate = true) →
      a.clbkPostStep m GetSRB_State simt = { a.SeparateTank with bManualSeparate := false } := by
    intro hc
    simp only [clbkPostStep, if_neg h20, if_neg h21, if_pos h2, if_pos (hcond.mpr hc)]
  have hstay : ¬ ((a.toVESSEL.GetPropellantMass a.ph_tank < 1 ∧ a.Playback = false) ∨
        a.bManualSeparate = true) → a.clbkPostStep m GetSRB_State simt = a := by
    intro hc
    simp only [clbkPostStep, if_neg h20, if_neg h21, if_pos h2,
      if_neg (fun h => hc (hcond.mp h))]
  refine ⟨⟨fun h => ?_, fun hc => ?_⟩, hstay, fun hc => ?_⟩
  · by_contra hc
    rw [hstay hc, h2] at h
    exact absurd h (by decide)
  · rw [hfire hc]
    exact f1
  · rw [hfire hc]
    exact ⟨f2, f3⟩

/-- Witness of C7: the stack on the pad with the main engines at full throttle,
stepped at `simt = 10`: the step ends in BoostersBurning with `t0 = 14`. -/
theorem clbkPostStep_assembled_witness :
    (Sample.throttleUp ℝ).status = 0 ∧
    (Sample.throttleUp ℝ).GetEngineLevel_MAIN > 0.95 ∧
    ((Sample.throttleUp ℝ).clbkPostStep
      ⟨Real.sqrt, fun x y => x ^ y, fun x y => Real.sqrt (x * x + y * y)⟩
      (fun _ => (0, 0)) 10).status = 1 ∧
    ((Sample.throttleUp ℝ).clbkPostStep
      ⟨Real.sqrt, fun x y => x ^ y, fun x y => Real.sqrt (x * x + y * y)⟩
      (fun _ => (0, 0)) 10).t0 = 10 + 4 :=
  ⟨rfl, by norm_num [Sample.throttleUp],
   (clbkPostStep_assembled _ _ (Sample.throttleUp ℝ) 10 rfl).1
     (by norm_num [Sample.throttleUp])⟩

/-- Witness of C8: the stack 50 s into the burn (`t0 = -50`), no manual request,
not in playback: a step at `t0 + 51` stays in BoostersBurning and a step at
`t0 + 127` separates the boosters. -/
theorem clbkPostStep_boosters_burning_witness :
    (Sample.ascent ℝ).status = 1 ∧ (Sample.ascent ℝ).bManualSeparate = false ∧
    (Sample.ascent ℝ).Playback = false ∧
    ((Sample.ascent ℝ).clbkPostStep
      ⟨Real.sqrt, fun x y => x ^ y, fun x y => Real.sqrt (x * x + y * y)⟩
      (fun _ => (0, 0)) ((Sample.ascent ℝ).t0 + 51)).status = 1 ∧
    ((Sample.ascent ℝ).clbkPostStep
      ⟨Real.sqrt, fun x y => x ^ y, fun x y => Real.sqrt (x * x + y * y)⟩
      (fun _ => (0, 0)) ((Sample.ascent ℝ).t0 + 127)).status = 2 :=
  ⟨rfl, rfl, rfl,
   (clbkPostStep_boosters_burning _ _ (Sample.ascent ℝ) rfl rfl rfl).2.1,
   (clbkPostStep_boosters_burning _ _ (Sample.ascent ℝ) rfl rfl rfl).2.2.2⟩

/-- Witness of C9: the stack 50 s into the burn (well before the 126 s burn
duration); its booster propellant resource has handle 3 and its booster group
handle 10 with thrusters 8 and 9. -/
theorem Jettison_boosters_witness :
    (Sample.ascent ℝ).status = 1 ∧ (Sample.ascent ℝ).toVESSEL.wf ∧
    (Sample.ascent ℝ).ph_srb = some 3 ∧ (Sample.ascent ℝ).thg_srb = some 10 ∧
    (Sample.ascent ℝ).groups.map (fun g => (g.handle, g.th)) =
      [(7, [4, 5, 6]), (10, [8, 9]), (13, [11, 12]), (16, [14, 15]), (19, [17, 18]),
       (22, [20, 21]), (25, [23, 24]), (28, [26, 27])] ∧
    ((Sample.ascent ℝ).Jettison (fun _ => (0, 0))).status = 2 ∧
    ((Sample.ascent ℝ).Jettison (fun _ => (0, 0))).ph_srb = none ∧
    ((Sample.ascent ℝ).Jettison (fun _ => (0, 0))).thg_srb = none ∧
    (∀ g ∈ (Sample.ascent ℝ).groups, (Sample.ascent ℝ).thg_srb = some g.handle →
      (∀ q ∈ ((Sample.ascent ℝ).Jettison (fun _ => (0, 0))).groups, q.handle ≠ g.handle) ∧
      (∀ x ∈ g.th, ∀ t ∈ ((Sample.ascent ℝ).Jettison (fun _ => (0, 0))).thrusters,
        t.handle ≠ x)) :=
  ⟨rfl, by decide, by decide, by decide, by decide,
   (Jettison_boosters (fun _ => (0, 0)) (Sample.ascent ℝ) rfl).1,
   (Jettison_boosters (fun _ => (0, 0)) (Sample.ascent ℝ) rfl).2.1,
   (Jettison_boosters (fun _ => (0, 0)) (Sample.ascent ℝ) rfl).2.2.1,
   ((Jettison_boosters (fun _ => (0, 0)) (Sample.ascent ℝ) rfl).2.2.2 (by decide)).2⟩

/-- Witness of C10: orbiter and tank with a full tank and a manual separation
request pending: the step ends in TankSeparated with `ph_tank` null, and no
group of a launch-phase attitude type keeps its handle. -/
theorem clbkPostStep_boosters_separated_witness :
    (Sample.tankJettisonRequested ℝ).status = 2 ∧
    (Sample.tankJettisonRequested ℝ).bManualSeparate = true ∧
    (Sample.tankJettisonRequested ℝ).toVESSEL.wf ∧
    ((Sample.tankJettisonRequested ℝ).clbkPostStep
      ⟨Real.sqrt, fun x y => x ^ y, fun x y => Real.sqrt (x * x + y * y)⟩
      (fun _ => (0, 0)) 200).status = 3 ∧
    ((Sample.tankJettisonRequested ℝ).clbkPostStep
      ⟨Real.sqrt, fun x y => x ^ y, fun x y => Real.sqrt (x * x + y * y)⟩
      (fun _ => (0, 0)) 200).ph_tank = none ∧
    (∀ g ∈ (Sample.tankJettisonRequested ℝ).groups, g.thgt ∈ launchAttGroups →
      ∀ q ∈ ((Sample.tankJettisonRequested ℝ).clbkPostStep
        ⟨Real.sqrt, fun x y => x ^ y, fun x y => Real.sqrt (x * x + y * y)⟩
        (fun _ => (0, 0)) 200).groups, ¬ (q.handle = g.handle ∧ q.thgt = g.thgt)) :=
  ⟨rfl, rfl, by decide,
   (clbkPostStep_boosters_separated _ _ (Sample.tankJettisonRequested ℝ) 200 rfl).1.mpr
     (Or.inr rfl),
   ((clbkPostStep_boosters_separated _ _ (Sample.tankJettisonRequested ℝ) 200 rfl).2.2
     (Or.inr rfl)).1,
   (((clbkPostStep_boosters_separated _ _ (Sample.tankJettisonRequested ℝ) 200 rfl).2.2
     (Or.inr rfl)).2 (by decide)).2.2⟩

/-- C11: in a state with `status = 0` (Assembled) or `status = 3`
(TankSeparated), `Jettison ()` changes nothing: the state after the call is the
state before it (stage, reference time, manual-separation flag, propellant
handles, thruster groups, host tables; no vessel is created). -/
theorem Jettison_noop (GetSRB_State : α → α × α) (a : Atlantis α)
    (h : a.status = 0 ∨ a.status = 3) : a.Jettison GetSRB_State = a := by
  simp only [Jettison, if_pos h]

/-- Witness of C11: the launch stack on the pad (`status = 0`). -/
theorem Jettison_noop_witness :
    ((Sample.onPad ℝ).status = 0 ∨ (Sample.onPad ℝ).status = 3) ∧
    (Sample.onPad ℝ).Jettison (fun _ => (0, 0)) = Sample.onPad ℝ :=
  ⟨Or.inl rfl, Jettison_noop (fun _ => (0, 0)) (Sample.onPad ℝ) (Or.inl rfl)⟩

theorem SeparateTank_status (a : Atlantis α) : a.SeparateTank.status = 3 :=
  (SetOrbiterConfiguration_facts _ _ rfl).1

theorem clbkPostStep_status (m : Libm α) (GetSRB_State : α → α × α) (a : Atlantis α)
    (simt : α) :
    a.status ≤ (a.clbkPostStep m GetSRB_State simt).status ∧
    (a.clbkPostStep m GetSRB_State simt).status ≤ a.status + 1 ∧
    (a.status = 3 → (a.clbkPostStep m GetSRB_State simt).status = 3) := by
  by_cases h0 : a.status = 0
  · have key : (a.clbkPostStep m GetSRB_State simt).status = 1 ∨
        (a.clbkPostStep m GetSRB_State simt).status = 0 := by
      simp only [clbkPostStep, if_pos h0]
      split
      · exact Or.inl rfl
      · exact Or.inr ((AutoMainGimbal_facts m a).1.trans h0)
    rcases key with k | k <;> rw [k, h0] <;> decide
  by_cases h1 : a.status = 1
  · obtain ⟨hs, hn⟩ := clbkPostStep_status1 m GetSRB_State a simt h1
    by_cases hc : (simt - a.t0 > SRB_SEPARATION_TIME ∧ ¬ a.Playback) ∨ a.bManualSeparate
    · have k : (a.clbkPostStep m GetSRB_State simt).status = 2 := by
        rw [hs hc]
        exact SeparateBoosters_status GetSRB_State a (simt - a.t0)
      rw [k, h1]
      decide
    · rw [(hn hc).1, h1]
      decide
  by_cases h2 : a.status = 2
  · have key : (a.clbkPostStep m GetSRB_State simt).status = 3 ∨
        (a.clbkPostStep m GetSRB_State simt).status = 2 := by
      simp only [clbkPostStep, if_neg h0, if_neg h1, if_pos h2]
      split
      · exact Or.inl (SeparateTank_status a)
      · exact Or.inr h2
    rcases key with k | k <;> rw [k, h2] <;> decide
  have key : (a.clbkPostStep m GetSRB_State simt).status = a.status := by
    simp only [clbkPostStep, if_neg h0, if_neg h1, if_neg h2]
    split
    · split <;> rfl
    · rfl
  rw [key]
  exact ⟨le_refl _, by omega, fun h => h⟩

theorem Jettison_status (GetSRB_State : α → α × α) (a : Atlantis α) :
    a.status ≤ (a.Jettison GetSRB_State).status ∧
    (a.Jettison GetSRB_State).status ≤ a.status + 1 ∧
    (a.status = 3 → (a.Jettison GetSRB_State).status = 3) := by
  by_cases h03 : a.status = 0 ∨ a.status = 3
  · have key : a.Jettison GetSRB_State = a := by simp only [Jettison, if_pos h03]
    rw [key]
    exact ⟨le_refl _, by omega, fun h => h⟩
  by_cases h1 : a.status = 1
  · have k : (a.Jettison GetSRB_State).status = 2 := by
      simp only [Jettison, if_neg h03, if_pos h1]
      exact SeparateBoosters_status GetSRB_State a _
    rw [k, h1]
    decide
  by_cases h2 : a.status = 2
  · have k : (a.Jettison GetSRB_State).status = 3 := by
      simp only [Jettison, if_neg h03, if_neg h1, if_pos h2]
      exact SeparateTank_status a
    rw [k, h2]
    decide
  have key : a.Jettison GetSRB_State = a := by
    simp only [Jettison, if_neg h03, if_neg h1, if_neg h2]
  rw [key]
  exact ⟨le_refl _, by omega, fun h => h⟩

theorem Next_status (m : Libm α) (GetSRB_State : α → α × α) (a b : Atlantis α)
    (h : Next m GetSRB_State a b) : a.status ≤ b.status := by
  obtain ⟨v, flag, ⟨simt, hb⟩ | hb⟩ := h
  · rw [hb]
    exact (clbkPostStep_status m GetSRB_State _ simt).1
  · rw [hb]
    exact (Jettison_status GetSRB_State _).1

theorem ignitions_of_started (m : Libm α) (GetSRB_State : α → α × α) :
    ∀ (l : List (Atlantis α)) (a : Atlantis α), 1 ≤ a.status →
      List.Chain' (Next m GetSRB_State) (a :: l) → ignitions (a :: l) = 0 := by
  intro l
  induction l with
  | nil => intro a _ _; rfl
  | cons b rest ih =>
    intro a ha hc
    have hab : Next m GetSRB_State a b := (List.chain'_cons.mp hc).1
    have hb : 1 ≤ b.status := le_trans ha (Next_status m GetSRB_State a b hab)
    have h0 : ¬ (a.status = 0 ∧ b.status = 1) := by
      intro h
      omega
    simp only [ignitions, if_neg h0, zero_add]
    exact ih b hb (List.chain'_cons.mp hc).2

theorem ignitions_le_one (m : Libm α) (GetSRB_State : α → α × α) :
    ∀ (l : List (Atlantis α)), List.Chain' (Next m GetSRB_State) l → ignitions l ≤ 1 := by
  intro l
  induction l with
  | nil => intro _; exact Nat.zero_le _
  | cons a rest ih =>
    intro hc
    cases rest with
    | nil => exact Nat.zero_le _
    | cons b rest =>
      have hbc : List.Chain' (Next m GetSRB_State) (b :: rest) := (List.chain'_cons.mp hc).2
      by_cases h : a.status = 0 ∧ b.status = 1
      · have := ignitions_of_started m GetSRB_State rest b (by omega) hbc
        simp only [ignitions, if_pos h] at this ⊢
        omega
      · have := ih hbc
        simp only [ignitions, if_neg h, zero_add] at this ⊢
        exact this

/-- C12: the stage only advances.  For every state (with `status` `s`) and every
input, one per-step update and one `Jettison ()` call yield a status `s'` with
`s ≤ s' ≤ s + 1`, and `s = 3` gives `s' = 3`; hence along any run of per-step
updates and `Jettison` calls (whatever the host does to its own state and to
the manual flag in between) the transition from Assembled to BoostersBurning
happens at most once. -/
theorem status_only_advances (m : Libm α) (GetSRB_State : α → α × α) :
    (∀ (a : Atlantis α) (simt : α),
      a.status ≤ (a.clbkPostStep m GetSRB_State simt).status ∧
      (a.clbkPostStep m GetSRB_State simt).status ≤ a.status + 1 ∧
      (a.status = 3 → (a.clbkPostStep m GetSRB_State simt).status = 3)) ∧
    (∀ a : Atlantis α,
      a.status ≤ (a.Jettison GetSRB_State).status ∧
      (a.Jettison GetSRB_State).status ≤ a.status + 1 ∧
      (a.status = 3 → (a.Jettison GetSRB_State).status = 3)) ∧
    (∀ run : List (Atlantis α), List.Chain' (Next m GetSRB_State) run → ignitions run ≤ 1) :=
  ⟨clbkPostStep_status m GetSRB_State, Jettison_status GetSRB_State,
    ignitions_le_one m GetSRB_State⟩

/-- Counterexample to C19 as stated: the constructor leaves `status` at 3, not
at 0. -/
theorem new_status_not_assembled : (Atlantis.new (Sample.host ℚ 0) 0).status ≠ 0 := by
  decide

/-- Witness of C12: the run made of the stack on the pad at full throttle and
the state one per-step update later. -/
theorem status_only_advances_witness :
    List.Chain' (Next ⟨Real.sqrt, fun x y => x ^ y, fun x y => Real.sqrt (x * x + y * y)⟩
      (fun _ => (0, 0)))
      [Sample.throttleUp ℝ, (Sample.throttleUp ℝ).clbkPostStep
        ⟨Real.sqrt, fun x y => x ^ y, fun x y => Real.sqrt (x * x + y * y)⟩
        (fun _ => (0, 0)) 10] ∧
    ignitions [Sample.throttleUp ℝ, (Sample.throttleUp ℝ).clbkPostStep
        ⟨Real.sqrt, fun x y => x ^ y, fun x y => Real.sqrt (x * x + y * y)⟩
        (fun _ => (0, 0)) 10] ≤ 1 := by
  have hc : List.Chain' (Next ⟨Real.sqrt, fun x y => x ^ y, fun x y => Real.sqrt (x * x + y * y)⟩
      (fun _ => (0, 0)))
      [Sample.throttleUp ℝ, (Sample.throttleUp ℝ).clbkPostStep
        ⟨Real.sqrt, fun x y => x ^ y, fun x y => Real.sqrt (x * x + y * y)⟩
        (fun _ => (0, 0)) 10] := by
    refine List.chain'_cons.mpr ⟨?_, List.chain'_singleton _⟩
    exact ⟨(Sample.throttleUp ℝ).toVESSEL, (Sample.throttleUp ℝ).bManualSeparate,
      Or.inl ⟨10, rfl⟩⟩
  exact ⟨hc, (status_only_advances _ _).2.2 _ hc⟩

theorem clbkPostStep_status2 (m : Libm α) (GetSRB_State : α → α × α) (a : Atlantis α)
    (simt : α) (h2 : a.status = 2) :
    (((a.toVESSEL.GetPropellantMass a.ph_tank < 1.0 ∧ ¬ a.Playback) ∨ a.bManualSeparate) →
      a.clbkPostStep m GetSRB_State simt = { a.SeparateTank with bManualSeparate := false }) ∧
    (¬ ((a.toVESSEL.GetPropellantMass a.ph_tank < 1.0 ∧ ¬ a.Playback) ∨ a.bManualSeparate) →
      a.clbkPostStep m GetSRB_State simt = a) := by
  have h20 : ¬ a.status = 0 := by rw [h2]; decide
  have h21 : ¬ a.status = 1 := by rw [h2]; decide
  constructor
  · intro hc
    simp only [clbkPostStep, if_neg h20, if_neg h21, if_pos h2, if_pos hc]
  · intro hc
    simp only [clbkPostStep, if_neg h20, if_neg h21, if_pos h2, if_neg hc]

theorem clbkPostStep_status3 (m : Libm α) (GetSRB_State : α → α × α) (a : Atlantis α)
    (simt : α) (h3 : a.status = 3) :
    ((a.bManualSeparate ∧ a.satAttached) →
      a.clbkPostStep m GetSRB_State simt =
        { a with toVESSEL := a.toVESSEL.DetachChild_sat, bManualSeparate := false }) ∧
    (¬ (a.bManualSeparate ∧ a.satAttached) → a.clbkPostStep m GetSRB_State simt = a) := by
  have h30 : ¬ a.status = 0 := by rw [h3]; decide
  have h31 : ¬ a.status = 1 := by rw [h3]; decide
  have h32 : ¬ a.status = 2 := by rw [h3]; decide
  constructor
  · intro hc
    simp only [clbkPostStep, if_neg h30, if_neg h31, if_neg h32, if_pos h3, if_pos hc]
  · intro hc
    simp only [clbkPostStep, if_neg h30, if_neg h31, if_neg h32, if_pos h3, if_neg hc]

theorem AutoMainGimbal_zero (m : Libm α) (a : Atlantis α) (h : a.F_main = 0) :
    a.AutoMainGimbal m = a := by
  have h1 : ¬ (ORBITER_MAIN_THRUST * a.toVESSEL.GetThrusterLevel a.th_main0 ≠ 0) :=
    fun hne => hne h
  simp only [AutoMainGimbal, if_neg h1]

theorem AutoMainGimbal_nonzero (m : Libm α) (a : Atlantis α) (h : a.F_main ≠ 0) :
    a.AutoMainGimbal m =
      { a with
        toVESSEL :=
          a.toVESSEL.SetThrusterDir a.th_main2 (Gimbal.dir m a.F_srb a.F_main) } := by
  have h1 : ORBITER_MAIN_THRUST * a.toVESSEL.GetThrusterLevel a.th_main0 ≠ 0 := h
  have e0 : (0.0 : α) = 0 := by norm_num
  have e1 : (1.0 : α) = 1 := by norm_num
  have hM : ∀ x y : α, 2.51951112 * x + -12.02495 * y = Gimbal.M_0 x y := by
    intro x y
    unfold Gimbal.M_0
    ring
  have hT : ∀ x y : α, -(Gimbal.M_0 x y * Gimbal.M_0 x y) +
      y * y * (9.42 * 9.42 + -23.295 * -23.295) = Gimbal.term x y := by
    intro x y
    unfold Gimbal.term Gimbal.ry Gimbal.rz
    ring
  have hA1 : ∀ x y : α, Max.max 0 (-23.295 * -23.295 * Gimbal.term x y) = Gimbal.arg1 x y := by
    intro x y
    unfold Gimbal.arg1 Gimbal.rz
    ring_nf
  have hA2 : ∀ x y : α, Max.max 0 (9.42 * 9.42 * Gimbal.term x y) = Gimbal.arg2 x y := by
    intro x y
    unfold Gimbal.arg2 Gimbal.ry
    ring_nf
  have hS : ∀ y : α, 1 / (y * (9.42 * 9.42 + -23.295 * -23.295)) = Gimbal.scale y := by
    intro y
    unfold Gimbal.scale Gimbal.ry Gimbal.rz
    ring_nf
  have hZ : ∀ x y : α, (Gimbal.M_0 x y * 9.42 + m.sqrt (Gimbal.arg1 x y)) * Gimbal.scale y
      = Gimbal.dz m x y := fun _ _ => rfl
  have hY : ∀ x y : α, -(Gimbal.M_0 x y * -23.295 + m.sqrt (Gimbal.arg2 x y)) * Gimbal.scale y
      = Gimbal.dy m x y := fun _ _ => rfl
  simp only [AutoMainGimbal, if_pos h1, e0, e1, Ramjet.winMax_eq_max, hM, hT, hA1, hA2, hS,
    hZ, hY]
  unfold Gimbal.dir F_srb F_main
  split <;> rfl

theorem Lawful_sqrt_eq (m : Libm α) (hm : m.Lawful) (x y : α) (hy : 0 ≤ y)
    (hxy : y * y = x) : m.sqrt x = y := by
  have hx : 0 ≤ x := hxy ▸ mul_self_nonneg y
  have h1 := hm.sqrt_nonneg x hx
  have h2 := hm.sqrt_mul_self x hx
  exact (mul_self_inj_of_nonneg h1 hy).mp (h2.trans hxy.symm)

theorem Gimbal_r2_pos : (0 : α) < Gimbal.ry ^ 2 + Gimbal.rz ^ 2 := by
  unfold Gimbal.ry Gimbal.rz
  norm_num

theorem Gimbal_dir_x (m : Libm α) (F_srb F_main : α) :
    ∃ dy dz : α, Gimbal.dir m F_srb F_main = _V 0 dy dz := by
  unfold Gimbal.dir
  split
  · exact ⟨_, _, rfl⟩
  · exact ⟨_, _, rfl⟩

theorem Gimbal_dir_balanced (m : Libm α) (hm : m.Lawful) (F_srb F_main : α)
    (hF : 0 < F_main) (h0 : Gimbal.M_0 F_srb F_main = 0) :
    Gimbal.dir m F_srb F_main =
      _V 0 (-Gimbal.ry / m.sqrt (Gimbal.ry ^ 2 + Gimbal.rz ^ 2))
        (-Gimbal.rz / m.sqrt (Gimbal.ry ^ 2 + Gimbal.rz ^ 2)) ∧
    -Gimbal.ry / m.sqrt (Gimbal.ry ^ 2 + Gimbal.rz ^ 2) < 0 ∧
    0 < -Gimbal.rz / m.sqrt (Gimbal.ry ^ 2 + Gimbal.rz ^ 2) := by
  have hr2 : (0 : α) < Gimbal.ry ^ 2 + Gimbal.rz ^ 2 := Gimbal_r2_pos
  have hry : (0 : α) < Gimbal.ry := by unfold Gimbal.ry; norm_num
  have hrz : (Gimbal.rz : α) < 0 := by unfold Gimbal.rz; norm_num
  have hρ0 := hm.sqrt_nonneg _ (le_of_lt hr2)
  have hρ2 := hm.sqrt_mul_self _ (le_of_lt hr2)
  have hρ : 0 < m.sqrt (Gimbal.ry ^ 2 + Gimbal.rz ^ 2) := by
    rcases lt_or_eq_of_le hρ0 with h | h
    · exact h
    · rw [← h] at hρ2
      simp only [mul_zero] at hρ2
      exact absurd hρ2 (ne_of_lt hr2)
  have hterm : Gimbal.term F_srb F_main = F_main ^ 2 * (Gimbal.ry ^ 2 + Gimbal.rz ^ 2) := by
    unfold Gimbal.term
    rw [h0]
    ring
  have htpos : 0 < Gimbal.term F_srb F_main := by
    rw [hterm]
    positivity
  have hry2 : (0 : α) < Gimbal.ry ^ 2 := pow_pos hry 2
  have hrz2 : (0 : α) < Gimbal.rz ^ 2 := by nlinarith
  have ha1 : Gimbal.arg1 F_srb F_main = Gimbal.rz ^ 2 * Gimbal.term F_srb F_main := by
    unfold Gimbal.arg1
    exact max_eq_right (le_of_lt (mul_pos hrz2 htpos))
  have ha2 : Gimbal.arg2 F_srb F_main = Gimbal.ry ^ 2 * Gimbal.term F_srb F_main := by
    unfold Gimbal.arg2
    exact max_eq_right (le_of_lt (mul_pos hry2 htpos))
  have ha1pos : 0 < Gimbal.arg1 F_srb F_main := by
    rw [ha1]
    exact mul_pos hrz2 htpos
  have ha2pos : 0 < Gimbal.arg2 F_srb F_main := by
    rw [ha2]
    exact mul_pos hry2 htpos
  have hs1 : m.sqrt (Gimbal.arg1 F_srb F_main) =
      -Gimbal.rz * F_main * m.sqrt (Gimbal.ry ^ 2 + Gimbal.rz ^ 2) := by
    apply Lawful_sqrt_eq m hm
    · exact mul_nonneg (mul_nonneg (by linarith) (le_of_lt hF)) hρ0
    · rw [ha1, hterm]
      calc -Gimbal.rz * F_main * m.sqrt (Gimbal.ry ^ 2 + Gimbal.rz ^ 2) *
            (-Gimbal.rz * F_main * m.sqrt (Gimbal.ry ^ 2 + Gimbal.rz ^ 2))
          = Gimbal.rz ^ 2 * (F_main ^ 2 * (m.sqrt (Gimbal.ry ^ 2 + Gimbal.rz ^ 2) *
              m.sqrt (Gimbal.ry ^ 2 + Gimbal.rz ^ 2))) := by ring
        _ = Gimbal.rz ^ 2 * (F_main ^ 2 * (Gimbal.ry ^ 2 + Gimbal.rz ^ 2)) := by rw [hρ2]
  have hs2 : m.sqrt (Gimbal.arg2 F_srb F_main) =
      Gimbal.ry * F_main * m.sqrt (Gimbal.ry ^ 2 + Gimbal.rz ^ 2) := by
    apply Lawful_sqrt_eq m hm
    · exact mul_nonneg (mul_nonneg (le_of_lt hry) (le_of_lt hF)) hρ0
    · rw [ha2, hterm]
      calc Gimbal.ry * F_main * m.sqrt (Gimbal.ry ^ 2 + Gimbal.rz ^ 2) *
            (Gimbal.ry * F_main * m.sqrt (Gimbal.ry ^ 2 + Gimbal.rz ^ 2))
          = Gimbal.ry ^ 2 * (F_main ^ 2 * (m.sqrt (Gimbal.ry ^ 2 + Gimbal.rz ^ 2) *
              m.sqrt (Gimbal.ry ^ 2 + Gimbal.rz ^ 2))) := by ring
        _ = Gimbal.ry ^ 2 * (F_main ^ 2 * (Gimbal.ry ^ 2 + Gimbal.rz ^ 2)) := by rw [hρ2]
  have hdz : Gimbal.dz m F_srb F_main =
      -Gimbal.rz / m.sqrt (Gimbal.ry ^ 2 + Gimbal.rz ^ 2) := by
    unfold Gimbal.dz Gimbal.scale
    rw [h0, hs1]
    generalize m.sqrt (Gimbal.ry ^ 2 + Gimbal.rz ^ 2) = ρ at hρ hρ2 ⊢
    rw [← hρ2]
    field_simp
    ring
  have hdy : Gimbal.dy m F_srb F_main =
      -Gimbal.ry / m.sqrt (Gimbal.ry ^ 2 + Gimbal.rz ^ 2) := by
    unfold Gimbal.dy Gimbal.scale
    rw [h0, hs2]
    generalize m.sqrt (Gimbal.ry ^ 2 + Gimbal.rz ^ 2) = ρ at hρ hρ2 ⊢
    rw [← hρ2]
    field_simp
    ring
  refine ⟨?_, div_neg_of_neg_of_pos (by linarith) hρ, div_pos (by linarith) hρ⟩
  have hno : ¬ (Gimbal.arg1 F_srb F_main = 0 ∨ Gimbal.arg2 F_srb F_main = 0) := by
    intro h
    rcases h with h | h
    · exact absurd h (ne_of_gt ha1pos)
    · exact absurd h (ne_of_gt ha2pos)
  unfold Gimbal.dir
  rw [if_neg hno, hdy, hdz]

theorem Lawful_sqrt_zero (m : Libm α) (hm : m.Lawful) : m.sqrt 0 = 0 :=
  Lawful_sqrt_eq m hm 0 0 (le_refl 0) (mul_zero 0)

theorem Lawful_hypot_ne_zero (m : Libm α) (hm : m.Lawful) (x y : α) (h : x ≠ 0 ∨ y ≠ 0) :
    m.hypot x y ≠ 0 := by
  intro h0
  have h2 := hm.hypot_mul_self x y
  rw [h0, mul_zero] at h2
  have hx : x * x = 0 := by nlinarith [mul_self_nonneg x, mul_self_nonneg y]
  have hy : y * y = 0 := by nlinarith [mul_self_nonneg x, mul_self_nonneg y]
  rcases h with h | h
  · exact h (mul_self_eq_zero.mp hx)
  · exact h (mul_self_eq_zero.mp hy)

theorem Gimbal_dir_saturated (m : Libm α) (hm : m.Lawful) (F_srb F_main : α)
    (hF : F_main ≠ 0) (ht : Gimbal.term F_srb F_main ≤ 0) :
    Gimbal.arg1 F_srb F_main = 0 ∧ Gimbal.arg2 F_srb F_main = 0 ∧
    (Gimbal.dy m F_srb F_main ≠ 0 ∨ Gimbal.dz m F_srb F_main ≠ 0) ∧
    m.hypot (Gimbal.dy m F_srb F_main) (Gimbal.dz m F_srb F_main) ≠ 0 ∧
    Gimbal.dir m F_srb F_main =
      _V 0 (Gimbal.dy m F_srb F_main /
          m.hypot (Gimbal.dy m F_srb F_main) (Gimbal.dz m F_srb F_main))
        (Gimbal.dz m F_srb F_main /
          m.hypot (Gimbal.dy m F_srb F_main) (Gimbal.dz m F_srb F_main)) ∧
    (Gimbal.dy m F_srb F_main /
        m.hypot (Gimbal.dy m F_srb F_main) (Gimbal.dz m F_srb F_main)) ^ 2 +
      (Gimbal.dz m F_srb F_main /
        m.hypot (Gimbal.dy m F_srb F_main) (Gimbal.dz m F_srb F_main)) ^ 2 = 1 := by
  have hr2 : (0 : α) < Gimbal.ry ^ 2 + Gimbal.rz ^ 2 := Gimbal_r2_pos
  have hry : (0 : α) < Gimbal.ry := by unfold Gimbal.ry; norm_num
  have hrz : (Gimbal.rz : α) < 0 := by unfold Gimbal.rz; norm_num
  have hry2 : (0 : α) < Gimbal.ry ^ 2 := pow_pos hry 2
  have hrz2 : (0 : α) < Gimbal.rz ^ 2 := by nlinarith
  have ha1 : Gimbal.arg1 F_srb F_main = 0 := by
    unfold Gimbal.arg1
    exact max_eq_left (mul_nonpos_of_nonneg_of_nonpos (le_of_lt hrz2) ht)
  have ha2 : Gimbal.arg2 F_srb F_main = 0 := by
    unfold Gimbal.arg2
    exact max_eq_left (mul_nonpos_of_nonneg_of_nonpos (le_of_lt hry2) ht)
  have hF2 : 0 < F_main ^ 2 := by positivity
  have hM : Gimbal.M_0 F_srb F_main ≠ 0 := by
    intro h0
    unfold Gimbal.term at ht
    rw [h0] at ht
    have : 0 < F_main ^ 2 * (Gimbal.ry ^ 2 + Gimbal.rz ^ 2) := mul_pos hF2 hr2
    have h00 : -(0 : α) ^ 2 = 0 := by norm_num
    rw [h00, zero_add] at ht
    exact absurd ht (not_le.mpr this)
  have hsc : Gimbal.scale F_main ≠ 0 := by
    unfold Gimbal.scale
    exact one_div_ne_zero (mul_ne_zero hF (ne_of_gt hr2))
  have hdz : Gimbal.dz m F_srb F_main ≠ 0 := by
    unfold Gimbal.dz
    rw [ha1, Lawful_sqrt_zero m hm, add_zero]
    exact mul_ne_zero (mul_ne_zero hM (ne_of_gt hry)) hsc
  have hlen := Lawful_hypot_ne_zero m hm (Gimbal.dy m F_srb F_main)
    (Gimbal.dz m F_srb F_main) (Or.inr hdz)
  refine ⟨ha1, ha2, Or.inr hdz, hlen, ?_, ?_⟩
  · unfold Gimbal.dir
    rw [if_pos (Or.inl ha1)]
  · have h2 := hm.hypot_mul_self (Gimbal.dy m F_srb F_main) (Gimbal.dz m F_srb F_main)
    generalize m.hypot (Gimbal.dy m F_srb F_main) (Gimbal.dz m F_srb F_main) = len at hlen h2 ⊢
    field_simp
    linear_combination (-1 : α) * h2

/-- Counterexample to C14 as stated: the stack with the main engines at full
thrust and the boosters at the level where `M_0 = 0`; the direction
`AutoMainGimbal` gives to the upper main engine has a negative `y` component,
so it is not `(0, 0, 1)`. -/
theorem AutoMainGimbal_balanced_not_axial :
    0 < (Sample.burning ℝ 1 (Sample.balancedLevel ℝ)).F_main ∧
    Gimbal.M_0 (Sample.burning ℝ 1 (Sample.balancedLevel ℝ)).F_srb
      (Sample.burning ℝ 1 (Sample.balancedLevel ℝ)).F_main = 0 ∧
    ∃ dy dz : ℝ,
      ((Sample.burning ℝ 1 (Sample.balancedLevel ℝ)).AutoMainGimbal
        ⟨Real.sqrt, fun x y => x ^ y, fun x y => Real.sqrt (x * x + y * y)⟩).toVESSEL.GetThrusterDir
          (Sample.burning ℝ 1 (Sample.balancedLevel ℝ)).th_main2 = some (_V 0 dy dz) ∧
      dy < 0 ∧ _V 0 dy dz ≠ _V (0 : ℝ) 0 1 := by
  have hlaw : (⟨Real.sqrt, fun x y => x ^ y, fun x y => Real.sqrt (x * x + y * y)⟩ :
      Libm ℝ).Lawful :=
    ⟨fun x _ => Real.sqrt_nonneg x, fun x hx => Real.mul_self_sqrt hx,
      fun x y => Real.sqrt_nonneg _,
      fun x y => Real.mul_self_sqrt (add_nonneg (mul_self_nonneg x) (mul_self_nonneg y))⟩
  have hFm : (Sample.burning ℝ 1 (Sample.balancedLevel ℝ)).F_main = ORBITER_MAIN_THRUST * 1 :=
    rfl
  have hFs : (Sample.burning ℝ 1 (Sample.balancedLevel ℝ)).F_srb =
      SRB_THRUST * Sample.balancedLevel ℝ := rfl
  have hpos : 0 < (Sample.burning ℝ 1 (Sample.balancedLevel ℝ)).F_main := by
    rw [hFm]
    norm_num [ORBITER_MAIN_THRUST]
  have hM : Gimbal.M_0 (Sample.burning ℝ 1 (Sample.balancedLevel ℝ)).F_srb
      (Sample.burning ℝ 1 (Sample.balancedLevel ℝ)).F_main = 0 := by
    rw [hFm, hFs]
    norm_num [Gimbal.M_0, Sample.balancedLevel, ORBITER_MAIN_THRUST, SRB_THRUST]
  obtain ⟨hdir, hdy, _⟩ := Gimbal_dir_balanced _ hlaw _ _ hpos hM
  refine ⟨hpos, hM, -Gimbal.ry / Real.sqrt (Gimbal.ry ^ 2 + Gimbal.rz ^ 2),
    -Gimbal.rz / Real.sqrt (Gimbal.ry ^ 2 + Gimbal.rz ^ 2), ?_, hdy, ?_⟩
  · rw [AutoMainGimbal_nonzero _ _ (ne_of_gt hpos), hdir]
    rfl
  · intro h
    have := congrArg VECTOR3.y h
    simp only [_V] at this
    exact absurd this (ne_of_lt hdy)

/-- C14, amended (zero imbalance): with a lawful square root, for every state
with `F_main > 0` and `M_0 = 2.51951112·F_srb − 12.02495·F_main = 0`,
`AutoMainGimbal` sets the thrust direction of the upper main engine to
`(0, −ry/√(ry²+rz²), −rz/√(ry²+rz²))` with `ry = 9.42`, `rz = −23.295`: a unit
vector with `dy < 0 < dz` (about `(0, −0.375, 0.927)`, the thrust line through
the moment reference point), not `(0, 0, 1)`. -/
theorem AutoMainGimbal_balanced (m : Libm α) (hm : m.Lawful) (a : Atlantis α)
    (hF : 0 < a.F_main) (h0 : Gimbal.M_0 a.F_srb a.F_main = 0) :
    a.AutoMainGimbal m =
      { a with
        toVESSEL := a.toVESSEL.SetThrusterDir a.th_main2
          (_V 0 (-Gimbal.ry / m.sqrt (Gimbal.ry ^ 2 + Gimbal.rz ^ 2))
            (-Gimbal.rz / m.sqrt (Gimbal.ry ^ 2 + Gimbal.rz ^ 2))) } ∧
    -Gimbal.ry / m.sqrt (Gimbal.ry ^ 2 + Gimbal.rz ^ 2) < 0 ∧
    0 < -Gimbal.rz / m.sqrt (Gimbal.ry ^ 2 + Gimbal.rz ^ 2) ∧
    (-Gimbal.ry / m.sqrt (Gimbal.ry ^ 2 + Gimbal.rz ^ 2)) ^ 2 +
      (-Gimbal.rz / m.sqrt (Gimbal.ry ^ 2 + Gimbal.rz ^ 2)) ^ 2 = 1 := by
  obtain ⟨hdir, hdy, hdz⟩ := Gimbal_dir_balanced m hm a.F_srb a.F_main hF h0
  refine ⟨?_, hdy, hdz, ?_⟩
  · rw [AutoMainGimbal_nonzero m a (ne_of_gt hF), hdir]
  · have hr2 : (0 : α) < Gimbal.ry ^ 2 + Gimbal.rz ^ 2 := Gimbal_r2_pos
    have hρ2 := hm.sqrt_mul_self _ (le_of_lt hr2)
    have hρ : m.sqrt (Gimbal.ry ^ 2 + Gimbal.rz ^ 2) ≠ 0 := by
      intro h
      rw [h, mul_zero] at hρ2
      exact absurd hρ2 (ne_of_lt hr2)
    generalize m.sqrt (Gimbal.ry ^ 2 + Gimbal.rz ^ 2) = ρ at hρ hρ2 ⊢
    field_simp
    linear_combination (-1 : α) * hρ2

/-- Witness of the amended C14: the main engines at full thrust and the boosters
at the balancing level, over the reals. -/
theorem AutoMainGimbal_balanced_witness :
    0 < (Sample.burning ℝ 1 (Sample.balancedLevel ℝ)).F_main ∧
    Gimbal.M_0 (Sample.burning ℝ 1 (Sample.balancedLevel ℝ)).F_srb
      (Sample.burning ℝ 1 (Sample.balancedLevel ℝ)).F_main = 0 ∧
    -Gimbal.ry / Real.sqrt (Gimbal.ry ^ 2 + Gimbal.rz ^ 2) < 0 ∧
    (Sample.burning ℝ 1 (Sample.balancedLevel ℝ)).AutoMainGimbal
        ⟨Real.sqrt, fun x y => x ^ y, fun x y => Real.sqrt (x * x + y * y)⟩ =
      { Sample.burning ℝ 1 (Sample.balancedLevel ℝ) with
        toVESSEL := (Sample.burning ℝ 1 (Sample.balancedLevel ℝ)).toVESSEL.SetThrusterDir
          (Sample.burning ℝ 1 (Sample.balancedLevel ℝ)).th_main2
          (_V 0 (-Gimbal.ry / Real.sqrt (Gimbal.ry ^ 2 + Gimbal.rz ^ 2))
            (-Gimbal.rz / Real.sqrt (Gimbal.ry ^ 2 + Gimbal.rz ^ 2))) } := by
  have hlaw : (⟨Real.sqrt, fun x y => x ^ y, fun x y => Real.sqrt (x * x + y * y)⟩ :
      Libm ℝ).Lawful :=
    ⟨fun x _ => Real.sqrt_nonneg x, fun x hx => Real.mul_self_sqrt hx,
      fun x y => Real.sqrt_nonneg _,
      fun x y => Real.mul_self_sqrt (add_nonneg (mul_self_nonneg x) (mul_self_nonneg y))⟩
  have hpos : 0 < (Sample.burning ℝ 1 (Sample.balancedLevel ℝ)).F_main := by
    show (0 : ℝ) < ORBITER_MAIN_THRUST * 1
    norm_num [ORBITER_MAIN_THRUST]
  have hM : Gimbal.M_0 (Sample.burning ℝ 1 (Sample.balancedLevel ℝ)).F_srb
      (Sample.burning ℝ 1 (Sample.balancedLevel ℝ)).F_main = 0 := by
    show Gimbal.M_0 (SRB_THRUST * Sample.balancedLevel ℝ) (ORBITER_MAIN_THRUST * 1) = 0
    norm_num [Gimbal.M_0, Sample.balancedLevel, ORBITER_MAIN_THRUST, SRB_THRUST]
  have h := AutoMainGimbal_balanced _ hlaw (Sample.burning ℝ 1 (Sample.balancedLevel ℝ)) hpos hM
  exact ⟨hpos, hM, h.2.1, h.1⟩

/-- C15 (saturated branch): with lawful `sqrt` and `_hypot`, for every state with
`F_main ≠ 0` and `term = -M_0² + F_main²·(ry²+rz²) ≤ 0`, both radicands are
clamped to 0, the vector `(dy, dz)` before renormalisation is non-zero and so
is its length (no division by zero), and the direction
`(0, dy/len, dz/len)` that `AutoMainGimbal` gives to the upper main engine has
`(dy/len)² + (dz/len)² = 1`. -/
theorem AutoMainGimbal_saturated (m : Libm α) (hm : m.Lawful) (a : Atlantis α)
    (hF : a.F_main ≠ 0) (ht : Gimbal.term a.F_srb a.F_main ≤ 0) :
    Gimbal.arg1 a.F_srb a.F_main = 0 ∧ Gimbal.arg2 a.F_srb a.F_main = 0 ∧
    (Gimbal.dy m a.F_srb a.F_main ≠ 0 ∨ Gimbal.dz m a.F_srb a.F_main ≠ 0) ∧
    m.hypot (Gimbal.dy m a.F_srb a.F_main) (Gimbal.dz m a.F_srb a.F_main) ≠ 0 ∧
    a.AutoMainGimbal m =
      { a with
        toVESSEL := a.toVESSEL.SetThrusterDir a.th_main2
          (_V 0
            (Gimbal.dy m a.F_srb a.F_main /
              m.hypot (Gimbal.dy m a.F_srb a.F_main) (Gimbal.dz m a.F_srb a.F_main))
            (Gimbal.dz m a.F_srb a.F_main /
              m.hypot (Gimbal.dy m a.F_srb a.F_main) (Gimbal.dz m a.F_srb a.F_main))) } ∧
    (Gimbal.dy m a.F_srb a.F_main /
        m.hypot (Gimbal.dy m a.F_srb a.F_main) (Gimbal.dz m a.F_srb a.F_main)) ^ 2 +
      (Gimbal.dz m a.F_srb a.F_main /
        m.hypot (Gimbal.dy m a.F_srb a.F_main) (Gimbal.dz m a.F_srb a.F_main)) ^ 2 = 1 := by
  obtain ⟨h1, h2, h3, h4, h5, h6⟩ := Gimbal_dir_saturated m hm a.F_srb a.F_main hF ht
  refine ⟨h1, h2, h3, h4, ?_, h6⟩
  rw [AutoMainGimbal_nonzero m a hF, h5]

/-- Witness of C15: the main engines at a tenth of full thrust and the boosters
at full thrust (`term < 0`), over the reals. -/
theorem AutoMainGimbal_saturated_witness :
    (Sample.burning ℝ (1 / 10) 1).F_main ≠ 0 ∧
    Gimbal.term (Sample.burning ℝ (1 / 10) 1).F_srb (Sample.burning ℝ (1 / 10) 1).F_main ≤ 0 ∧
    (Gimbal.dy ⟨Real.sqrt, fun x y => x ^ y, fun x y => Real.sqrt (x * x + y * y)⟩
        (Sample.burning ℝ (1 / 10) 1).F_srb (Sample.burning ℝ (1 / 10) 1).F_main /
      Real.sqrt
        (Gimbal.dy ⟨Real.sqrt, fun x y => x ^ y, fun x y => Real.sqrt (x * x + y * y)⟩
          (Sample.burning ℝ (1 / 10) 1).F_srb (Sample.burning ℝ (1 / 10) 1).F_main *
         Gimbal.dy ⟨Real.sqrt, fun x y => x ^ y, fun x y => Real.sqrt (x * x + y * y)⟩
          (Sample.burning ℝ (1 / 10) 1).F_srb (Sample.burning ℝ (1 / 10) 1).F_main +
         Gimbal.dz ⟨Real.sqrt, fun x y => x ^ y, fun x y => Real.sqrt (x * x + y * y)⟩
          (Sample.burning ℝ (1 / 10) 1).F_srb (Sample.burning ℝ (1 / 10) 1).F_main *
         Gimbal.dz ⟨Real.sqrt, fun x y => x ^ y, fun x y => Real.sqrt (x * x + y * y)⟩
          (Sample.burning ℝ (1 / 10) 1).F_srb (Sample.burning ℝ (1 / 10) 1).F_main)) ^ 2 +
    (Gimbal.dz ⟨Real.sqrt, fun x y => x ^ y, fun x y => Real.sqrt (x * x + y * y)⟩
        (Sample.burning ℝ (1 / 10) 1).F_srb (Sample.burning ℝ (1 / 10) 1).F_main /
      Real.sqrt
        (Gimbal.dy ⟨Real.sqrt, fun x y => x ^ y, fun x y => Real.sqrt (x * x + y * y)⟩
          (Sample.burning ℝ (1 / 10) 1).F_srb (Sample.burning ℝ (1 / 10) 1).F_main *
         Gimbal.dy ⟨Real.sqrt, fun x y => x ^ y, fun x y => Real.sqrt (x * x + y * y)⟩
          (Sample.burning ℝ (1 / 10) 1).F_srb (Sample.burning ℝ (1 / 10) 1).F_main +
         Gimbal.dz ⟨Real.sqrt, fun x y => x ^ y, fun x y => Real.sqrt (x * x + y * y)⟩
          (Sample.burning ℝ (1 / 10) 1).F_srb (Sample.burning ℝ (1 / 10) 1).F_main *
         Gimbal.dz ⟨Real.sqrt, fun x y => x ^ y, fun x y => Real.sqrt (x * x + y * y)⟩
          (Sample.burning ℝ (1 / 10) 1).F_srb (Sample.burning ℝ (1 / 10) 1).F_main)) ^ 2 = 1 := by
  have hlaw : (⟨Real.sqrt, fun x y => x ^ y, fun x y => Real.sqrt (x * x + y * y)⟩ :
      Libm ℝ).Lawful :=
    ⟨fun x _ => Real.sqrt_nonneg x, fun x hx => Real.mul_self_sqrt hx,
      fun x y => Real.sqrt_nonneg _,
      fun x y => Real.mul_self_sqrt (add_nonneg (mul_self_nonneg x) (mul_self_nonneg y))⟩
  have hne : (Sample.burning ℝ (1 / 10) 1).F_main ≠ 0 := by
    show (ORBITER_MAIN_THRUST * (1 / 10) : ℝ) ≠ 0
    norm_num [ORBITER_MAIN_THRUST]
  have ht : Gimbal.term (Sample.burning ℝ (1 / 10) 1).F_srb
      (Sample.burning ℝ (1 / 10) 1).F_main ≤ 0 := by
    show Gimbal.term (SRB_THRUST * 1) (ORBITER_MAIN_THRUST * (1 / 10) : ℝ) ≤ 0
    norm_num [Gimbal.term, Gimbal.M_0, Gimbal.ry, Gimbal.rz, ORBITER_MAIN_THRUST, SRB_THRUST]
  exact ⟨hne, ht, (AutoMainGimbal_saturated _ hlaw (Sample.burning ℝ (1 / 10) 1) hne ht).2.2.2.2.2⟩

/-- C17: if the main-engine thrust
`F_main = ORBITER_MAIN_THRUST * level (th_main[0])` is zero, `AutoMainGimbal`
returns the state unchanged (the direction of the upper main engine and
everything else), whatever the booster thrust; if `F_main` is non-zero, its only
effect is the host call setting the direction of `th_main[2]` to `(0, dy, dz)`,
with `x` component exactly 0. -/
theorem AutoMainGimbal_frame (m : Libm α) (a : Atlantis α) :
    (a.F_main = 0 → a.AutoMainGimbal m = a) ∧
    (a.F_main ≠ 0 → ∃ dy dz : α,
      a.AutoMainGimbal m =
        { a with toVESSEL := a.toVESSEL.SetThrusterDir a.th_main2 (_V 0 dy dz) }) := by
  refine ⟨AutoMainGimbal_zero m a, fun h => ?_⟩
  obtain ⟨dy, dz, hd⟩ := Gimbal_dir_x m a.F_srb a.F_main
  exact ⟨dy, dz, by rw [AutoMainGimbal_nonzero m a h, hd]⟩

/-- Witness of C17: the stack with the main engines off and the boosters at full
thrust is left unchanged; with the main engines at full thrust the upper main
engine gets a direction with zero `x` component. -/
theorem AutoMainGimbal_frame_witness :
    (Sample.burning ℝ 0 1).F_main = 0 ∧
    (Sample.burning ℝ 0 1).AutoMainGimbal
      ⟨Real.sqrt, fun x y => x ^ y, fun x y => Real.sqrt (x * x + y * y)⟩ =
        Sample.burning ℝ 0 1 ∧
    (Sample.burning ℝ 1 1).F_main ≠ 0 ∧
    ∃ dy dz : ℝ, (Sample.burning ℝ 1 1).AutoMainGimbal
      ⟨Real.sqrt, fun x y => x ^ y, fun x y => Real.sqrt (x * x + y * y)⟩ =
        { Sample.burning ℝ 1 1 with
          toVESSEL := (Sample.burning ℝ 1 1).toVESSEL.SetThrusterDir
            (Sample.burning ℝ 1 1).th_main2 (_V 0 dy dz) } := by
  have h0 : (Sample.burning ℝ 0 1).F_main = 0 := by
    show (ORBITER_MAIN_THRUST * 0 : ℝ) = 0
    norm_num
  have h1 : (Sample.burning ℝ 1 1).F_main ≠ 0 := by
    show (ORBITER_MAIN_THRUST * 1 : ℝ) ≠ 0
    norm_num [ORBITER_MAIN_THRUST]
  exact ⟨h0, (AutoMainGimbal_frame _ (Sample.burning ℝ 0 1)).1 h0, h1,
    (AutoMainGimbal_frame _ (Sample.burning ℝ 1 1)).2 h1⟩

/-- The traced per-step update computes the same state as `clbkPostStep`. -/
theorem clbkPostStepTraced_state (m : Libm α) (GetSRB_State : α → α × α) (a : Atlantis α)
    (simt : α) :
    (clbkPostStepTraced m GetSRB_State a simt).1 = clbkPostStep m GetSRB_State a simt := by
  unfold clbkPostStepTraced clbkPostStep
  split
  · split <;> rfl
  · split
    · lift_lets
      intros
      split <;> rfl
    · split
      · split <;> rfl
      · split
        · split <;> rfl
        · rfl

/-- The trace of a per-step update taken while the boosters burn, in either
outcome of the separation condition. -/
theorem clbkPostStepTraced_calls1 (m : Libm α) (GetSRB_State : α → α × α) (a : Atlantis α)
    (simt : α) (h1 : a.status = 1) :
    (((simt - a.t0 > SRB_SEPARATION_TIME ∧ ¬ a.Playback) ∨ a.bManualSeparate) →
      (clbkPostStepTraced m GetSRB_State a simt).2 =
        [StepCall.evalBoosterSeparation, StepCall.SeparateBoosters]) ∧
    (¬ ((simt - a.t0 > SRB_SEPARATION_TIME ∧ ¬ a.Playback) ∨ a.bManualSeparate) →
      (clbkPostStepTraced m GetSRB_State a simt).2 =
        [StepCall.evalBoosterSeparation, StepCall.GetSRB_State, StepCall.SetThrusterLevel,
          StepCall.SetThrusterLevel] ++
        (if simt - a.t0 < 0.0 then [StepCall.LaunchClamps] else []) ++
        [StepCall.AutoMainGimbal]) := by
  have h10 : ¬ a.status = 0 := by rw [h1]; decide
  constructor
  · intro hc
    unfold clbkPostStepTraced
    simp only [if_neg h10, if_pos h1, if_pos hc]
  · intro hc
    unfold clbkPostStepTraced
    simp only [if_neg h10, if_pos h1, if_neg hc]

/-- A per-step update taken while the boosters burn and in which the
separation condition holds ends in stage 2 without a call of `AutoMainGimbal`. -/
theorem clbkPostStepTraced_separates (m : Libm α) (GetSRB_State : α → α × α) (a : Atlantis α)
    (simt : α) (h1 : a.status = 1)
    (hc : (simt - a.t0 > SRB_SEPARATION_TIME ∧ ¬ a.Playback) ∨ a.bManualSeparate) :
    (clbkPostStepTraced m GetSRB_State a simt).1.status = 2 ∧
    StepCall.AutoMainGimbal ∉ (clbkPostStepTraced m GetSRB_State a simt).2 := by
  constructor
  · rw [clbkPostStepTraced_state, (clbkPostStep_status1 m GetSRB_State a simt h1).1 hc]
    exact SeparateBoosters_status GetSRB_State a (simt - a.t0)
  · rw [(clbkPostStepTraced_calls1 m GetSRB_State a simt h1).1 hc]
    decide

/-- Counterexample to C16 as stated: in the step of the sample ascent (boosters
burning, ignition at -50 s) taken at 100 s the separation condition holds,
boosters are separated, and `AutoMainGimbal` is not executed at all. -/
theorem separation_step_skips_gimbal :
    (Sample.ascent ℝ).status = 1 ∧
    (clbkPostStepTraced ⟨Real.sqrt, fun x y => x ^ y, fun x y => Real.sqrt (x * x + y * y)⟩
        (fun _ => (0, 0)) (Sample.ascent ℝ) 100).1.status = 2 ∧
    StepCall.AutoMainGimbal ∉
      (clbkPostStepTraced ⟨Real.sqrt, fun x y => x ^ y, fun x y => Real.sqrt (x * x + y * y)⟩
        (fun _ => (0, 0)) (Sample.ascent ℝ) 100).2 := by
  have hc : ((100 : ℝ) - (Sample.ascent ℝ).t0 > SRB_SEPARATION_TIME ∧
      ¬ (Sample.ascent ℝ).Playback) ∨ (Sample.ascent ℝ).bManualSeparate := by
    left
    refine ⟨?_, by decide⟩
    show (100 : ℝ) - (-50) > SRB_SEPARATION_TIME
    unfold SRB_SEPARATION_TIME
    norm_num
  have h :=
    clbkPostStepTraced_separates
      ⟨Real.sqrt, fun x y => x ^ y, fun x y => Real.sqrt (x * x + y * y)⟩
      (fun _ => (0, 0)) (Sample.ascent ℝ) 100 rfl hc
  exact ⟨rfl, h.1, h.2⟩

/-- Claim C16, amended: in a per-step update taken while the boosters burn the
separation condition is evaluated first. When it holds, `SeparateBoosters` is
the only call made and `AutoMainGimbal` is not executed in that step; when it
does not hold, the booster levels are set and `AutoMainGimbal` is executed
last, after the condition was evaluated. -/
theorem gimbal_after_separation_test (m : Libm α) (GetSRB_State : α → α × α) (a : Atlantis α)
    (simt : α) (h1 : a.status = 1) :
    (clbkPostStepTraced m GetSRB_State a simt).1 = clbkPostStep m GetSRB_State a simt ∧
    (clbkPostStepTraced m GetSRB_State a simt).2.head? = some StepCall.evalBoosterSeparation ∧
    (((simt - a.t0 > SRB_SEPARATION_TIME ∧ ¬ a.Playback) ∨ a.bManualSeparate) →
      (clbkPostStepTraced m GetSRB_State a simt).2 =
        [StepCall.evalBoosterSeparation, StepCall.SeparateBoosters] ∧
      StepCall.AutoMainGimbal ∉ (clbkPostStepTraced m GetSRB_State a simt).2) ∧
    (¬ ((simt - a.t0 > SRB_SEPARATION_TIME ∧ ¬ a.Playback) ∨ a.bManualSeparate) →
      (clbkPostStepTraced m GetSRB_State a simt).2 =
        [StepCall.evalBoosterSeparation, StepCall.GetSRB_State, StepCall.SetThrusterLevel,
          StepCall.SetThrusterLevel] ++
        (if simt - a.t0 < 0.0 then [StepCall.LaunchClamps] else []) ++
        [StepCall.AutoMainGimbal] ∧
      (clbkPostStepTraced m GetSRB_State a simt).2.getLast? = some StepCall.AutoMainGimbal ∧
      StepCall.SeparateBoosters ∉ (clbkPostStepTraced m GetSRB_State a simt).2) := by
  have h10 : ¬ a.status = 0 := by rw [h1]; decide
  have hT := clbkPostStepTraced_calls1 m GetSRB_State a simt h1
  refine ⟨clbkPostStepTraced_state m GetSRB_State a simt, ?_, ?_, ?_⟩
  · by_cases hc : (simt - a.t0 > SRB_SEPARATION_TIME ∧ ¬ a.Playback) ∨ a.bManualSeparate
    · rw [hT.1 hc]
      rfl
    · rw [hT.2 hc]
      rfl
  · intro hc
    rw [hT.1 hc]
    exact ⟨rfl, by decide⟩
  · intro hc
    rw [hT.2 hc]
    refine ⟨rfl, ?_, ?_⟩
    · split <;> rfl
    · split <;> decide

/-- Witness for `gimbal_after_separation_test`: the sample ascent stepped at 100 s. -/
theorem gimbal_after_separation_test_witness :
    (Sample.ascent ℝ).status = 1 ∧
    (clbkPostStepTraced ⟨Real.sqrt, fun x y => x ^ y, fun x y => Real.sqrt (x * x + y * y)⟩
        (fun _ => (0, 0)) (Sample.ascent ℝ) 100).2.head? =
      some StepCall.evalBoosterSeparation :=
  ⟨rfl, (gimbal_after_separation_test
    ⟨Real.sqrt, fun x y => x ^ y, fun x y => Real.sqrt (x * x + y * y)⟩
    (fun _ => (0, 0)) (Sample.ascent ℝ) 100 rfl).2.1⟩

/-- Loading a scenario whose lines leave `status = 1` and the local `met = x`
sets up the launch stack with `status = 1` and `t0 = -x`. -/
theorem clbkLoadStateEx_status1 (a : Atlantis α) (scn : List (ScenarioLine α)) (x : α)
    (h : readScenario scn (a.status, 0.0) = (1, x)) :
    (a.clbkLoadStateEx scn).status = 1 ∧ (a.clbkLoadStateEx scn).t0 = -x := by
  unfold clbkLoadStateEx
  rw [h]
  simp only [SetPostLaunchConfiguration]
  have h10 : ¬ ((1 : Int) = 0) := by decide
  simp only [if_neg h10, if_true]
  exact ⟨trivial, trivial⟩

/-- What `clbkLoadStateEx` does with a scenario whose lines record
`CONFIGURATION 1` and `MET x`: it leaves `status = 1` and `t0 = -x` without
reading the simulation time, so `t0` is the load time minus `x` exactly when
the scenario is loaded at simulation time 0. -/
theorem clbkLoadStateEx_post_launch (a : Atlantis α) (scn : List (ScenarioLine α)) (x : α)
    (h : readScenario scn (a.status, 0.0) = (1, x)) :
    (a.clbkLoadStateEx scn).status = 1 ∧ (a.clbkLoadStateEx scn).t0 = -x ∧
    ((a.clbkLoadStateEx scn).t0 = a.oapiGetSimTime - x ↔ a.oapiGetSimTime = 0) := by
  have h2 := clbkLoadStateEx_status1 a scn x h
  refine ⟨h2.1, h2.2, ?_⟩
  rw [h2.2]
  constructor
  · intro e
    linarith
  · intro e
    rw [e]
    ring

/-- Witness for `clbkLoadStateEx_post_launch`: a newly constructed vehicle loads
a scenario recording `CONFIGURATION 1` and `MET 50`. -/
theorem clbkLoadStateEx_post_launch_witness :
    readScenario [ScenarioLine.CONFIGURATION 1, ScenarioLine.other, ScenarioLine.MET 50]
      ((Atlantis.new (Sample.host ℝ 100) 0).status, (0.0 : ℝ)) = (1, 50) ∧
    ((Atlantis.new (Sample.host ℝ 100) 0).clbkLoadStateEx
      [ScenarioLine.CONFIGURATION 1, ScenarioLine.other, ScenarioLine.MET 50]).t0 = -50 :=
  ⟨rfl, (clbkLoadStateEx_post_launch (Atlantis.new (Sample.host ℝ 100) 0)
    [ScenarioLine.CONFIGURATION 1, ScenarioLine.other, ScenarioLine.MET 50] 50 rfl).2.1⟩

theorem ne_none_of_not_isNone {β : Type} (o : Option β) (h : ¬ o.isNone = true) : o ≠ none := by
  intro e
  apply h
  rw [e]
  rfl

theorem CreateAttControls_handles (a : Atlantis α) (p r y : α) :
    (a.CreateAttControls p r y).ph_oms = a.ph_oms ∧
    (a.CreateAttControls p r y).ph_tank = a.ph_tank ∧
    (a.CreateAttControls p r y).ph_srb = a.ph_srb := by
  refine ⟨?_, ?_, ?_⟩ <;> simp only [CreateAttControls]

theorem CreateAttControls_RCS_ph_oms (a : Atlantis α) :
    a.CreateAttControls_RCS.ph_oms = a.ph_oms := by
  simp only [CreateAttControls_RCS]

theorem AutoMainGimbal_handles (m : Libm α) (a : Atlantis α) :
    (a.AutoMainGimbal m).ph_oms = a.ph_oms ∧ (a.AutoMainGimbal m).ph_tank = a.ph_tank ∧
    (a.AutoMainGimbal m).ph_srb = a.ph_srb := by
  unfold AutoMainGimbal
  lift_lets
  intros
  split <;> exact ⟨rfl, rfl, rfl⟩

/-- After `SetLaunchConfiguration` the vehicle is in stage 0 and holds all
three propellant handles. -/
theorem SetLaunchConfiguration_handles (a b : Atlantis α) (hb : a.SetLaunchConfiguration = b) :
    b.status = 0 ∧ b.ph_oms ≠ none ∧ b.ph_tank ≠ none ∧ b.ph_srb ≠ none := by
  unfold SetLaunchConfiguration at hb
  lift_lets at hb
  extract_lets r1 a1 r2 a2 r3 a3 v m0 m1 m2 g s0 s1 gs a4 a5 at hb
  have h1 : a1.ph_oms ≠ none := by
    simp only [a1]
    split
    · exact Option.some_ne_none _
    · rename_i h
      exact ne_none_of_not_isNone _ h
  clear_value a1
  have h2 : a2.ph_oms = a1.ph_oms ∧ a2.ph_tank ≠ none := by
    simp only [a2]
    split
    · exact ⟨rfl, Option.some_ne_none _⟩
    · rename_i h
      exact ⟨rfl, ne_none_of_not_isNone _ h⟩
  clear_value a2
  have h3 : a3.ph_oms = a2.ph_oms ∧ a3.ph_tank = a2.ph_tank ∧ a3.ph_srb ≠ none := by
    simp only [a3]
    split
    · exact ⟨rfl, rfl, Option.some_ne_none _⟩
    · rename_i h
      exact ⟨rfl, rfl, ne_none_of_not_isNone _ h⟩
  clear_value a3
  have h4 : a4.ph_oms = a3.ph_oms ∧ a4.ph_tank = a3.ph_tank ∧ a4.ph_srb = a3.ph_srb :=
    ⟨rfl, rfl, rfl⟩
  clear_value a4
  have h5 : a5.ph_oms = a4.ph_oms ∧ a5.ph_tank = a4.ph_tank ∧ a5.ph_srb = a4.ph_srb :=
    CreateAttControls_handles a4 MAX_ATT_LAUNCH MAX_ROLL_SRB MAX_ATT_LAUNCH
  clear_value a5
  subst hb
  refine ⟨rfl, ?_, ?_, ?_⟩
  · show a5.ph_oms ≠ none
    rw [h5.1, h4.1, h3.1, h2.1]
    exact h1
  · show a5.ph_tank ≠ none
    rw [h5.2.1, h4.2.1, h3.2.1]
    exact h2.2
  · show a5.ph_srb ≠ none
    rw [h5.2.2, h4.2.2]
    exact h3.2.2

/-- After `SetOrbiterTankConfiguration` the vehicle holds the OMS and the tank
handle. -/
theorem SetOrbiterTankConfiguration_handles (a b : Atlantis α)
    (hb : a.SetOrbiterTankConfiguration = b) :
    b.ph_oms ≠ none ∧ b.ph_tank ≠ none := by
  unfold SetOrbiterTankConfiguration at hb
  lift_lets at hb
  extract_lets r1 a1 r2 a2 v1 v2 v3 m0 m1 m2 g a3 a4 at hb
  have h1 : a1.ph_oms ≠ none := by
    simp only [a1]
    split
    · exact Option.some_ne_none _
    · rename_i h
      exact ne_none_of_not_isNone _ h
  clear_value a1
  have h2 : a2.ph_oms = a1.ph_oms ∧ a2.ph_tank ≠ none := by
    simp only [a2]
    split
    · exact ⟨rfl, Option.some_ne_none _⟩
    · rename_i h
      exact ⟨rfl, ne_none_of_not_isNone _ h⟩
  clear_value a2
  have h3 : a3.ph_oms = a2.ph_oms ∧ a3.ph_tank = a2.ph_tank := by
    simp only [a3]
    split <;> exact ⟨rfl, rfl⟩
  clear_value a3
  have h4 : a4.ph_oms = a3.ph_oms ∧ a4.ph_tank = a3.ph_tank := by
    simp only [a4]
    split
    · have hf := CreateAttControls_handles a3 MAX_ATT_LAUNCH MAX_ROLL_SRB MAX_ATT_LAUNCH
      exact ⟨hf.1, hf.2.1⟩
    · exact ⟨rfl, rfl⟩
  clear_value a4
  subst hb
  constructor
  · show a4.ph_oms ≠ none
    rw [h4.1, h3.1, h2.1]
    exact h1
  · show a4.ph_tank ≠ none
    rw [h4.2, h3.2]
    exact h2.2

/-- After `SetOrbiterConfiguration` the vehicle holds the OMS handle. -/
theorem SetOrbiterConfiguration_ph_oms (a b : Atlantis α)
    (hb : a.SetOrbiterConfiguration = b) : b.ph_oms ≠ none := by
  unfold SetOrbiterConfiguration at hb
  lift_lets at hb
  extract_lets r1 a1 m0 m1 g a2 a3 at hb
  have h1 : a1.ph_oms ≠ none := by
    simp only [a1]
    split
    · exact Option.some_ne_none _
    · rename_i h
      exact ne_none_of_not_isNone _ h
  clear_value a1
  have h2 : a2.ph_oms = a1.ph_oms := rfl
  clear_value a2
  have h3 : a3.ph_oms = a2.ph_oms := CreateAttControls_RCS_ph_oms a2
  clear_value a3
  subst hb
  show a3.ph_oms ≠ none
  rw [h3, h2]
  exact h1

theorem SeparateBoosters_handles (GetSRB_State : α → α × α) (a b : Atlantis α) (met : α)
    (hb : a.SeparateBoosters GetSRB_State met = b) :
    b.ph_oms ≠ none ∧ b.ph_tank ≠ none := by
  unfold SeparateBoosters at hb
  lift_lets at hb
  extract_lets lv v1 v2 p g a1 at hb
  exact SetOrbiterTankConfiguration_handles a1 b hb

theorem SeparateTank_handles (a b : Atlantis α) (hb : a.SeparateTank = b) :
    b.ph_oms ≠ none ∧ b.ph_srb = a.ph_srb := by
  unfold SeparateTank at hb
  lift_lets at hb
  extract_lets v0 p g v1 v2 v3 v4 v5 v6 a1 at hb
  have e : a1.ph_srb = a.ph_srb := rfl
  exact ⟨SetOrbiterConfiguration_ph_oms a1 b hb,
    (SetOrbiterConfiguration_facts a1 b hb).2.1.trans e⟩

theorem StageHandles_of_status01 {β : Type} (a : Atlantis β) (h : a.StageHandles)
    (hs : a.status = 0 ∨ a.status = 1) : a.ph_tank ≠ none ∧ a.ph_srb ≠ none := by
  rcases h.2 with ⟨_, ht, hr⟩ | ⟨h2, _, _⟩ | ⟨h3, _, _⟩
  · exact ⟨ht, hr⟩
  · omega
  · omega

theorem StageHandles_of_status2 {β : Type} (a : Atlantis β) (h : a.StageHandles)
    (hs : a.status = 2) : a.ph_tank ≠ none ∧ a.ph_srb = none := by
  rcases h.2 with ⟨h01, _, _⟩ | ⟨_, ht, hr⟩ | ⟨h3, _, _⟩
  · omega
  · exact ⟨ht, hr⟩
  · omega

theorem StageHandles_of_status3 {β : Type} (a : Atlantis β) (h : a.StageHandles)
    (hs : a.status = 3) : a.ph_tank = none ∧ a.ph_srb = none := by
  rcases h.2 with ⟨h01, _, _⟩ | ⟨h2, _, _⟩ | ⟨_, ht, hr⟩
  · omega
  · omega
  · exact ⟨ht, hr⟩

theorem StageHandles_status {β : Type} (a : Atlantis β) (h : a.StageHandles) :
    a.status = 0 ∨ a.status = 1 ∨ a.status = 2 ∨ a.status = 3 := by
  rcases h.2 with ⟨h01, _, _⟩ | ⟨h2, _, _⟩ | ⟨h3, _, _⟩
  · rcases h01 with h0 | h1
    · exact Or.inl h0
    · exact Or.inr (Or.inl h1)
  · exact Or.inr (Or.inr (Or.inl h2))
  · exact Or.inr (Or.inr (Or.inr h3))

/-- A state with the same stage and the same propellant handles holds the
handles of its stage as well. -/
theorem StageHandles_congr {β : Type} (a b : Atlantis β) (hs : b.status = a.status)
    (ho : b.ph_oms = a.ph_oms) (ht : b.ph_tank = a.ph_tank) (hr : b.ph_srb = a.ph_srb)
    (h : a.StageHandles) : b.StageHandles := by
  unfold StageHandles at h ⊢
  rw [hs, ho, ht, hr]
  exact h

theorem clbkPostStep_idle1_handles (m : Libm α) (GetSRB_State : α → α × α) (a : Atlantis α)
    (simt : α) (h1 : a.status = 1)
    (hc : ¬ ((simt - a.t0 > SRB_SEPARATION_TIME ∧ ¬ a.Playback) ∨ a.bManualSeparate)) :
    (a.clbkPostStep m GetSRB_State simt).ph_oms = a.ph_oms ∧
    (a.clbkPostStep m GetSRB_State simt).ph_tank = a.ph_tank ∧
    (a.clbkPostStep m GetSRB_State simt).ph_srb = a.ph_srb := by
  have h10 : ¬ a.status = 0 := by rw [h1]; decide
  simp only [clbkPostStep, if_neg h10, if_pos h1, if_neg hc]
  exact ⟨(AutoMainGimbal_handles m _).1, (AutoMainGimbal_handles m _).2.1,
    (AutoMainGimbal_handles m _).2.2⟩

theorem StageHandles_clbkPostStep (m : Libm α) (GetSRB_State : α → α × α) (a : Atlantis α)
    (simt : α) (h : a.StageHandles) : (a.clbkPostStep m GetSRB_State simt).StageHandles := by
  rcases StageHandles_status a h with h0 | h1 | h2 | h3
  · obtain ⟨ht, hr⟩ := StageHandles_of_status01 a h (Or.inl h0)
    unfold StageHandles
    simp only [clbkPostStep, if_pos h0]
    split
    · exact ⟨h.1, Or.inl ⟨Or.inr rfl, ht, hr⟩⟩
    · obtain ⟨e1, e2, e3⟩ := AutoMainGimbal_handles m a
      rw [e1, e2, e3, (AutoMainGimbal_facts m a).1]
      exact ⟨h.1, Or.inl ⟨Or.inl h0, ht, hr⟩⟩
  · by_cases hc : (simt - a.t0 > SRB_SEPARATION_TIME ∧ ¬ a.Playback) ∨ a.bManualSeparate
    · rw [(clbkPostStep_status1 m GetSRB_State a simt h1).1 hc]
      have hf := SeparateBoosters_facts GetSRB_State a _ (simt - a.t0) rfl
      have hh := SeparateBoosters_handles GetSRB_State a _ (simt - a.t0) rfl
      unfold StageHandles
      exact ⟨hh.1, Or.inr (Or.inl ⟨hf.1, hh.2, hf.2.1⟩)⟩
    · obtain ⟨e1, e2, e3⟩ := clbkPostStep_idle1_handles m GetSRB_State a simt h1 hc
      exact StageHandles_congr a _
        (((clbkPostStep_status1 m GetSRB_State a simt h1).2 hc).1.trans h1.symm) e1 e2 e3 h
  · obtain ⟨ht, hr⟩ := StageHandles_of_status2 a h h2
    by_cases hc : (a.toVESSEL.GetPropellantMass a.ph_tank < 1.0 ∧ ¬ a.Playback) ∨
        a.bManualSeparate
    · rw [(clbkPostStep_status2 m GetSRB_State a simt h2).1 hc]
      have hf := SeparateTank_facts a _ rfl
      have hh := SeparateTank_handles a _ rfl
      unfold StageHandles
      exact ⟨hh.1, Or.inr (Or.inr ⟨hf.1, hf.2.1, hh.2.trans hr⟩)⟩
    · rw [(clbkPostStep_status2 m GetSRB_State a simt h2).2 hc]
      exact h
  · by_cases hc : a.bManualSeparate ∧ a.satAttached
    · rw [(clbkPostStep_status3 m GetSRB_State a simt h3).1 hc]
      exact StageHandles_congr a _ rfl rfl rfl rfl h
    · rw [(clbkPostStep_status3 m GetSRB_State a simt h3).2 hc]
      exact h

theorem StageHandles_Jettison (GetSRB_State : α → α × α) (a : Atlantis α)
    (h : a.StageHandles) : (a.Jettison GetSRB_State).StageHandles := by
  by_cases h03 : a.status = 0 ∨ a.status = 3
  · have key : a.Jettison GetSRB_State = a := by simp only [Jettison, if_pos h03]
    rw [key]
    exact h
  by_cases h1 : a.status = 1
  · have key : a.Jettison GetSRB_State =
        a.SeparateBoosters GetSRB_State (a.oapiGetSimTime - a.t0) := by
      simp only [Jettison, if_neg h03, if_pos h1]
    rw [key]
    have hf := SeparateBoosters_facts GetSRB_State a _ (a.oapiGetSimTime - a.t0) rfl
    have hh := SeparateBoosters_handles GetSRB_State a _ (a.oapiGetSimTime - a.t0) rfl
    exact ⟨hh.1, Or.inr (Or.inl ⟨hf.1, hh.2, hf.2.1⟩)⟩
  by_cases h2 : a.status = 2
  · obtain ⟨ht, hr⟩ := StageHandles_of_status2 a h h2
    have key : a.Jettison GetSRB_State = a.SeparateTank := by
      simp only [Jettison, if_neg h03, if_neg h1, if_pos h2]
    rw [key]
    have hf := SeparateTank_facts a _ rfl
    have hh := SeparateTank_handles a _ rfl
    exact ⟨hh.1, Or.inr (Or.inr ⟨hf.1, hf.2.1, hh.2.trans hr⟩)⟩
  have key : a.Jettison GetSRB_State = a := by
    simp only [Jettison, if_neg h03, if_neg h1, if_neg h2]
  rw [key]
  exact h

theorem StageHandles_Next (m : Libm α) (GetSRB_State : α → α × α) (a b : Atlantis α)
    (h : a.StageHandles) (hn : Next m GetSRB_State a b) : b.StageHandles := by
  obtain ⟨v, flag, hstep⟩ := hn
  have h1 : StageHandles { a with toVESSEL := v, bManualSeparate := flag } :=
    StageHandles_congr a _ rfl rfl rfl rfl h
  rcases hstep with ⟨simt, e⟩ | e
  · rw [e]
    exact StageHandles_clbkPostStep m GetSRB_State _ simt h1
  · rw [e]
    exact StageHandles_Jettison GetSRB_State _ h1

/-- Every reachable state holds the propellant handles of its stage. -/
theorem StageHandles_of_Reachable (m : Libm α) (GetSRB_State : α → α × α) (a : Atlantis α)
    (h : Reachable m GetSRB_State a) : a.StageHandles := by
  induction h with
  | launch v t0 =>
    obtain ⟨hs, ho, ht, hr⟩ := SetLaunchConfiguration_handles (Atlantis.new v t0) _ rfl
    exact ⟨ho, Or.inl ⟨Or.inl hs, ht, hr⟩⟩
  | postLaunch v t0 met =>
    obtain ⟨_, ho, ht, hr⟩ := SetLaunchConfiguration_handles (Atlantis.new v t0) _ rfl
    exact ⟨ho, Or.inl ⟨Or.inr rfl, ht, hr⟩⟩
  | orbiterTank v t0 =>
    have hf := SetOrbiterTankConfiguration_facts (Atlantis.new v t0) _ rfl
    have hh := SetOrbiterTankConfiguration_handles (Atlantis.new v t0) _ rfl
    exact ⟨hh.1, Or.inr (Or.inl ⟨hf.1, hh.2, hf.2.1⟩)⟩
  | orbiter v t0 =>
    have hf := SetOrbiterConfiguration_facts (Atlantis.new v t0) _ rfl
    have ho := SetOrbiterConfiguration_ph_oms (Atlantis.new v t0) _ rfl
    exact ⟨ho, Or.inr (Or.inr ⟨hf.1, hf.2.2.2.2.2.1, hf.2.1⟩)⟩
  | next a b _ hn ih => exact StageHandles_Next m GetSRB_State a b ih hn

/-- Counterexample to C20 as stated: the launch stack on the pad, as set up by
`SetLaunchConfiguration`, is reachable and in stage 0, and both its booster
propellant handle and its tank propellant handle are non-null. -/
theorem launch_stack_holds_both_handles :
    Reachable ⟨Real.sqrt, fun x y => x ^ y, fun x y => Real.sqrt (x * x + y * y)⟩
      (fun _ => (0, 0)) (Sample.onPad ℝ) ∧
    (Sample.onPad ℝ).status = 0 ∧
    (Sample.onPad ℝ).ph_srb = some 3 ∧ (Sample.onPad ℝ).ph_tank = some 2 :=
  ⟨Reachable.launch (Sample.host ℝ 0) 0, rfl, by decide, by decide⟩

/-- Claim C20, amended: in every state reachable from a stage configuration
routine by per-step updates and `Jettison` calls the stage is one of 0..3 and
the OMS propellant handle is non-null; while Assembled or BoostersBurning both
the tank and the booster propellant handle are non-null; while
BoostersSeparated the tank handle is non-null and the booster handle is null;
once TankSeparated both are null, so only the OMS handle remains. -/
theorem reachable_stage_handles (m : Libm α) (GetSRB_State : α → α × α) (a : Atlantis α)
    (h : Reachable m GetSRB_State a) :
    (a.status = 0 ∨ a.status = 1 ∨ a.status = 2 ∨ a.status = 3) ∧
    a.ph_oms ≠ none ∧
    ((a.status = 0 ∨ a.status = 1) → a.ph_tank ≠ none ∧ a.ph_srb ≠ none) ∧
    (a.status = 2 → a.ph_tank ≠ none ∧ a.ph_srb = none) ∧
    (a.status = 3 → a.ph_tank = none ∧ a.ph_srb = none) := by
  have hS := StageHandles_of_Reachable m GetSRB_State a h
  exact ⟨StageHandles_status a hS, hS.1, StageHandles_of_status01 a hS,
    StageHandles_of_status2 a hS, StageHandles_of_status3 a hS⟩

/-- Witness for `reachable_stage_handles`: orbiter and tank after the boosters
of the sample ascent were jettisoned. -/
theorem reachable_stage_handles_witness :
    Reachable ⟨Real.sqrt, fun x y => x ^ y, fun x y => Real.sqrt (x * x + y * y)⟩
      (fun _ => (0, 0)) (Sample.coasting ℝ) ∧
    (Sample.coasting ℝ).status = 2 ∧
    (Sample.coasting ℝ).ph_tank ≠ none ∧ (Sample.coasting ℝ).ph_srb = none :=
  ⟨Reachable.next (Sample.ascent ℝ) (Sample.coasting ℝ)
      (Reachable.postLaunch (Sample.host ℝ 50) 0 50)
      ⟨(Sample.ascent ℝ).toVESSEL, (Sample.ascent ℝ).bManualSeparate, Or.inr rfl⟩,
    rfl,
    (reachable_stage_handles
      ⟨Real.sqrt, fun x y => x ^ y, fun x y => Real.sqrt (x * x + y * y)⟩
      (fun _ => (0, 0)) (Sample.coasting ℝ)
      (Reachable.next (Sample.ascent ℝ) (Sample.coasting ℝ)
        (Reachable.postLaunch (Sample.host ℝ 50) 0 50)
        ⟨(Sample.ascent ℝ).toVESSEL, (Sample.ascent ℝ).bManualSeparate, Or.inr rfl⟩)).2.2.2.1
      rfl⟩

/-- The gimbal law with a positive discriminant: no radicand is clamped, the
direction is `(0, dy, dz)` without renormalisation, it has unit length and it
balances the moments. -/
theorem Gimbal_dir_unsaturated (m : Libm α) (hm : m.Lawful) (F_srb F_main : α)
    (hF : F_main ≠ 0) (ht : 0 < Gimbal.term F_srb F_main) :
    0 < Gimbal.arg1 F_srb F_main ∧ 0 < Gimbal.arg2 F_srb F_main ∧
    Gimbal.dir m F_srb F_main = _V 0 (Gimbal.dy m F_srb F_main) (Gimbal.dz m F_srb F_main) ∧
    Gimbal.dy m F_srb F_main ^ 2 + Gimbal.dz m F_srb F_main ^ 2 = 1 ∧
    F_main * (Gimbal.ry * Gimbal.dz m F_srb F_main - Gimbal.rz * Gimbal.dy m F_srb F_main) =
      Gimbal.M_0 F_srb F_main := by
  have hr2 : (0 : α) < Gimbal.ry ^ 2 + Gimbal.rz ^ 2 := Gimbal_r2_pos
  have hry : (0 : α) < Gimbal.ry := by unfold Gimbal.ry; norm_num
  have hrz : (Gimbal.rz : α) < 0 := by unfold Gimbal.rz; norm_num
  have hry2 : (0 : α) < Gimbal.ry ^ 2 := pow_pos hry 2
  have hrz2 : (0 : α) < Gimbal.rz ^ 2 := by nlinarith
  have ha1 : Gimbal.arg1 F_srb F_main = Gimbal.rz ^ 2 * Gimbal.term F_srb F_main := by
    unfold Gimbal.arg1
    exact max_eq_right (le_of_lt (mul_pos hrz2 ht))
  have ha2 : Gimbal.arg2 F_srb F_main = Gimbal.ry ^ 2 * Gimbal.term F_srb F_main := by
    unfold Gimbal.arg2
    exact max_eq_right (le_of_lt (mul_pos hry2 ht))
  have ha1pos : 0 < Gimbal.arg1 F_srb F_main := by
    rw [ha1]
    exact mul_pos hrz2 ht
  have ha2pos : 0 < Gimbal.arg2 F_srb F_main := by
    rw [ha2]
    exact mul_pos hry2 ht
  have hs0 := hm.sqrt_nonneg _ (le_of_lt ht)
  have hss := hm.sqrt_mul_self _ (le_of_lt ht)
  have hs1 : m.sqrt (Gimbal.arg1 F_srb F_main) =
      -Gimbal.rz * m.sqrt (Gimbal.term F_srb F_main) := by
    apply Lawful_sqrt_eq m hm
    · exact mul_nonneg (by linarith) hs0
    · rw [ha1]
      calc -Gimbal.rz * m.sqrt (Gimbal.term F_srb F_main) *
            (-Gimbal.rz * m.sqrt (Gimbal.term F_srb F_main))
          = Gimbal.rz ^ 2 * (m.sqrt (Gimbal.term F_srb F_main) *
              m.sqrt (Gimbal.term F_srb F_main)) := by ring
        _ = Gimbal.rz ^ 2 * Gimbal.term F_srb F_main := by rw [hss]
  have hs2 : m.sqrt (Gimbal.arg2 F_srb F_main) =
      Gimbal.ry * m.sqrt (Gimbal.term F_srb F_main) := by
    apply Lawful_sqrt_eq m hm
    · exact mul_nonneg (le_of_lt hry) hs0
    · rw [ha2]
      calc Gimbal.ry * m.sqrt (Gimbal.term F_srb F_main) *
            (Gimbal.ry * m.sqrt (Gimbal.term F_srb F_main))
          = Gimbal.ry ^ 2 * (m.sqrt (Gimbal.term F_srb F_main) *
              m.sqrt (Gimbal.term F_srb F_main)) := by ring
        _ = Gimbal.ry ^ 2 * Gimbal.term F_srb F_main := by rw [hss]
  have hno : ¬ (Gimbal.arg1 F_srb F_main = 0 ∨ Gimbal.arg2 F_srb F_main = 0) := by
    intro h
    rcases h with h | h
    · exact absurd h (ne_of_gt ha1pos)
    · exact absurd h (ne_of_gt ha2pos)
  have hterm : m.sqrt (Gimbal.term F_srb F_main) * m.sqrt (Gimbal.term F_srb F_main) =
      -(Gimbal.M_0 F_srb F_main) ^ 2 + F_main ^ 2 * (Gimbal.ry ^ 2 + Gimbal.rz ^ 2) := by
    rw [hss]
    rfl
  have hr2ne : (Gimbal.ry : α) ^ 2 + Gimbal.rz ^ 2 ≠ 0 := ne_of_gt hr2
  refine ⟨ha1pos, ha2pos, ?_, ?_, ?_⟩
  · unfold Gimbal.dir
    rw [if_neg hno]
  · unfold Gimbal.dy Gimbal.dz Gimbal.scale
    rw [hs1, hs2]
    generalize m.sqrt (Gimbal.term F_srb F_main) = s at hterm ⊢
    generalize Gimbal.M_0 F_srb F_main = M at hterm ⊢
    field_simp
    linear_combination (Gimbal.ry ^ 2 + Gimbal.rz ^ 2) * hterm
  · unfold Gimbal.dy Gimbal.dz Gimbal.scale
    rw [hs1, hs2]
    generalize m.sqrt (Gimbal.term F_srb F_main) = s
    generalize Gimbal.M_0 F_srb F_main = M
    field_simp
    ring

/-- The gimbal law balances the moments whenever the discriminant is not
negative: on the boundary `term = 0` the renormalisation divides by a length
that is exactly 1. -/
theorem Gimbal_dir_moment (m : Libm α) (hm : m.Lawful) (F_srb F_main : α)
    (hF : F_main ≠ 0) (ht : 0 ≤ Gimbal.term F_srb F_main) :
    ∃ dy dz : α, Gimbal.dir m F_srb F_main = _V 0 dy dz ∧
      F_main * (Gimbal.ry * dz - Gimbal.rz * dy) = Gimbal.M_0 F_srb F_main := by
  rcases lt_or_eq_of_le ht with hpos | hzero
  · obtain ⟨_, _, h3, _, h5⟩ := Gimbal_dir_unsaturated m hm F_srb F_main hF hpos
    exact ⟨_, _, h3, h5⟩
  · have hr2 : (0 : α) < Gimbal.ry ^ 2 + Gimbal.rz ^ 2 := Gimbal_r2_pos
    have hr2ne : (Gimbal.ry : α) ^ 2 + Gimbal.rz ^ 2 ≠ 0 := ne_of_gt hr2
    obtain ⟨a1, a2, _, hlen, hdir, _⟩ :=
      Gimbal_dir_saturated m hm F_srb F_main hF (le_of_eq hzero.symm)
    have hM2 : (Gimbal.M_0 F_srb F_main) ^ 2 =
        F_main ^ 2 * (Gimbal.ry ^ 2 + Gimbal.rz ^ 2) := by
      have h := hzero
      unfold Gimbal.term at h
      linear_combination h
    have edy : Gimbal.dy m F_srb F_main =
        -(Gimbal.M_0 F_srb F_main * Gimbal.rz) * Gimbal.scale F_main := by
      unfold Gimbal.dy
      rw [a2, Lawful_sqrt_zero m hm, add_zero]
    have edz : Gimbal.dz m F_srb F_main =
        Gimbal.M_0 F_srb F_main * Gimbal.ry * Gimbal.scale F_main := by
      unfold Gimbal.dz
      rw [a1, Lawful_sqrt_zero m hm, add_zero]
    have hsq : Gimbal.dy m F_srb F_main * Gimbal.dy m F_srb F_main +
        Gimbal.dz m F_srb F_main * Gimbal.dz m F_srb F_main = 1 := by
      rw [edy, edz]
      unfold Gimbal.scale
      generalize Gimbal.M_0 F_srb F_main = M at hM2 ⊢
      field_simp
      linear_combination (Gimbal.ry ^ 2 + Gimbal.rz ^ 2) * hM2
    have h0 := hm.hypot_nonneg (Gimbal.dy m F_srb F_main) (Gimbal.dz m F_srb F_main)
    have h2 := hm.hypot_mul_self (Gimbal.dy m F_srb F_main) (Gimbal.dz m F_srb F_main)
    rw [hsq] at h2
    have hone : m.hypot (Gimbal.dy m F_srb F_main) (Gimbal.dz m F_srb F_main) = 1 := by
      have hone2 : (1 : α) * 1 = 1 := one_mul 1
      exact (mul_self_inj_of_nonneg h0 zero_le_one).mp (h2.trans hone2.symm)
    rw [hone, div_one, div_one] at hdir
    refine ⟨_, _, hdir, ?_⟩
    rw [edy, edz]
    unfold Gimbal.scale
    generalize Gimbal.M_0 F_srb F_main = M
    field_simp
    ring

/-- Claim C27: with lawful `sqrt` and `_hypot`, for every state with
`F_main ≠ 0` and `term = -M_0² + F_main²·(ry²+rz²) > 0`, neither radicand is
clamped, `AutoMainGimbal` gives the upper main engine the direction
`(0, dy, dz)` without renormalisation, and that direction is a unit vector:
`dy² + dz² = 1`. -/
theorem AutoMainGimbal_unsaturated (m : Libm α) (hm : m.Lawful) (a : Atlantis α)
    (hF : a.F_main ≠ 0) (ht : 0 < Gimbal.term a.F_srb a.F_main) :
    0 < Gimbal.arg1 a.F_srb a.F_main ∧ 0 < Gimbal.arg2 a.F_srb a.F_main ∧
    a.AutoMainGimbal m =
      { a with
        toVESSEL := a.toVESSEL.SetThrusterDir a.th_main2
          (_V 0 (Gimbal.dy m a.F_srb a.F_main) (Gimbal.dz m a.F_srb a.F_main)) } ∧
    Gimbal.dy m a.F_srb a.F_main ^ 2 + Gimbal.dz m a.F_srb a.F_main ^ 2 = 1 := by
  obtain ⟨h1, h2, h3, h4, _⟩ := Gimbal_dir_unsaturated m hm a.F_srb a.F_main hF ht
  refine ⟨h1, h2, ?_, h4⟩
  rw [AutoMainGimbal_nonzero m a hF, h3]

/-- Claim C28: with lawful `sqrt` and `_hypot`, for every state with
`F_main ≠ 0` and `term = -M_0² + F_main²·(ry²+rz²) ≥ 0`, the direction
`(0, dy, dz)` that `AutoMainGimbal` gives to the upper main engine satisfies the
moment equation `F_main·(ry·dz − rz·dy) = M_0`. -/
theorem AutoMainGimbal_moment_balance (m : Libm α) (hm : m.Lawful) (a : Atlantis α)
    (hF : a.F_main ≠ 0) (ht : 0 ≤ Gimbal.term a.F_srb a.F_main) :
    ∃ dy dz : α,
      a.AutoMainGimbal m =
        { a with toVESSEL := a.toVESSEL.SetThrusterDir a.th_main2 (_V 0 dy dz) } ∧
      a.F_main * (Gimbal.ry * dz - Gimbal.rz * dy) = Gimbal.M_0 a.F_srb a.F_main := by
  obtain ⟨dy, dz, h1, h2⟩ := Gimbal_dir_moment m hm a.F_srb a.F_main hF ht
  refine ⟨dy, dz, ?_, h2⟩
  rw [AutoMainGimbal_nonzero m a hF, h1]

/-- Witness for `AutoMainGimbal_unsaturated`: main engines and boosters at full
thrust (`term > 0`), over the reals. -/
theorem AutoMainGimbal_unsaturated_witness :
    (Sample.burning ℝ 1 1).F_main ≠ 0 ∧
    0 < Gimbal.term (Sample.burning ℝ 1 1).F_srb (Sample.burning ℝ 1 1).F_main ∧
    Gimbal.dy ⟨Real.sqrt, fun x y => x ^ y, fun x y => Real.sqrt (x * x + y * y)⟩
        (Sample.burning ℝ 1 1).F_srb (Sample.burning ℝ 1 1).F_main ^ 2 +
      Gimbal.dz ⟨Real.sqrt, fun x y => x ^ y, fun x y => Real.sqrt (x * x + y * y)⟩
        (Sample.burning ℝ 1 1).F_srb (Sample.burning ℝ 1 1).F_main ^ 2 = 1 := by
  have hlaw : (⟨Real.sqrt, fun x y => x ^ y, fun x y => Real.sqrt (x * x + y * y)⟩ :
      Libm ℝ).Lawful :=
    ⟨fun x _ => Real.sqrt_nonneg x, fun x hx => Real.mul_self_sqrt hx,
      fun x y => Real.sqrt_nonneg _,
      fun x y => Real.mul_self_sqrt (add_nonneg (mul_self_nonneg x) (mul_self_nonneg y))⟩
  have hne : (Sample.burning ℝ 1 1).F_main ≠ 0 := by
    show (ORBITER_MAIN_THRUST * 1 : ℝ) ≠ 0
    norm_num [ORBITER_MAIN_THRUST]
  have ht : 0 < Gimbal.term (Sample.burning ℝ 1 1).F_srb (Sample.burning ℝ 1 1).F_main := by
    show 0 < Gimbal.term (SRB_THRUST * 1) (ORBITER_MAIN_THRUST * 1 : ℝ)
    norm_num [Gimbal.term, Gimbal.M_0, Gimbal.ry, Gimbal.rz, ORBITER_MAIN_THRUST, SRB_THRUST]
  exact ⟨hne, ht, (AutoMainGimbal_unsaturated _ hlaw (Sample.burning ℝ 1 1) hne ht).2.2.2⟩

/-- Witness for `AutoMainGimbal_moment_balance`: main engines at full thrust
and boosters at half thrust (`term > 0`, `M_0 < 0`), over the reals. -/
theorem AutoMainGimbal_moment_balance_witness :
    (Sample.burning ℝ 1 (1 / 2)).F_main ≠ 0 ∧
    0 ≤ Gimbal.term (Sample.burning ℝ 1 (1 / 2)).F_srb (Sample.burning ℝ 1 (1 / 2)).F_main ∧
    ∃ dy dz : ℝ,
      (Sample.burning ℝ 1 (1 / 2)).AutoMainGimbal
          ⟨Real.sqrt, fun x y => x ^ y, fun x y => Real.sqrt (x * x + y * y)⟩ =
        { Sample.burning ℝ 1 (1 / 2) with
          toVESSEL := (Sample.burning ℝ 1 (1 / 2)).toVESSEL.SetThrusterDir
            (Sample.burning ℝ 1 (1 / 2)).th_main2 (_V 0 dy dz) } ∧
      (Sample.burning ℝ 1 (1 / 2)).F_main * (Gimbal.ry * dz - Gimbal.rz * dy) =
        Gimbal.M_0 (Sample.burning ℝ 1 (1 / 2)).F_srb (Sample.burning ℝ 1 (1 / 2)).F_main := by
  have hlaw : (⟨Real.sqrt, fun x y => x ^ y, fun x y => Real.sqrt (x * x + y * y)⟩ :
      Libm ℝ).Lawful :=
    ⟨fun x _ => Real.sqrt_nonneg x, fun x hx => Real.mul_self_sqrt hx,
      fun x y => Real.sqrt_nonneg _,
      fun x y => Real.mul_self_sqrt (add_nonneg (mul_self_nonneg x) (mul_self_nonneg y))⟩
  have hne : (Sample.burning ℝ 1 (1 / 2)).F_main ≠ 0 := by
    show (ORBITER_MAIN_THRUST * 1 : ℝ) ≠ 0
    norm_num [ORBITER_MAIN_THRUST]
  have ht : 0 ≤ Gimbal.term (Sample.burning ℝ 1 (1 / 2)).F_srb
      (Sample.burning ℝ 1 (1 / 2)).F_main := by
    show 0 ≤ Gimbal.term (SRB_THRUST * (1 / 2)) (ORBITER_MAIN_THRUST * 1 : ℝ)
    norm_num [Gimbal.term, Gimbal.M_0, Gimbal.ry, Gimbal.rz, ORBITER_MAIN_THRUST, SRB_THRUST]
  exact ⟨hne, ht, AutoMainGimbal_moment_balance _ hlaw (Sample.burning ℝ 1 (1 / 2)) hne ht⟩

theorem groupTypes_CreateThruster (v : VESSEL α) (d : VECTOR3 α) (x : α) (hp : Option Nat) :
    groupTypes (v.CreateThruster d x hp).1 = groupTypes v := rfl

theorem groupTypes_CreateThrusterGroup {β : Type} (v : VESSEL β) (th : List Nat)
    (T : THGROUP_TYPE) :
    groupTypes (v.CreateThrusterGroup th T).1 =
      (if T = THGROUP_TYPE.THGROUP_USER then groupTypes v
        else (groupTypes v).filter (fun x => x != T)) ++ [T] := by
  unfold groupTypes VESSEL.CreateThrusterGroup
  by_cases h : T = THGROUP_TYPE.THGROUP_USER
  · simp [h]
  · simp [h, List.filter_map, Function.comp_def]

theorem thrusters_CreateThruster (v : VESSEL α) (d : VECTOR3 α) (x : α) (hp : Option Nat) :
    (v.CreateThruster d x hp).1.thrusters.length = v.thrusters.length + 1 := by
  simp [VESSEL.CreateThruster]

theorem thrusters_CreateThrusterGroup {β : Type} (v : VESSEL β) (th : List Nat)
    (T : THGROUP_TYPE) :
    (v.CreateThrusterGroup th T).1.thrusters = v.thrusters := rfl

theorem propellants_CreateThruster (v : VESSEL α) (d : VECTOR3 α) (x : α) (hp : Option Nat) :
    (v.CreateThruster d x hp).1.propellants = v.propellants := rfl

theorem propellants_CreateThrusterGroup {β : Type} (v : VESSEL β) (th : List Nat)
    (T : THGROUP_TYPE) :
    (v.CreateThrusterGroup th T).1.propellants = v.propellants := rfl

theorem CreateAttControls_count (a : Atlantis α) (p r y : α) :
    (a.CreateAttControls p r y).thrusters.length = a.thrusters.length + 12 ∧
    (a.CreateAttControls p r y).propellants = a.propellants ∧
    groupTypes (a.CreateAttControls p r y).toVESSEL =
      (groupTypes a.toVESSEL).filter (fun T => !launchAttGroups.contains T) ++
        [THGROUP_TYPE.THGROUP_ATT_PITCHUP, THGROUP_TYPE.THGROUP_ATT_PITCHDOWN,
          THGROUP_TYPE.THGROUP_ATT_BANKLEFT, THGROUP_TYPE.THGROUP_ATT_BANKRIGHT,
          THGROUP_TYPE.THGROUP_ATT_YAWRIGHT, THGROUP_TYPE.THGROUP_ATT_YAWLEFT] := by
  refine ⟨?_, ?_, ?_⟩
  · simp only [CreateAttControls, thrusters_CreateThruster, thrusters_CreateThrusterGroup]
  · simp only [CreateAttControls, propellants_CreateThruster, propellants_CreateThrusterGroup]
  · simp only [CreateAttControls, groupTypes_CreateThruster, groupTypes_CreateThrusterGroup]
    simp [List.filter_filter]
    apply List.filter_congr
    intro T _
    cases T <;> rfl

theorem CreateAttControls_RCS_count (a : Atlantis α) :
    a.CreateAttControls_RCS.thrusters.length = a.thrusters.length + 14 ∧
    a.CreateAttControls_RCS.propellants = a.propellants ∧
    groupTypes a.CreateAttControls_RCS.toVESSEL =
      (groupTypes a.toVESSEL).filter (fun T => !rcsAttGroups.contains T) ++ rcsAttGroups := by
  refine ⟨?_, ?_, ?_⟩
  · simp only [CreateAttControls_RCS, thrusters_CreateThruster, thrusters_CreateThrusterGroup]
  · simp only [CreateAttControls_RCS, propellants_CreateThruster,
      propellants_CreateThrusterGroup]
  · simp only [CreateAttControls_RCS, groupTypes_CreateThruster,
      groupTypes_CreateThrusterGroup]
    simp [List.filter_filter, rcsAttGroups]
    apply List.filter_congr
    intro T _
    cases T <;> rfl

theorem ThrusterGroupDefined_iff {β : Type} (v : VESSEL β) (T : THGROUP_TYPE) :
    v.ThrusterGroupDefined T = true ↔ T ∈ groupTypes v := by
  unfold VESSEL.ThrusterGroupDefined groupTypes
  rw [List.any_eq_true, List.mem_map]
  constructor
  · rintro ⟨g, hg, he⟩
    exact ⟨g, hg, beq_iff_eq.mp he⟩
  · rintro ⟨g, hg, he⟩
    exact ⟨g, hg, beq_iff_eq.mpr he⟩

theorem SetOrbiterConfiguration_count (a b : Atlantis α) (hb : a.SetOrbiterConfiguration = b) :
    b.thrusters.length = a.thrusters.length + 16 ∧
    groupTypes b.toVESSEL =
      (groupTypes a.toVESSEL).filter (fun T => !orbiterGroups.contains T) ++ orbiterGroups ∧
    (a.ph_oms ≠ none → b.propellants = a.propellants) := by
  unfold SetOrbiterConfiguration at hb
  lift_lets at hb
  extract_lets r1 a1 m0 m1 g a2 a3 at hb
  have h1 : a1.thrusters = a.thrusters ∧ groupTypes a1.toVESSEL = groupTypes a.toVESSEL ∧
      (a.ph_oms ≠ none → a1.propellants = a.propellants) := by
    simp only [a1]
    split
    · rename_i h
      refine ⟨rfl, rfl, fun hne => ?_⟩
      cases hp : a.ph_oms with
      | none => exact absurd hp hne
      | some x => rw [hp] at h; simp at h
    · exact ⟨rfl, rfl, fun _ => rfl⟩
  clear_value a1
  have h2 : a2.thrusters.length = a1.thrusters.length + 2 ∧
      groupTypes a2.toVESSEL =
        (groupTypes a1.toVESSEL).filter (fun x => x != THGROUP_TYPE.THGROUP_MAIN) ++
          [THGROUP_TYPE.THGROUP_MAIN] ∧
      a2.propellants = a1.propellants := by
    refine ⟨?_, ?_, ?_⟩
    · show g.1.thrusters.length = _
      simp only [g, m1, m0, thrusters_CreateThruster, thrusters_CreateThrusterGroup]
    · show groupTypes g.1 = _
      simp only [g, m1, m0, groupTypes_CreateThruster, groupTypes_CreateThrusterGroup]
      simp
    · show g.1.propellants = _
      simp only [g, m1, m0, propellants_CreateThruster, propellants_CreateThrusterGroup]
  clear_value a2
  have h3 := CreateAttControls_RCS_count a2
  have e3 : a3 = a2.CreateAttControls_RCS := rfl
  rw [← e3] at h3
  clear_value a3
  subst hb
  refine ⟨?_, ?_, ?_⟩
  · show a3.thrusters.length = _
    rw [h3.1, h2.1, h1.1]
  · show groupTypes a3.toVESSEL = _
    rw [h3.2.2, h2.2.1, h1.2.1]
    simp [List.filter_filter, orbiterGroups, rcsAttGroups]
    apply List.filter_congr
    intro T _
    cases T <;> rfl
  · intro hne
    show a3.propellants = _
    rw [h3.2.1, h2.2.2, h1.2.2 hne]

theorem SetLaunchConfiguration_count (a b : Atlantis α) (hb : a.SetLaunchConfiguration = b) :
    b.thrusters.length = 17 ∧
    groupTypes b.toVESSEL =
      [THGROUP_TYPE.THGROUP_MAIN, THGROUP_TYPE.THGROUP_USER,
        THGROUP_TYPE.THGROUP_ATT_PITCHUP, THGROUP_TYPE.THGROUP_ATT_PITCHDOWN,
        THGROUP_TYPE.THGROUP_ATT_BANKLEFT, THGROUP_TYPE.THGROUP_ATT_BANKRIGHT,
        THGROUP_TYPE.THGROUP_ATT_YAWRIGHT, THGROUP_TYPE.THGROUP_ATT_YAWLEFT] ∧
    (a.ph_oms ≠ none → a.ph_tank ≠ none → a.ph_srb ≠ none →
      b.propellants = a.propellants) := by
  unfold SetLaunchConfiguration at hb
  lift_lets at hb
  extract_lets r1 a1 r2 a2 r3 a3 v m0 m1 m2 g s0 s1 gs a4 a5 at hb
  have h1 : a1.ph_tank = a.ph_tank ∧ a1.ph_srb = a.ph_srb ∧
      (a.ph_oms ≠ none → a1.propellants = a.propellants) := by
    simp only [a1]
    split
    · rename_i h
      refine ⟨rfl, rfl, fun hne => ?_⟩
      cases hp : a.ph_oms with
      | none => exact absurd hp hne
      | some x => rw [hp] at h; simp at h
    · exact ⟨rfl, rfl, fun _ => rfl⟩
  clear_value a1
  have h2 : a2.ph_srb = a1.ph_srb ∧ (a1.ph_tank ≠ none → a2.propellants = a1.propellants) := by
    simp only [a2]
    split
    · rename_i h
      refine ⟨rfl, fun hne => ?_⟩
      cases hp : a1.ph_tank with
      | none => exact absurd hp hne
      | some x => rw [hp] at h; simp at h
    · exact ⟨rfl, fun _ => rfl⟩
  clear_value a2
  have h3 : a2.ph_srb ≠ none → a3.propellants = a2.propellants := by
    simp only [a3]
    split
    · rename_i h
      intro hne
      cases hp : a2.ph_srb with
      | none => exact absurd hp hne
      | some x => rw [hp] at h; simp at h
    · exact fun _ => rfl
  clear_value a3
  have h4 : a4.thrusters.length = 5 ∧
      groupTypes a4.toVESSEL = [THGROUP_TYPE.THGROUP_MAIN, THGROUP_TYPE.THGROUP_USER] ∧
      a4.propellants = a3.propellants := by
    refine ⟨?_, ?_, ?_⟩
    · show gs.1.thrusters.length = _
      simp only [gs, s1, s0, g, m2, m1, m0, v, thrusters_CreateThruster,
        thrusters_CreateThrusterGroup]
      rfl
    · show groupTypes gs.1 = _
      simp only [gs, s1, s0, g, m2, m1, m0, v, groupTypes_CreateThruster,
        groupTypes_CreateThrusterGroup]
      simp [groupTypes, VESSEL.ClearThrusterDefinitions]
    · show gs.1.propellants = _
      simp only [gs, s1, s0, g, m2, m1, m0, v, propellants_CreateThruster,
        propellants_CreateThrusterGroup]
      rfl
  clear_value a4
  have h5 := CreateAttControls_count a4 MAX_ATT_LAUNCH MAX_ROLL_SRB MAX_ATT_LAUNCH
  have e5 : a5 = a4.CreateAttControls MAX_ATT_LAUNCH MAX_ROLL_SRB MAX_ATT_LAUNCH := rfl
  rw [← e5] at h5
  clear_value a5
  subst hb
  refine ⟨?_, ?_, ?_⟩
  · show a5.thrusters.length = _
    rw [h5.1, h4.1]
  · show groupTypes a5.toVESSEL = _
    rw [h5.2.2, h4.2.1]
    decide
  · intro n1 n2 n3
    show a5.propellants = _
    rw [h5.2.1, h4.2.2, h3 (by rw [h2.1, h1.2.1]; exact n3), h2.2 (by rw [h1.1]; exact n2),
      h1.2.2 n1]

theorem handles_SetThrusterDir {β : Type} (v : VESSEL β) (th : Nat) (d : VECTOR3 β) :
    (v.SetThrusterDir th d).thrusters.map (fun t => t.handle) =
      v.thrusters.map (fun t => t.handle) := by
  unfold VESSEL.SetThrusterDir
  rw [List.map_map]
  apply List.map_congr_left
  intro t _
  simp only [Function.comp_apply]
  split <;> rfl

theorem SetOrbiterTankConfiguration_defined (a b : Atlantis α)
    (hb : a.SetOrbiterTankConfiguration = b) :
    b.thg_main.isSome = true ∧
    b.toVESSEL.ThrusterGroupDefined THGROUP_TYPE.THGROUP_ATT_PITCHUP = true := by
  unfold SetOrbiterTankConfiguration at hb
  lift_lets at hb
  extract_lets r1 a1 r2 a2 v1 v2 v3 m0 m1 m2 g a3 a4 at hb
  clear_value a2
  have h3 : a3.thg_main.isSome = true := by
    simp only [a3]
    split
    · rename_i h
      exact h
    · rfl
  clear_value a3
  have h4 : a4.thg_main = a3.thg_main ∧
      a4.toVESSEL.ThrusterGroupDefined THGROUP_TYPE.THGROUP_ATT_PITCHUP = true := by
    simp only [a4]
    split
    · constructor
      · simp only [CreateAttControls_Launch, CreateAttControls]
      · rw [ThrusterGroupDefined_iff]
        have h := (CreateAttControls_count a3 MAX_ATT_LAUNCH MAX_ROLL_SRB MAX_ATT_LAUNCH).2.2
        have e : a3.CreateAttControls_Launch =
            a3.CreateAttControls MAX_ATT_LAUNCH MAX_ROLL_SRB MAX_ATT_LAUNCH := rfl
        rw [e, h]
        simp
    · rename_i h
      refine ⟨rfl, ?_⟩
      simpa using h
  clear_value a4
  subst hb
  exact ⟨h4.1 ▸ h3, h4.2⟩

/-- A run of `SetOrbiterTankConfiguration` on a state that holds the OMS and
tank propellant handles, the main engine group and a pitch-up attitude group
creates and deletes nothing. -/
theorem SetOrbiterTankConfiguration_rerun (b c : Atlantis α)
    (hc : b.SetOrbiterTankConfiguration = c)
    (h1 : b.ph_oms ≠ none) (h2 : b.ph_tank ≠ none) (h3 : b.thg_main.isSome = true)
    (h4 : b.toVESSEL.ThrusterGroupDefined THGROUP_TYPE.THGROUP_ATT_PITCHUP = true) :
    c.thrusters.map (fun t => t.handle) = b.thrusters.map (fun t => t.handle) ∧
    c.groups = b.groups ∧ c.propellants = b.propellants ∧ c.status = 2 := by
  unfold SetOrbiterTankConfiguration at hc
  lift_lets at hc
  extract_lets r1 a1 r2 a2 v1 v2 v3 m0 m1 m2 g a3 a4 at hc
  have e1 : a1 = b := by
    simp only [a1]
    rw [if_neg]
    intro h
    cases hp : b.ph_oms with
    | none => exact h1 hp
    | some x => rw [hp] at h; simp at h
  have e2 : a2 = a1 := by
    simp only [a2]
    rw [if_neg]
    intro h
    rw [e1] at h
    cases hp : b.ph_tank with
    | none => exact h2 hp
    | some x => rw [hp] at h; simp at h
  clear_value a1
  subst e1
  clear_value a2
  subst e2
  have e3 : a3 = { a2 with toVESSEL := v3 } := by
    simp only [a3]
    rw [if_pos h3]
  have hv3 : v3.thrusters.map (fun t => t.handle) = a2.thrusters.map (fun t => t.handle) ∧
      v3.groups = a2.groups ∧ v3.propellants = a2.propellants := by
    refine ⟨?_, rfl, rfl⟩
    simp only [v3, v2, v1, handles_SetThrusterDir]
  clear_value a3
  subst e3
  have e4 : a4 = { a2 with toVESSEL := v3 } := by
    simp only [a4]
    rw [if_neg]
    intro h
    have hd : v3.ThrusterGroupDefined THGROUP_TYPE.THGROUP_ATT_PITCHUP = true := by
      unfold VESSEL.ThrusterGroupDefined
      rw [hv3.2.1]
      exact h4
    rw [hd] at h
    simp at h
  clear_value a4
  subst e4
  subst hc
  exact ⟨hv3.1, hv3.2.1, hv3.2.2, rfl⟩

/-- A second filtering and re-creation of the orbiter's group types gives the
same list of types. -/
theorem orbiterGroups_refilter (l : List THGROUP_TYPE) :
    (l.filter (fun T => !orbiterGroups.contains T) ++ orbiterGroups).filter
        (fun T => !orbiterGroups.contains T) ++ orbiterGroups =
      l.filter (fun T => !orbiterGroups.contains T) ++ orbiterGroups := by
  have h : orbiterGroups.filter (fun T => !orbiterGroups.contains T) = [] := by decide
  rw [List.filter_append, h, List.append_nil, List.filter_filter]
  congr 1
  apply List.filter_congr
  intro T _
  simp

/-- The first run of `SetOrbiterConfiguration` on any state leaves sixteen
thrusters more than before, and so does the second. -/
theorem SetOrbiterConfiguration_twice (a b c : Atlantis α)
    (hb : a.SetOrbiterConfiguration = b) (hc : b.SetOrbiterConfiguration = c) :
    b.thrusters.length = a.thrusters.length + 16 ∧
    c.thrusters.length = b.thrusters.length + 16 ∧
    groupTypes c.toVESSEL = groupTypes b.toVESSEL ∧
    c.groups.length = b.groups.length ∧
    c.propellants = b.propellants ∧ b.status = 3 ∧ c.status = 3 := by
  obtain ⟨b1, b2, _⟩ := SetOrbiterConfiguration_count a b hb
  obtain ⟨c1, c2, c3⟩ := SetOrbiterConfiguration_count b c hc
  have homs := SetOrbiterConfiguration_ph_oms a b hb
  have hty : groupTypes c.toVESSEL = groupTypes b.toVESSEL := by
    rw [c2, b2]
    exact orbiterGroups_refilter _
  have hlen : c.groups.length = b.groups.length := by
    have := congrArg List.length hty
    simpa [groupTypes] using this
  exact ⟨b1, c1, hty, hlen, c3 homs, (SetOrbiterConfiguration_facts a b hb).1,
    (SetOrbiterConfiguration_facts b c hc).1⟩

/-- C21 fails on the code: the orbiter alone, as the constructor and a first
run of `SetOrbiterConfiguration` leave it, has 16 thrusters; after a second run
of `SetOrbiterConfiguration` it is still in stage 3 and has 32, the two OMS
and fourteen RCS thrusters having been created once more.  The routine guards
`ph_oms` but not its thrusters; `SetLaunchConfiguration` clears the thruster
definitions first and `SetOrbiterTankConfiguration` tests `thg_main` and
`ThrusterGroupDefined`. -/
theorem SetOrbiterConfiguration_duplicates_thrusters :
    (Sample.orbiterOnly ℝ).status = 3 ∧ (Sample.orbiterOnly ℝ).thrusters.length = 16 ∧
    (Sample.orbiterOnly ℝ).SetOrbiterConfiguration.status = 3 ∧
    (Sample.orbiterOnly ℝ).SetOrbiterConfiguration.thrusters.length = 32 := by
  obtain ⟨h1, h2, _, _, _, h6, h7⟩ :=
    SetOrbiterConfiguration_twice (Atlantis.new (Sample.host ℝ 0) 0) (Sample.orbiterOnly ℝ)
      (Sample.orbiterOnly ℝ).SetOrbiterConfiguration rfl rfl
  have h0 : (Atlantis.new (Sample.host ℝ 0) 0).thrusters.length = 0 := rfl
  rw [h0] at h1
  rw [h1] at h2
  exact ⟨h6, h1, h7, h2⟩

/-- What the three configuration routines do when run a second time on the
state their first run produced.  `SetLaunchConfiguration` deletes all thrusters
and groups and creates them anew: 17 thrusters and the same eight group types
as after the first run, the same propellant resources, stage 0.
`SetOrbiterTankConfiguration` creates and deletes nothing: the thruster
handles, the thruster groups and the propellant resources are those left by
the first run, stage 2.  `SetOrbiterConfiguration` creates its two OMS and
fourteen RCS thrusters again without deleting the earlier ones: 16 thrusters
more than after the first run, while the group types, the number of groups,
the propellant resources and stage 3 are as after the first run. -/
theorem configuration_rerun (a : Atlantis α) :
    (a.SetLaunchConfiguration.thrusters.length = 17 ∧
      a.SetLaunchConfiguration.SetLaunchConfiguration.thrusters.length = 17 ∧
      a.SetLaunchConfiguration.groups.length = 8 ∧
      groupTypes a.SetLaunchConfiguration.SetLaunchConfiguration.toVESSEL =
        groupTypes a.SetLaunchConfiguration.toVESSEL ∧
      a.SetLaunchConfiguration.SetLaunchConfiguration.groups.length =
        a.SetLaunchConfiguration.groups.length ∧
      a.SetLaunchConfiguration.SetLaunchConfiguration.propellants =
        a.SetLaunchConfiguration.propellants ∧
      a.SetLaunchConfiguration.status = 0 ∧
      a.SetLaunchConfiguration.SetLaunchConfiguration.status = 0) ∧
    (a.SetOrbiterTankConfiguration.SetOrbiterTankConfiguration.thrusters.map
          (fun t => t.handle) =
        a.SetOrbiterTankConfiguration.thrusters.map (fun t => t.handle) ∧
      a.SetOrbiterTankConfiguration.SetOrbiterTankConfiguration.groups =
        a.SetOrbiterTankConfiguration.groups ∧
      a.SetOrbiterTankConfiguration.SetOrbiterTankConfiguration.propellants =
        a.SetOrbiterTankConfiguration.propellants ∧
      a.SetOrbiterTankConfiguration.status = 2 ∧
      a.SetOrbiterTankConfiguration.SetOrbiterTankConfiguration.status = 2) ∧
    (a.SetOrbiterConfiguration.SetOrbiterConfiguration.thrusters.length =
        a.SetOrbiterConfiguration.thrusters.length + 16 ∧
      groupTypes a.SetOrbiterConfiguration.SetOrbiterConfiguration.toVESSEL =
        groupTypes a.SetOrbiterConfiguration.toVESSEL ∧
      a.SetOrbiterConfiguration.SetOrbiterConfiguration.groups.length =
        a.SetOrbiterConfiguration.groups.length ∧
      a.SetOrbiterConfiguration.SetOrbiterConfiguration.propellants =
        a.SetOrbiterConfiguration.propellants ∧
      a.SetOrbiterConfiguration.status = 3 ∧
      a.SetOrbiterConfiguration.SetOrbiterConfiguration.status = 3) := by
  refine ⟨?_, ?_, ?_⟩
  · generalize hb : a.SetLaunchConfiguration = b
    generalize hc : b.SetLaunchConfiguration = c
    obtain ⟨b1, b2, _⟩ := SetLaunchConfiguration_count a b hb
    obtain ⟨c1, c2, c3⟩ := SetLaunchConfiguration_count b c hc
    obtain ⟨s1, n1, n2, n3⟩ := SetLaunchConfiguration_handles a b hb
    have hty : groupTypes c.toVESSEL = groupTypes b.toVESSEL := by rw [c2, b2]
    have hlen : c.groups.length = b.groups.length := by
      have := congrArg List.length hty
      simpa [groupTypes] using this
    have h8 : b.groups.length = 8 := by
      have := congrArg List.length b2
      simpa [groupTypes] using this
    exact ⟨b1, c1, h8, hty, hlen, c3 n1 n2 n3, s1, (SetLaunchConfiguration_handles b c hc).1⟩
  · generalize hb : a.SetOrbiterTankConfiguration = b
    generalize hc : b.SetOrbiterTankConfiguration = c
    obtain ⟨n1, n2⟩ := SetOrbiterTankConfiguration_handles a b hb
    obtain ⟨d1, d2⟩ := SetOrbiterTankConfiguration_defined a b hb
    obtain ⟨r1, r2, r3, r4⟩ := SetOrbiterTankConfiguration_rerun b c hc n1 n2 d1 d2
    exact ⟨r1, r2, r3, (SetOrbiterTankConfiguration_facts a b hb).1, r4⟩
  · generalize hb : a.SetOrbiterConfiguration = b
    generalize hc : b.SetOrbiterConfiguration = c
    obtain ⟨_, h2, h3, h4, h5, h6, h7⟩ := SetOrbiterConfiguration_twice a b c hb hc
    exact ⟨h2, h3, h4, h5, h6, h7⟩

theorem readScenario_append {β : Type} (pre post : List (ScenarioLine β)) (r : Int × β) :
    readScenario (pre ++ post) r = readScenario post (readScenario pre r) := by
  induction pre generalizing r with
  | nil => rfl
  | cons l rest ih =>
    cases l with
    | CONFIGURATION status => exact ih _
    | MET met => exact ih _
    | other => exact ih _

theorem readScenario_no_configuration {β : Type} (scn : List (ScenarioLine β)) (r : Int × β)
    (h : ∀ l ∈ scn, ∀ k, l ≠ ScenarioLine.CONFIGURATION k) :
    (readScenario scn r).1 = r.1 := by
  induction scn generalizing r with
  | nil => rfl
  | cons l rest ih =>
    have hr : ∀ l ∈ rest, ∀ k, l ≠ ScenarioLine.CONFIGURATION k :=
      fun l hl k => h l (List.mem_cons_of_mem _ hl) k
    cases l with
    | CONFIGURATION status => exact absurd rfl (h _ (List.mem_cons_self _ _) status)
    | MET met => exact ih _ hr
    | other => exact ih _ hr

theorem loadSwitch_status (a : Atlantis α) (met : α) :
    (if a.status = 0 then a.SetLaunchConfiguration
      else if a.status = 1 then a.SetPostLaunchConfiguration met
      else if a.status = 2 then a.SetOrbiterTankConfiguration
      else if a.status = 3 then a.SetOrbiterConfiguration
      else a).status = a.status := by
  by_cases h0 : a.status = 0
  · simp only [if_pos h0]
    exact (SetLaunchConfiguration_handles a _ rfl).1.trans h0.symm
  · by_cases h1 : a.status = 1
    · simp only [if_neg h0, if_pos h1]
      exact (show (a.SetPostLaunchConfiguration met).status = 1 from rfl).trans h1.symm
    · by_cases h2 : a.status = 2
      · simp only [if_neg h0, if_neg h1, if_pos h2]
        exact (SetOrbiterTankConfiguration_facts a _ rfl).1.trans h2.symm
      · by_cases h3 : a.status = 3
        · simp only [if_neg h0, if_neg h1, if_neg h2, if_pos h3]
          exact (SetOrbiterConfiguration_facts a _ rfl).1.trans h3.symm
        · simp only [if_neg h0, if_neg h1, if_neg h2, if_neg h3]

/-- After `clbkLoadStateEx` the member `status` holds what the read loop left
in it: each of the four configuration routines sets the stage it was selected
for, and any other value is left alone. -/
theorem clbkLoadStateEx_status (a : Atlantis α) (scn : List (ScenarioLine α)) :
    (a.clbkLoadStateEx scn).status = (readScenario scn (a.status, 0.0)).1 :=
  loadSwitch_status { a with status := (readScenario scn (a.status, 0.0)).1 }
    (readScenario scn (a.status, 0.0)).2

/-- C19, amended: a newly constructed Atlantis vehicle (constructor only) has
`status = 3` (orbiter only, the TankSeparated value) and
`bManualSeparate = false`.  A per-step update and a `Jettison` call leave that
state as it is.  The state-set callback `clbkSetStateEx` leaves `status = 3`,
whatever the host's default initialisation does to the host state.  A scenario
load `clbkLoadStateEx` leaves `status = 3` when the scenario has no
`CONFIGURATION` line, and otherwise leaves in `status` the value of the last
`CONFIGURATION` line; so the vehicle is in stage 0 (Assembled) after loading a
scenario whose last `CONFIGURATION` line reads 0. -/
theorem new_status (m : Libm α) (GetSRB_State : α → α × α) (v : VESSEL α) (t0 simt : α) :
    (Atlantis.new v t0).status = 3 ∧
    (Atlantis.new v t0).bManualSeparate = false ∧
    (Atlantis.new v t0).clbkPostStep m GetSRB_State simt = Atlantis.new v t0 ∧
    (Atlantis.new v t0).Jettison GetSRB_State = Atlantis.new v t0 ∧
    (∀ DefSetStateEx : VESSEL α → VESSEL α,
      ((Atlantis.new v t0).clbkSetStateEx DefSetStateEx).status = 3) ∧
    (∀ scn : List (ScenarioLine α), (∀ l ∈ scn, ∀ k, l ≠ ScenarioLine.CONFIGURATION k) →
      ((Atlantis.new v t0).clbkLoadStateEx scn).status = 3) ∧
    (∀ (pre post : List (ScenarioLine α)) (k : Int),
      (∀ l ∈ post, ∀ j, l ≠ ScenarioLine.CONFIGURATION j) →
      ((Atlantis.new v t0).clbkLoadStateEx
        (pre ++ ScenarioLine.CONFIGURATION k :: post)).status = k) := by
  have h3 : (Atlantis.new v t0).status = 3 := rfl
  have hm : (Atlantis.new v t0).bManualSeparate = false := rfl
  refine ⟨h3, hm, ?_, ?_, ?_, ?_, ?_⟩
  · apply (clbkPostStep_status3 m GetSRB_State _ simt h3).2
    rw [hm]
    rintro ⟨hf, _⟩
    exact Bool.false_ne_true hf
  · unfold Jettison
    rw [if_pos (Or.inr h3)]
  · intro DefSetStateEx
    exact (SetOrbiterConfiguration_facts _ _ rfl).1
  · intro scn hscn
    rw [clbkLoadStateEx_status, readScenario_no_configuration scn _ hscn]
    exact h3
  · intro pre post k hpost
    rw [clbkLoadStateEx_status, readScenario_append]
    show (readScenario post (k, (readScenario pre ((Atlantis.new v t0).status, 0.0)).2)).1 = k
    exact readScenario_no_configuration post _ hpost

/-- Witness for `new_status`: a newly constructed vehicle loads a scenario with
the lines `MET 50`, `CONFIGURATION 0` and one other line, and is in stage 0. -/
theorem new_status_witness :
    (∀ l ∈ [(ScenarioLine.other : ScenarioLine ℝ)], ∀ j, l ≠ ScenarioLine.CONFIGURATION j) ∧
    ((Atlantis.new (Sample.host ℝ 0) 0).clbkLoadStateEx
      ([ScenarioLine.MET 50] ++ ScenarioLine.CONFIGURATION 0 :: [ScenarioLine.other])).status
      = 0 :=
  have hp : ∀ l ∈ [(ScenarioLine.other : ScenarioLine ℝ)], ∀ j,
      l ≠ ScenarioLine.CONFIGURATION j := by
    intro l hl j e
    rw [List.mem_singleton] at hl
    rw [hl] at e
    exact ScenarioLine.noConfusion e
  ⟨hp, (new_status ⟨Real.sqrt, fun x y => x ^ y, fun x y => Real.sqrt (x * x + y * y)⟩
    (fun _ => (0, 0)) (Sample.host ℝ 0) 0 0).2.2.2.2.2.2 [ScenarioLine.MET 50]
    [ScenarioLine.other] 0 hp⟩

end Atlantis

/-! ## Theorems: Atlantis_SRB -/

namespace Atlantis_SRB

variable {α : Type} [LinearOrderedField α]

/-- The loop of `SetRefTime`, entered at an index `i < SRB_nt` with enough
passes left and a fuel level not below the last table entry, is left at an
index `r` with `i ≤ r < SRB_nt`, the first from `i` on with
`fuel ≥ SRB_Prop[r]`. -/
theorem search_spec (T : SRBTables α) (fuel : α)
    (hlo : T.SRB_Prop (T.SRB_nt - 1) ≤ fuel) :
    ∀ (n i : Nat), i < T.SRB_nt → T.SRB_nt ≤ i + n →
      i ≤ search T fuel n i ∧ search T fuel n i < T.SRB_nt ∧
      T.SRB_Prop (search T fuel n i) ≤ fuel ∧
      ∀ j, i ≤ j → j < search T fuel n i → fuel < T.SRB_Prop j := by
  intro n
  induction n with
  | zero =>
    intro i hi hn
    omega
  | succ n ih =>
    intro i hi hn
    simp only [search, if_pos hi]
    by_cases hb : fuel ≥ T.SRB_Prop i
    · rw [if_pos hb]
      exact ⟨le_refl i, hi, hb, fun j h1 h2 => absurd h1 (not_le.mpr h2)⟩
    · rw [if_neg hb]
      have hne : i ≠ T.SRB_nt - 1 := by
        intro e
        rw [← e] at hlo
        exact hb hlo
      have hi1 : i + 1 < T.SRB_nt := by omega
      obtain ⟨h1, h2, h3, h4⟩ := ih (i + 1) hi1 (by omega)
      refine ⟨by omega, h2, h3, ?_⟩
      intro j hj1 hj2
      by_cases e : j = i
      · rw [e]
        exact not_le.mp hb
      · exact h4 j (by omega) hj2

/-- Counterexample to C23 as stated: a table of a single point (the
monotonicity conditions and the definition of the slopes hold vacuously, and
the fuel fraction 1 equals the only entry of `SRB_Prop`): the loop of
`SetRefTime` is not entered and the index is 1, outside `1..SRB_nt-1`. -/
theorem searchIndex_single_point :
    (Sample.singlePoint ℚ).SRB_nt = 1 ∧
    (∀ j k, j < k → k < (Sample.singlePoint ℚ).SRB_nt →
      (Sample.singlePoint ℚ).SRB_Seq j < (Sample.singlePoint ℚ).SRB_Seq k) ∧
    (∀ j k, j < k → k < (Sample.singlePoint ℚ).SRB_nt →
      (Sample.singlePoint ℚ).SRB_Prop k < (Sample.singlePoint ℚ).SRB_Prop j) ∧
    (∀ k, k + 1 < (Sample.singlePoint ℚ).SRB_nt →
      (Sample.singlePoint ℚ).SRB_PrpSCL k =
        ((Sample.singlePoint ℚ).SRB_Prop (k + 1) - (Sample.singlePoint ℚ).SRB_Prop k) /
          ((Sample.singlePoint ℚ).SRB_Seq (k + 1) - (Sample.singlePoint ℚ).SRB_Seq k)) ∧
    (Sample.singlePoint ℚ).SRB_Prop ((Sample.singlePoint ℚ).SRB_nt - 1) ≤
      (Sample.fullBooster ℚ).GetFuelMass / (Sample.fullBooster ℚ).GetMaxFuelMass ∧
    (Sample.fullBooster ℚ).GetFuelMass / (Sample.fullBooster ℚ).GetMaxFuelMass ≤
      (Sample.singlePoint ℚ).SRB_Prop 0 ∧
    searchIndex (Sample.singlePoint ℚ) (Sample.fullBooster ℚ) = 1 ∧
    ¬ (1 ≤ searchIndex (Sample.singlePoint ℚ) (Sample.fullBooster ℚ) ∧
      searchIndex (Sample.singlePoint ℚ) (Sample.fullBooster ℚ) ≤
        (Sample.singlePoint ℚ).SRB_nt - 1) := by
  have hn : (Sample.singlePoint ℚ).SRB_nt = 1 := rfl
  have hidx : searchIndex (Sample.singlePoint ℚ) (Sample.fullBooster ℚ) = 1 := by
    simp [searchIndex, search, Sample.singlePoint]
  refine ⟨rfl, ?_, ?_, ?_, ?_, ?_, hidx, ?_⟩
  · intro j k h1 h2
    rw [hn] at h2
    omega
  · intro j k h1 h2
    rw [hn] at h2
    omega
  · intro k h
    rw [hn] at h
    omega
  · norm_num [Sample.singlePoint, Sample.fullBooster]
  · norm_num [Sample.singlePoint, Sample.fullBooster]
  · rw [hidx, hn]
    decide

/-- On a segment from `(S0, P0)` down to `(S1, P1)` the time
`S1 + (f - P1)/c`, with `c` the slope, lies on the segment, the line through
the end points takes the value `f` there, and nowhere else. -/
theorem segment_inverse (S0 S1 P0 P1 f : α) (hS : S0 < S1) (hP : P1 < P0)
    (h1 : P1 ≤ f) (h2 : f ≤ P0) :
    S0 ≤ S1 + (f - P1) / ((P1 - P0) / (S1 - S0)) ∧
    S1 + (f - P1) / ((P1 - P0) / (S1 - S0)) ≤ S1 ∧
    f = P0 + (S1 + (f - P1) / ((P1 - P0) / (S1 - S0)) - S0) * ((P1 - P0) / (S1 - S0)) ∧
    ∀ t, f = P0 + (t - S0) * ((P1 - P0) / (S1 - S0)) →
      t = S1 + (f - P1) / ((P1 - P0) / (S1 - S0)) := by
  have hdS : 0 < S1 - S0 := by linarith
  have hdP : P1 - P0 < 0 := by linarith
  have hc : (P1 - P0) / (S1 - S0) < 0 := div_neg_of_neg_of_pos hdP hdS
  have hcne : (P1 - P0) / (S1 - S0) ≠ 0 := ne_of_lt hc
  have hcS : (P1 - P0) / (S1 - S0) * (S1 - S0) = P1 - P0 := div_mul_cancel₀ _ (ne_of_gt hdS)
  generalize (P1 - P0) / (S1 - S0) = c at hc hcne hcS ⊢
  have hq : (f - P1) / c * c = f - P1 := div_mul_cancel₀ _ hcne
  have h3 : f = P0 + (S1 + (f - P1) / c - S0) * c := by
    linear_combination (-1 : α) * hq - hcS
  refine ⟨?_, ?_, h3, ?_⟩
  · have : S0 - S1 ≤ (f - P1) / c := by
      rw [le_div_iff_of_neg hc]
      nlinarith
    linarith
  · have : (f - P1) / c ≤ 0 := div_nonpos_of_nonneg_of_nonpos (by linarith) (le_of_lt hc)
    linarith
  · intro t ht
    have e : (t - S0) * c = (S1 + (f - P1) / c - S0) * c := by
      linear_combination h3 - ht
    have := mul_right_cancel₀ hcne e
    linarith

/-- On a segment from `(S0, P0)` down to `(S1, P1)` the line through the end
points stays between `P1` and `P0`, and takes the value `P0` only at `S0`. -/
theorem segment_range (S0 S1 P0 P1 t : α) (hS : S0 < S1) (hP : P1 < P0)
    (h1 : S0 ≤ t) (h2 : t ≤ S1) :
    P1 ≤ P0 + (t - S0) * ((P1 - P0) / (S1 - S0)) ∧
    P0 + (t - S0) * ((P1 - P0) / (S1 - S0)) ≤ P0 ∧
    (P0 + (t - S0) * ((P1 - P0) / (S1 - S0)) = P0 → t = S0) := by
  have hdS : 0 < S1 - S0 := by linarith
  have hdP : P1 - P0 < 0 := by linarith
  have hc : (P1 - P0) / (S1 - S0) < 0 := div_neg_of_neg_of_pos hdP hdS
  have hcne : (P1 - P0) / (S1 - S0) ≠ 0 := ne_of_lt hc
  have hcS : (P1 - P0) / (S1 - S0) * (S1 - S0) = P1 - P0 := div_mul_cancel₀ _ (ne_of_gt hdS)
  generalize (P1 - P0) / (S1 - S0) = c at hc hcne hcS ⊢
  refine ⟨?_, ?_, ?_⟩
  · nlinarith
  · nlinarith
  · intro h
    have e : (t - S0) * c = 0 := by linarith
    rcases mul_eq_zero.mp e with h0 | h0
    · linarith
    · exact absurd h0 hcne

/-- Claim C23, amended: for tables of at least two points, with `SRB_Seq`
strictly increasing, `SRB_Prop` strictly decreasing and
`SRB_PrpSCL[k] = (SRB_Prop[k+1]-SRB_Prop[k])/(SRB_Seq[k+1]-SRB_Seq[k])`, and a
fuel fraction `f = GetFuelMass/GetMaxFuelMass` with
`SRB_Prop[SRB_nt-1] ≤ f ≤ SRB_Prop[0]`, the index found by the loop of
`SetRefTime` lies in `1..SRB_nt-1`, and `SetRefTime` sets `t0 = simTime - met`
and changes nothing else, where `met` lies on the segment ending at the index
and is the one time at which the piecewise-linear propellant curve through the
points `(SRB_Seq[k], SRB_Prop[k])` takes the value `f`. -/
theorem SetRefTime_inverts (T : SRBTables α) (s : Atlantis_SRB α)
    (hnt : 2 ≤ T.SRB_nt)
    (hSeq : ∀ j k, j < k → k < T.SRB_nt → T.SRB_Seq j < T.SRB_Seq k)
    (hProp : ∀ j k, j < k → k < T.SRB_nt → T.SRB_Prop k < T.SRB_Prop j)
    (hScl : ∀ k, k + 1 < T.SRB_nt → T.SRB_PrpSCL k =
      (T.SRB_Prop (k + 1) - T.SRB_Prop k) / (T.SRB_Seq (k + 1) - T.SRB_Seq k))
    (hlo : T.SRB_Prop (T.SRB_nt - 1) ≤ s.GetFuelMass / s.GetMaxFuelMass)
    (hhi : s.GetFuelMass / s.GetMaxFuelMass ≤ T.SRB_Prop 0) :
    1 ≤ searchIndex T s ∧ searchIndex T s ≤ T.SRB_nt - 1 ∧
    clbkPostCreation T s = { s with t0 := s.oapiGetSimTime - met T s } ∧
    T.SRB_Seq (searchIndex T s - 1) ≤ met T s ∧ met T s ≤ T.SRB_Seq (searchIndex T s) ∧
    OnBurnCurve T (met T s) (s.GetFuelMass / s.GetMaxFuelMass) ∧
    ∀ t, OnBurnCurve T t (s.GetFuelMass / s.GetMaxFuelMass) → t = met T s := by
  suffices key : 1 ≤ searchIndex T s ∧ searchIndex T s ≤ T.SRB_nt - 1 ∧
      T.SRB_Seq (searchIndex T s - 1) ≤ met T s ∧ met T s ≤ T.SRB_Seq (searchIndex T s) ∧
      OnBurnCurve T (met T s) (s.GetFuelMass / s.GetMaxFuelMass) ∧
      ∀ t, OnBurnCurve T t (s.GetFuelMass / s.GetMaxFuelMass) → t = met T s from
    ⟨key.1, key.2.1, rfl, key.2.2⟩
  obtain ⟨r1, r2, r3, r4⟩ :=
    search_spec T (s.GetFuelMass / s.GetMaxFuelMass) hlo T.SRB_nt 1 (by omega) (by omega)
  have hr : search T (s.GetFuelMass / s.GetMaxFuelMass) T.SRB_nt 1 = searchIndex T s := rfl
  have hmet : met T s = T.SRB_Seq (searchIndex T s) +
      (s.GetFuelMass / s.GetMaxFuelMass - T.SRB_Prop (searchIndex T s)) /
        T.SRB_PrpSCL (searchIndex T s - 1) := rfl
  rw [hr] at r1 r2 r3 r4
  rw [hmet]
  generalize searchIndex T s = r at r1 r2 r3 r4 ⊢
  generalize s.GetFuelMass / s.GetMaxFuelMass = f at hlo hhi r3 r4 ⊢
  obtain ⟨k0, rfl⟩ : ∃ k0, r = k0 + 1 := ⟨r - 1, by omega⟩
  have hk0 : k0 + 1 - 1 = k0 := by omega
  rw [hk0, hScl k0 r2]
  have hS : T.SRB_Seq k0 < T.SRB_Seq (k0 + 1) := hSeq k0 (k0 + 1) (by omega) r2
  have hP : T.SRB_Prop (k0 + 1) < T.SRB_Prop k0 := hProp k0 (k0 + 1) (by omega) r2
  have hf0 : f ≤ T.SRB_Prop k0 := by
    by_cases e : k0 = 0
    · rw [e]
      exact hhi
    · exact le_of_lt (r4 k0 (by omega) (by omega))
  obtain ⟨s1, s2, s3, s4⟩ := segment_inverse (T.SRB_Seq k0) (T.SRB_Seq (k0 + 1))
    (T.SRB_Prop k0) (T.SRB_Prop (k0 + 1)) f hS hP r3 hf0
  refine ⟨by omega, by omega, s1, s2, ⟨k0, by omega, s1, s2, s3⟩, ?_⟩
  rintro t ⟨k, hk, hk1, hk2, hy⟩
  have hk3 : k + 1 < T.SRB_nt := by omega
  have hSk : T.SRB_Seq k < T.SRB_Seq (k + 1) := hSeq k (k + 1) (by omega) hk3
  have hPk : T.SRB_Prop (k + 1) < T.SRB_Prop k := hProp k (k + 1) (by omega) hk3
  obtain ⟨q1, q2, q3⟩ := segment_range (T.SRB_Seq k) (T.SRB_Seq (k + 1))
    (T.SRB_Prop k) (T.SRB_Prop (k + 1)) t hSk hPk hk1 hk2
  rw [← hy] at q1 q2 q3
  rcases lt_trichotomy k k0 with hlt | heq | hgt
  · exact absurd q1 (not_le.mpr (r4 (k + 1) (by omega) (by omega)))
  · subst heq
    exact s4 t hy
  · have hle : T.SRB_Prop k ≤ T.SRB_Prop (k0 + 1) := by
      by_cases e : k = k0 + 1
      · rw [e]
      · exact le_of_lt (hProp (k0 + 1) k (by omega) (by omega))
    have hfk : f = T.SRB_Prop k := le_antisymm q2 (le_trans hle r3)
    have hkk : k = k0 + 1 := by
      by_contra e
      have : T.SRB_Prop k < T.SRB_Prop (k0 + 1) := hProp (k0 + 1) k (by omega) (by omega)
      exact absurd r3 (not_le.mpr (lt_of_le_of_lt q2 this))
    subst hkk
    rw [q3 hfk, hfk]
    simp

/-- Witness for `SetRefTime_inverts`: the three-point sample profile and a
booster with three quarters of its propellant left, created at time 200: the
mission time is 30 s and the reference time 170. -/
theorem SetRefTime_inverts_witness :
    2 ≤ (Sample.profile ℚ).SRB_nt ∧
    met (Sample.profile ℚ) (Sample.booster ℚ) = 30 ∧
    (clbkPostCreation (Sample.profile ℚ) (Sample.booster ℚ)).t0 = 170 ∧
    OnBurnCurve (Sample.profile ℚ) (met (Sample.profile ℚ) (Sample.booster ℚ))
      ((Sample.booster ℚ).GetFuelMass / (Sample.booster ℚ).GetMaxFuelMass) := by
  have hmet : met (Sample.profile ℚ) (Sample.booster ℚ) = 30 := by
    norm_num [met, searchIndex, search, Sample.profile, Sample.booster]
  have hSeq : ∀ j k, j < k → k < (Sample.profile ℚ).SRB_nt →
      (Sample.profile ℚ).SRB_Seq j < (Sample.profile ℚ).SRB_Seq k := by
    intro j k h1 h2
    have h3 : k < 3 := h2
    have hk : k = 1 ∨ k = 2 := by omega
    rcases hk with rfl | rfl
    · have hj : j = 0 := by omega
      subst hj
      norm_num [Sample.profile]
    · have hj : j = 0 ∨ j = 1 := by omega
      rcases hj with rfl | rfl <;> norm_num [Sample.profile]
  have hProp : ∀ j k, j < k → k < (Sample.profile ℚ).SRB_nt →
      (Sample.profile ℚ).SRB_Prop k < (Sample.profile ℚ).SRB_Prop j := by
    intro j k h1 h2
    have h3 : k < 3 := h2
    have hk : k = 1 ∨ k = 2 := by omega
    rcases hk with rfl | rfl
    · have hj : j = 0 := by omega
      subst hj
      norm_num [Sample.profile]
    · have hj : j = 0 ∨ j = 1 := by omega
      rcases hj with rfl | rfl <;> norm_num [Sample.profile]
  have hScl : ∀ k, k + 1 < (Sample.profile ℚ).SRB_nt → (Sample.profile ℚ).SRB_PrpSCL k =
      ((Sample.profile ℚ).SRB_Prop (k + 1) - (Sample.profile ℚ).SRB_Prop k) /
        ((Sample.profile ℚ).SRB_Seq (k + 1) - (Sample.profile ℚ).SRB_Seq k) := by
    intro k h
    have h3 : k + 1 < 3 := h
    have hk : k = 0 ∨ k = 1 := by omega
    rcases hk with rfl | rfl <;> norm_num [Sample.profile]
  have h := SetRefTime_inverts (Sample.profile ℚ) (Sample.booster ℚ) (by decide) hSeq hProp hScl
    (by norm_num [Sample.profile, Sample.booster])
    (by norm_num [Sample.profile, Sample.booster])
  refine ⟨by decide, hmet, ?_, h.2.2.2.2.2.1⟩
  rw [h.2.2.1]
  show (Sample.booster ℚ).oapiGetSimTime - met (Sample.profile ℚ) (Sample.booster ℚ) = 170
  rw [hmet]
  norm_num [Sample.booster]

end Atlantis_SRB

end Orbiter
